import Mathlib

/-!
# RMM IPMI JSON-RPC bridge (`RSA-SW/RMM/src/module/ipmi_module/ipmi_jrpc.c`)

A shallow embedding of the request path of `ipmi_jrpc.c`: message-id
generation, the envelope encoder `convert_ipmi_appmsg`, the four transport
formatters, the handler table with its positional (`va_list`) dispatch and
the four request parsers.

Conventions of the embedding

* Machine integers are `Nat`/`Int`; every cast that is written in the source
  is modelled by an explicit reduction modulo `2 ^ w` (`char` 8 bits, `short`
  16, `int` 32, `long` 64).
* A C string is a `String` whose characters stand for its bytes, so that
  `strlen` is `String.length`.
* A pointer argument that the source tests against `NULL` is an `Option`.
* The process state the code can change is `State`: the static counter of
  `gen_req_msgid` and the contents of the caller's destination buffer.
* Constants, macros and key names that `ipmi_jrpc.c` takes from headers which
  are not part of the sources are fields of `Headers`; the theorems hold for
  every value of them unless a hypothesis says otherwise.
* `malloc` is taken to succeed; logging (`rmm_log`, `dump_hex_ascii`) has no
  effect on the state and is left out.
* Functions of the C library are modelled with the results of the GNU C
  library on an LP64 target; in particular `atoi` returns an `int`, also for
  a text whose value does not fit one.

The reply path (`jrpc_string_build`, `format_app_jrpc_to_user`), the two entry
points of the orchestrator and, from the PSME storage agent,
`TgtTargetConfig::to_string` (`tgt_target_config.cpp`, where a C++ exception is
the error of an `Except`) are embedded as well.
-/

namespace IpmiJrpc

/-! ## Constants taken from absent headers -/

/-- Constants, macros and JSON key names used by `ipmi_jrpc.c` whose
definitions live in headers outside the sources (`ipmi.h`, `libutils/rmm.h`,
`libjipmi/jrpc_ipmi.h`, ...), together with the two properties of the C target
the code depends on. -/
structure Headers where
  IPMI_DFLT_TIMEOUT_MS : Nat
  IPMI_MAX_TIMEOUT_MS : Nat
  IPMI_MAX_DATA_LENGTH : Nat
  APP_MSG_HDR_SIZE : Nat
  APPMSG_IPMI_MSG : Nat
  /-- Size of `struct appmsg_ipmi_msg` up to its payload bytes. -/
  APPMSG_IPMI_HDR_LEN : Nat
  JRPC_METHOD_MAX : Nat
  /-- Size of the text buffers of the reply path. -/
  IPMI_JSONRPC_MAX_STRING_LEN : Nat
  RMCP_USERNAME_LEN : Nat
  RMCP_PASSWORD_LEN : Nat
  IPMI_ADDR_TYPE_RMCP : Nat
  IPMI_ADDR_TYPE_IPMB : Nat
  IPMI_ADDR_TYPE_SERIAL : Nat
  IPMI_BMC_CMD_LUN : Nat
  IPMI_BMC_SLAVE_ADDR : Nat
  IPMI_BRIDGE_NETFN_APP : Nat
  IPMI_BRIDGE_IPMI_CMD : Nat
  IPMI_BRIDGE_MSG_NONE : Int
  IPMI_SERIAL_OPEN_DEV : Nat
  IPMI_SERIAL_CLOSE_DEV : Nat
  IPMI_SERIAL_OPERATION : Nat
  STR_NETFN : String
  STR_CMD : String
  STR_DATA_LEN : String
  STR_DATA : String
  STR_TARGET_IP : String
  STR_TARGET_PORT : String
  STR_NAME : String
  STR_PASSWD : String
  STR_IPMB_SRC_ADDR : String
  STR_SERIAL_FLAG : String
  STR_SERIAL_FD : String
  STR_TRANSIT_ADDR : String
  STR_TRANSIT_CH : String
  STR_TARGET_ADDR : String
  STR_TARGET_CH : String
  STR_BRIDGE_LEVEL : String
  STR_RSP_TYPE : String
  STR_RSP_TYPE_UDP : String
  JSON_RPC_IPMB_REQ : String
  JSON_RPC_RMCP_REQ : String
  JSON_RPC_SERIAL_OP_REQ : String
  JSON_RPC_SERIAL_CMD_REQ : String
  JSON_RPC_RMCP_BR_REQ : String
  IPMI_IPMB_BCAST_ADDR : Nat
  /-- Plain `char` is a signed type on the target. -/
  CHAR_SIGNED : Bool
  /-- The target stores integers least significant byte first. -/
  LITTLE_ENDIAN : Bool

/-- The macro `STR_PARAMS`: the key of the nested parameter object. -/
def STR_PARAMS : String := "params"

/-- The macro `MAX_KEY_NAME`: the size of the buffers that receive a field. -/
def MAX_KEY_NAME : Nat := 32

/-- The largest value of `unsigned int` (32 bits). -/
def UINT_MAX : Nat := 4294967295

/-- One instantiation of the absent constants, used to evaluate the embedding
on concrete inputs. The key and method names follow the request shown in the
specification; the numeric values are representative only. -/
def sampleHeaders : Headers where
  IPMI_DFLT_TIMEOUT_MS := 1000
  IPMI_MAX_TIMEOUT_MS := 60000
  IPMI_MAX_DATA_LENGTH := 256
  APP_MSG_HDR_SIZE := 8
  APPMSG_IPMI_MSG := 1
  APPMSG_IPMI_HDR_LEN := 128
  JRPC_METHOD_MAX := 32
  IPMI_JSONRPC_MAX_STRING_LEN := 1024
  RMCP_USERNAME_LEN := 16
  RMCP_PASSWORD_LEN := 16
  IPMI_ADDR_TYPE_RMCP := 1
  IPMI_ADDR_TYPE_IPMB := 2
  IPMI_ADDR_TYPE_SERIAL := 3
  IPMI_BMC_CMD_LUN := 0
  IPMI_BMC_SLAVE_ADDR := 32
  IPMI_BRIDGE_NETFN_APP := 6
  IPMI_BRIDGE_IPMI_CMD := 52
  IPMI_BRIDGE_MSG_NONE := 0
  IPMI_SERIAL_OPEN_DEV := 1
  IPMI_SERIAL_CLOSE_DEV := 2
  IPMI_SERIAL_OPERATION := 3
  STR_NETFN := "netfn"
  STR_CMD := "cmd"
  STR_DATA_LEN := "data_len"
  STR_DATA := "data"
  STR_TARGET_IP := "target_ip"
  STR_TARGET_PORT := "target_port"
  STR_NAME := "name"
  STR_PASSWD := "passwd"
  STR_IPMB_SRC_ADDR := "src_addr"
  STR_SERIAL_FLAG := "serial_flag"
  STR_SERIAL_FD := "serial_fd"
  STR_TRANSIT_ADDR := "transit_addr"
  STR_TRANSIT_CH := "transit_ch"
  STR_TARGET_ADDR := "target_addr"
  STR_TARGET_CH := "target_ch"
  STR_BRIDGE_LEVEL := "bridge_level"
  STR_RSP_TYPE := "rsp_type"
  STR_RSP_TYPE_UDP := "udp"
  JSON_RPC_IPMB_REQ := "ipmb_req"
  JSON_RPC_RMCP_REQ := "rmcp_req"
  JSON_RPC_SERIAL_OP_REQ := "serial_op_req"
  JSON_RPC_SERIAL_CMD_REQ := "serial_cmd_req"
  JSON_RPC_RMCP_BR_REQ := "rmcp_br_req"
  IPMI_IPMB_BCAST_ADDR := 0
  CHAR_SIGNED := true
  LITTLE_ENDIAN := true

/-! ## Data model -/

/-- The type `ipmi_json_ipc_header_t`: the JSON-RPC header carried with a request. -/
structure ipmi_json_ipc_header_t where
  ip : Nat
  port : Nat
  json_ipc_id : Int
  method : String
deriving DecidableEq

/-- The payload of `struct ipmi_addr` after `memset(&addr, 0, ...)` and the
writes of one formatter: nothing but zero bytes, the RMCP member or the IPMB
member. -/
inductive ipmi_addr_union where
  | zero
  | rmcp (host port : Nat) (username password : String)
  | ipmb (sa lun : Nat)
deriving DecidableEq

/-- The type `struct ipmi_addr`: a type tag and the addressing fields of one
transport. -/
structure ipmi_addr where
  type : Nat
  addr : ipmi_addr_union
deriving DecidableEq

/-- The member `union_app_req.bridge` of `struct ipmi_msg`. -/
structure bridge_t where
  bridge_level : Int
  my_addr : Nat
  transit_addr : Nat
  transit_channel : Nat
  target_addr : Nat
  target_channel : Nat
  br_netfn : Nat
  br_cmd : Nat
deriving DecidableEq

/-- The member `union_app_req.serial` of `struct ipmi_msg`. -/
structure serial_t where
  serial_flag : Nat
  serial_fd : Nat
deriving DecidableEq

/-- Modelled from the spec: `struct ipmi_msg`, whose declaration is in a header
outside the sources. Following the data model of the specification the
bridging and the serial descriptor are two independent components (the source
reaches them as `union_app_req.bridge` and `union_app_req.serial`; how the two
overlap in storage and how wide their fields are is fixed by the absent
declaration, so assignments to them are modelled without narrowing).
`data` holds the payload bytes; bytes of the array beyond the list are zero. -/
structure ipmi_msg where
  netfn : Nat
  cmd : Nat
  bridge : bridge_t
  serial : serial_t
  data_len : Nat
  data : List Nat
deriving DecidableEq

/-- The all-zero bridging descriptor. -/
def bridge_t.zero : bridge_t := ⟨0, 0, 0, 0, 0, 0, 0, 0⟩

/-- The all-zero serial descriptor. -/
def serial_t.zero : serial_t := ⟨0, 0⟩

/-- An `ipmi_msg` after `= {0}` or `memset(req, 0, sizeof(*req))`. -/
def ipmi_msg.zero : ipmi_msg := ⟨0, 0, bridge_t.zero, serial_t.zero, 0, []⟩

/-- The type `struct appmsg_ipmi_msg`: the body of the downstream envelope. -/
structure appmsg_ipmi_msg where
  id : Nat
  timeo : Nat
  user_port : Nat
  header : ipmi_json_ipc_header_t
  addr : ipmi_addr
  msg : ipmi_msg
deriving DecidableEq

/-- What one `memcpy(dest_msg, &(msg.hdr), n)` of `convert_ipmi_appmsg` leaves
in the destination buffer: the app-message header (`type`, `datalen`), the
IPMI body and the number `nbytes` of bytes copied. The flag `overread` is set
when the copy ran past the payload array of the local `msg`, which C leaves
undefined: the record then holds what the code has computed before the copy,
and says nothing on the payload bytes that reached the destination. -/
structure app_msg where
  type : Nat
  datalen : Nat
  ipmi : appmsg_ipmi_msg
  nbytes : Nat
  overread : Bool
deriving DecidableEq

/-- The state that the request path can change: the function-static counter
`msgid` of `gen_req_msgid`, and the contents of the destination buffer
(`none` as long as nothing has been written to it). -/
structure State where
  msgid : Nat
  dest : Option app_msg
deriving DecidableEq

/-- The state of a fresh process: `static unsigned int msgid = 1`, nothing
written yet. -/
def State.fresh : State := ⟨1, none⟩

/-- The `char *dest_msg` argument: `NULL`, or a pointer to the destination
buffer whose contents are `State.dest`. -/
inductive dest_ptr where
  | NULL
  | buffer
deriving DecidableEq

/-! ## Message ids and the envelope encoder -/

/-- The function `gen_req_msgid`: pre-increment the 32-bit static counter, replace 0 by 1,
return the new counter. The result is the pair (returned id, new counter). -/
def gen_req_msgid (msgid : Nat) : Nat × Nat :=
  let m := (msgid + 1) % 2 ^ 32
  let m := if m = 0 then 1 else m
  (m, m)

/-- Modelled from the spec: the macro `APPMSG_IPMI_MSG_LEN`, defined in an
absent header; "record length = fixed header size + actual payload length". -/
def APPMSG_IPMI_MSG_LEN (L : Headers) (data_len : Nat) : Nat :=
  L.APPMSG_IPMI_HDR_LEN + data_len

/-- The timeout computation of `convert_ipmi_appmsg` (`new_timeo`). -/
def new_timeo (L : Headers) (timeo : Nat) : Nat :=
  let t := timeo
  let t := if timeo > L.IPMI_MAX_TIMEOUT_MS then L.IPMI_MAX_TIMEOUT_MS else t
  let t := if timeo = 0 then L.IPMI_DFLT_TIMEOUT_MS else t
  t

/-- A call `memcpy(dst, src, n)` out of a byte array whose bytes beyond the list
`src` are zero, into zeroed storage: the `n` bytes read. -/
def memcpy_bytes (src : List Nat) (n : Nat) : List Nat :=
  (List.range n).map (fun i => src.getD i 0)

/-- The body `ipmi` built by `convert_ipmi_appmsg` from non-NULL arguments,
given the id obtained from `gen_req_msgid`, as it stands in the local `msg`
before the final copy. For a declared length of 0 or above
`IPMI_MAX_DATA_LENGTH` the guarded payload copy does not run and `data` holds
no byte of the message. -/
def build_appmsg (L : Headers) (id : Nat) (addr : ipmi_addr) (req : ipmi_msg)
    (header : ipmi_json_ipc_header_t) (timeo : Nat) : appmsg_ipmi_msg :=
  -- memset(ipmi, 0, ...); id, timeo, user_port, header
  let method := if header.method.length < L.JRPC_METHOD_MAX then header.method else ""
  let hdr : ipmi_json_ipc_header_t :=
    { ip := header.ip, port := header.port, json_ipc_id := header.json_ipc_id, method := method }
  -- bridging descriptor
  let br : bridge_t :=
    if L.IPMI_BRIDGE_MSG_NONE ≠ req.bridge.bridge_level then
      { bridge_level := req.bridge.bridge_level
        my_addr := req.bridge.my_addr
        transit_addr := req.bridge.transit_addr
        transit_channel := req.bridge.transit_channel
        target_addr := req.bridge.target_addr
        target_channel := req.bridge.target_channel
        br_netfn := req.bridge.br_netfn
        br_cmd := req.bridge.br_cmd }
    else
      { bridge_t.zero with bridge_level := req.bridge.bridge_level }
  -- serial descriptor
  let ser : serial_t :=
    if L.IPMI_SERIAL_OPEN_DEV = req.serial.serial_flag
        ∨ L.IPMI_SERIAL_CLOSE_DEV = req.serial.serial_flag then
      { serial_t.zero with serial_flag := req.serial.serial_flag }
    else if L.IPMI_SERIAL_OPERATION = req.serial.serial_flag then
      { serial_flag := req.serial.serial_flag, serial_fd := req.serial.serial_fd }
    else serial_t.zero
  -- payload
  let data :=
    if 0 < req.data_len ∧ req.data_len ≤ L.IPMI_MAX_DATA_LENGTH then
      memcpy_bytes req.data req.data_len
    else []
  { id := id
    timeo := new_timeo L timeo
    user_port := header.port
    header := hdr
    addr := addr
    msg := { netfn := req.netfn, cmd := req.cmd, bridge := br, serial := ser,
             data_len := req.data_len, data := data } }

/-- The encoder `convert_ipmi_appmsg`: returns the C return value and the new state.
The argument `broadcast` is not used by the body. The last statement copies
`datalen + APP_MSG_HDR_SIZE` bytes out of the local `msg`, whose payload array
has `IPMI_MAX_DATA_LENGTH` bytes: for a longer declared length the copy reads
past that array, and the envelope is flagged `overread`. -/
def convert_ipmi_appmsg (L : Headers) (st : State) (dest_msg : dest_ptr)
    (addr : Option ipmi_addr) (req : Option ipmi_msg) (header : ipmi_json_ipc_header_t)
    (timeo : Nat) (_broadcast : Int) : Int × State :=
  match dest_msg, addr, req with
  | dest_ptr.buffer, some addr, some req =>
    let datalen := APPMSG_IPMI_MSG_LEN L req.data_len
    let (id, msgid) := gen_req_msgid st.msgid
    let ipmi := build_appmsg L id addr req header timeo
    let env : app_msg :=
      { type := L.APPMSG_IPMI_MSG, datalen := datalen, ipmi := ipmi,
        nbytes := datalen + L.APP_MSG_HDR_SIZE,
        overread := decide (req.data_len > L.IPMI_MAX_DATA_LENGTH) }
    (0, { msgid := msgid, dest := some env })
  | _, _, _ => (-1, st)

/-! ## External capabilities: JSON values, `atoi`, hex decoding, socket helpers -/

/-- Modelled from the spec: a parsed JSON value of the external JSON library
(`json_t`), which the core only queries (object lookup by key, string value). -/
inductive json_t where
  | null
  | bool (b : Bool)
  | integer (v : Int)
  | string (s : String)
  | array (xs : List json_t)
  | object (members : List (String × json_t))

/-- Modelled from the spec: `json_object_get` of the JSON library, the member
stored under `key` in an object (the first one), `NULL` if there is none or
the value is not an object. -/
def json_object_get (obj : json_t) (key : String) : Option json_t :=
  match obj with
  | json_t.object members => (members.find? (fun m => m.1 == key)).map (fun m => m.2)
  | _ => none

/-- Modelled from the spec: `json_string_value` of the JSON library, the text
of a string value and `NULL` for every other kind of value. -/
def json_string_value (obj : json_t) : Option String :=
  match obj with
  | json_t.string s => some s
  | _ => none

/-- The C library predicate `isspace` in the "C" locale. -/
def isspace (c : Char) : Bool :=
  c.toNat = 32 || (9 ≤ c.toNat && c.toNat ≤ 13)

/-- The digit loop of `atoi`: accumulate leading decimal digits. -/
def atoi_digits (acc : Nat) : List Char → Nat
  | [] => acc
  | c :: cs =>
    if 48 ≤ c.toNat ∧ c.toNat ≤ 57 then atoi_digits (acc * 10 + (c.toNat - 48)) cs else acc

/-- The integer that a text denotes in decimal, as `strtol` and `atoi` read
it: white space is skipped, then an optional sign and the leading decimal
digits are read; text without digits denotes 0. This is the mathematical
integer, before a C type bounds it. -/
def decimal_value (s : String) : Int :=
  match s.data.dropWhile isspace with
  | '-' :: cs => - (atoi_digits 0 cs : Int)
  | '+' :: cs => (atoi_digits 0 cs : Int)
  | cs => (atoi_digits 0 cs : Int)

/-- The constant `LONG_MAX` of an LP64 target. -/
def LONG_MAX : Int := 9223372036854775807

/-- The constant `LONG_MIN` of an LP64 target. -/
def LONG_MIN : Int := -9223372036854775808

/-- The C library call `strtol(s, NULL, 10)`: the integer that the text
denotes, saturated to the range of `long`. -/
def strtol (s : String) : Int :=
  if decimal_value s > LONG_MAX then LONG_MAX
  else if decimal_value s < LONG_MIN then LONG_MIN
  else decimal_value s

/-- The conversion of an integer to `int`: the value with the same low 32
bits, in two's complement. -/
def to_int (x : Int) : Int := (x + 2147483648) % 4294967296 - 2147483648

/-- The C library function `atoi`, with the `int` it returns: as in the GNU C
library on an LP64 target it is `(int) strtol(s, NULL, 10)`, so a text whose
value does not fit an `int` reads as the low 32 bits of the value saturated to
the range of `long` ("4294967297" reads as 1, "-4294967295" as 1,
"9300000000000000000" as -1). For a text whose value fits an `int` the
result is that value; text without digits reads as 0. -/
def atoi (s : String) : Int := to_int (strtol s)

/-- The value of one hexadecimal digit (either case), 0 for any other
character. -/
def hex_value (c : Char) : Nat :=
  if 48 ≤ c.toNat ∧ c.toNat ≤ 57 then c.toNat - 48
  else if 65 ≤ c.toNat ∧ c.toNat ≤ 70 then c.toNat - 55
  else if 97 ≤ c.toNat ∧ c.toNat ≤ 102 then c.toNat - 87
  else 0

/-- The decoding loop of `hexstr2buf` on the characters of the text. -/
def hexstr2buf_chars : List Char → List Nat
  | hi :: lo :: rest => (hex_value hi * 16 + hex_value lo) :: hexstr2buf_chars rest
  | _ => []

/-- Modelled from the spec: `hexstr2buf` of `libutils` (the hex codec, not
part of the sources): every two hex digits of the text give one byte; the
bytes written are returned and their number is the C return value. -/
def hexstr2buf (hex_str : String) : List Nat :=
  hexstr2buf_chars hex_str.data

/-- The two upper-case hex digits of a byte. -/
def hex_digit (n : Nat) : Char :=
  if n < 10 then Char.ofNat (48 + n) else Char.ofNat (55 + n)

/-- Modelled from the spec: `buf2hexstr` of `libutils`, the upper-case hex
text of a byte buffer (two digits per byte). -/
def buf2hexstr (buf : List Nat) : String :=
  String.mk (buf.flatMap (fun b => [hex_digit (b / 16 % 16), hex_digit (b % 16)]))

/-- Split a text at every dot. -/
def split_dots : List Char → List (List Char)
  | [] => [[]]
  | c :: cs =>
    match split_dots cs with
    | [] => [[]]
    | p :: ps => if c = '.' then [] :: p :: ps else (c :: p) :: ps

/-- One part of a dotted-decimal address: a non-empty run of decimal digits
with value at most 255. -/
def dotted_part (p : List Char) : Option Nat :=
  if p ≠ [] ∧ p.all (fun c => 48 ≤ c.toNat && c.toNat ≤ 57) ∧ atoi_digits 0 p ≤ 255 then
    some (atoi_digits 0 p)
  else none

/-- Modelled from the spec: the socket library function `inet_addr`, "host is
parsed as a dotted-decimal address": four decimal parts `a.b.c.d` give the
address whose bytes in memory are a, b, c, d (network byte order), read as an
`unsigned int` of the target; any other text gives `INADDR_NONE`. -/
def inet_addr (L : Headers) (cp : String) : Nat :=
  match (split_dots cp.data).map dotted_part with
  | [some a, some b, some c, some d] =>
    if L.LITTLE_ENDIAN then a + b * 2 ^ 8 + c * 2 ^ 16 + d * 2 ^ 24
    else a * 2 ^ 24 + b * 2 ^ 16 + c * 2 ^ 8 + d
  | _ => 4294967295

/-- The socket library function `htons`: the 16-bit argument in network byte
order, read as a 16-bit integer of the target. -/
def htons (L : Headers) (hostshort : Nat) : Nat :=
  let h := hostshort % 2 ^ 16
  if L.LITTLE_ENDIAN then (h % 256) * 256 + h / 256 else h

/-- Modelled from the spec: `strncpy_safe` of `libutils` (not part of the
sources), a copy into storage of `size` bytes of at most `n` characters that
is "truncated but never overrun". -/
def strncpy_safe (src : String) (size n : Nat) : String :=
  String.mk (src.data.take (min n (size - 1)))

/-- Modelled from the spec: `is_ipmb_addr_bcast` (absent header): "broadcast
detection is derived from the source-address value". -/
def is_ipmb_addr_bcast (L : Headers) (sa : Nat) : Int :=
  if sa = L.IPMI_IPMB_BCAST_ADDR then 1 else 0

/-- A conversion to an unsigned integer type of `w` bits. -/
def to_unsigned (w : Nat) (x : Int) : Nat := (x % (2 : Int) ^ w).toNat

/-! ## Field extraction -/

/-- The extractor `jrpc_get_string`: `none` is `JSONRPC_FAILED`; `some v` is
`JSONRPC_SUCCESS` with `v` the contents of the zero-initialised buffer `value`
after the `memcpy` of `strlen(p_value)` bytes. -/
def jrpc_get_string (req : Option json_t) (key : String) : Option String :=
  match req with
  | none => none
  | some r =>
    match json_object_get r key with
    | none => none
    | some json_obj =>
      match json_string_value json_obj with
      | none => none
      | some p_value => if p_value.length < MAX_KEY_NAME then some p_value else none

/-- The extractor `jrpc_get_key_value`: the string stored at `req[param][key]`. -/
def jrpc_get_key_value (req : Option json_t) (param key : String) : Option String :=
  match req with
  | none => none
  | some r =>
    match json_object_get r param with
    | none => none
    | some json_obj => jrpc_get_string (some json_obj) key

/-! ## Transport formatters -/

/-- The formatter `format_ipmb_cmd_timeout`. -/
def format_ipmb_cmd_timeout (L : Headers) (st : State) (dest_msg : dest_ptr)
    (req : Option ipmi_msg) (header : ipmi_json_ipc_header_t) (sa timeo : Nat) : Int × State :=
  match dest_msg, req with
  | dest_ptr.buffer, some _ =>
    let addr : ipmi_addr :=
      { type := L.IPMI_ADDR_TYPE_IPMB, addr := ipmi_addr_union.ipmb sa L.IPMI_BMC_CMD_LUN }
    convert_ipmi_appmsg L st dest_msg (some addr) req header timeo (is_ipmb_addr_bcast L sa)
  | _, _ => (-1, st)

/-- The formatter `format_ipmb_cmd`: the IPMB formatter with the default timeout. -/
def format_ipmb_cmd (L : Headers) (st : State) (dest_msg : dest_ptr)
    (req : Option ipmi_msg) (header : ipmi_json_ipc_header_t) (sa : Nat) : Int × State :=
  format_ipmb_cmd_timeout L st dest_msg req header sa L.IPMI_DFLT_TIMEOUT_MS

/-- The formatter `format_serial_cmd_timeout`. -/
def format_serial_cmd_timeout (L : Headers) (st : State) (dest_msg : dest_ptr)
    (req : Option ipmi_msg) (header : ipmi_json_ipc_header_t) (timeo : Nat) : Int × State :=
  match dest_msg, req with
  | dest_ptr.buffer, some _ =>
    let addr : ipmi_addr := { type := L.IPMI_ADDR_TYPE_SERIAL, addr := ipmi_addr_union.zero }
    convert_ipmi_appmsg L st dest_msg (some addr) req header timeo 0
  | _, _ => (-1, st)

/-- The formatter `format_serial_cmd`: the serial formatter with the default
timeout. -/
def format_serial_cmd (L : Headers) (st : State) (dest_msg : dest_ptr)
    (req : Option ipmi_msg) (header : ipmi_json_ipc_header_t) : Int × State :=
  format_serial_cmd_timeout L st dest_msg req header L.IPMI_DFLT_TIMEOUT_MS

/-- The formatter `format_rmcp_cmd_timeout`. -/
def format_rmcp_cmd_timeout (L : Headers) (st : State) (dest_msg : dest_ptr)
    (host port : Nat) (req : Option ipmi_msg) (header : ipmi_json_ipc_header_t)
    (timeo : Nat) (uname passwd : String) : Int × State :=
  match dest_msg, req with
  | dest_ptr.buffer, some _ =>
    let addr : ipmi_addr :=
      { type := L.IPMI_ADDR_TYPE_RMCP
        addr := ipmi_addr_union.rmcp host port
          (strncpy_safe uname L.RMCP_USERNAME_LEN (L.RMCP_USERNAME_LEN - 1))
          (strncpy_safe passwd L.RMCP_PASSWORD_LEN (L.RMCP_PASSWORD_LEN - 1)) }
    convert_ipmi_appmsg L st dest_msg (some addr) req header timeo 0
  | _, _ => (-1, st)

/-- The formatter `format_rmcp_cmd`: the RMCP formatter with the default
timeout. -/
def format_rmcp_cmd (L : Headers) (st : State) (dest_msg : dest_ptr)
    (req : Option ipmi_msg) (header : ipmi_json_ipc_header_t)
    (host port : Nat) (uname passwd : String) : Int × State :=
  format_rmcp_cmd_timeout L st dest_msg host port req header L.IPMI_DFLT_TIMEOUT_MS uname passwd

/-- The message `req` that `format_rmcp_br_cmd` builds around the original
`request`: zeroed storage, the fixed outer opcode, the bridging descriptor and
a copy of the payload. -/
def rmcp_br_msg (L : Headers) (request : ipmi_msg) (target_addr target_channel
    transit_addr transit_channel : Nat) (bridge_level : Int) : ipmi_msg :=
  { ipmi_msg.zero with
    netfn := L.IPMI_BRIDGE_NETFN_APP
    cmd := L.IPMI_BRIDGE_IPMI_CMD
    bridge :=
      { bridge_level := bridge_level
        my_addr := L.IPMI_BMC_SLAVE_ADDR
        transit_addr := transit_addr
        transit_channel := transit_channel
        target_addr := target_addr
        target_channel := target_channel
        br_netfn := request.netfn
        br_cmd := request.cmd }
    data_len := request.data_len
    data := if 0 ≠ request.data_len then memcpy_bytes request.data request.data_len else [] }

/-- The formatter `format_rmcp_br_cmd`; `request` is dereferenced, it is never
`NULL` here. -/
def format_rmcp_br_cmd (L : Headers) (st : State) (dest_msg : dest_ptr)
    (request : ipmi_msg) (header : ipmi_json_ipc_header_t) (host port : Nat)
    (target_addr target_channel : Nat) (uname passwd : String)
    (transit_addr transit_channel : Nat) (bridge_level : Int) : Int × State :=
  let req := rmcp_br_msg L request target_addr target_channel transit_addr transit_channel
    bridge_level
  format_rmcp_cmd_timeout L st dest_msg host port (some req) header L.IPMI_DFLT_TIMEOUT_MS
    uname passwd

/-! ## Handler table and positional dispatch -/

/-- One positional argument of a variadic call, after the default argument
promotions. -/
inductive va_item where
  | int (v : Int)
  | uint (v : Nat)
  | ulong (v : Nat)
  | str (s : String)
deriving DecidableEq

/-- The remaining positional arguments (`va_list`). -/
abbrev va_list := List va_item

/-- Read by `va_arg(*valist, unsigned int)`: the next argument, which has to be
an `int` or an `unsigned int`; anything else is undefined (`none`). -/
def va_arg_uint : va_list → Option (Nat × va_list)
  | va_item.uint v :: rest => some (v % 2 ^ 32, rest)
  | va_item.int v :: rest => some (to_unsigned 32 v, rest)
  | _ => none

/-- Read by `va_arg(*valist, int)`. -/
def va_arg_int : va_list → Option (Int × va_list)
  | va_item.int v :: rest => some (v, rest)
  | _ => none

/-- Read by `va_arg(*valist, unsigned long)`. -/
def va_arg_ulong : va_list → Option (Nat × va_list)
  | va_item.ulong v :: rest => some (v % 2 ^ 64, rest)
  | _ => none

/-- Read by `va_arg(*valist, char *)`. -/
def va_arg_str : va_list → Option (String × va_list)
  | va_item.str s :: rest => some (s, rest)
  | _ => none

/-- The values of `enum json_rpc_ipmi_cmd_type`. -/
def JSON_RPC_IPMI_CMD_TYPE_RMCP : Nat := 0

/-- Second value of `enum json_rpc_ipmi_cmd_type`. -/
def JSON_RPC_IPMI_CMD_TYPE_IPMB : Nat := 1

/-- Third value of `enum json_rpc_ipmi_cmd_type`. -/
def JSON_RPC_IPMI_CMD_TYPE_SERIAL : Nat := 2

/-- Fourth value of `enum json_rpc_ipmi_cmd_type`. -/
def JSON_RPC_IPMI_CMD_TYPE_RMCP_BR : Nat := 3

/-- The four functions that `handle_table` points to. -/
inductive handle_fn where
  | rmcp_handle_common
  | ipmb_handle_common
  | serial_handle_common
  | rmcp_br_handle_common
deriving DecidableEq

/-- An entry of type `struct jrpc_ipmi_cmd_handle_fn_table`; `index` is the
value held by the `char` field and `handle` is `none` for `NULL`. -/
structure jrpc_ipmi_cmd_handle_fn_table where
  index : Int
  type : Nat
  handle : Option handle_fn
deriving DecidableEq

/-- The value a `char` holds after the initialiser `n` (0 ≤ n ≤ 255). -/
def char_of (L : Headers) (n : Nat) : Int :=
  if L.CHAR_SIGNED ∧ 128 ≤ n then (n : Int) - 256 else n

/-- The array `handle_table`, sentinel included. -/
def handle_table (L : Headers) : List jrpc_ipmi_cmd_handle_fn_table :=
  [ ⟨char_of L 0, JSON_RPC_IPMI_CMD_TYPE_RMCP, some handle_fn.rmcp_handle_common⟩,
    ⟨char_of L 1, JSON_RPC_IPMI_CMD_TYPE_IPMB, some handle_fn.ipmb_handle_common⟩,
    ⟨char_of L 2, JSON_RPC_IPMI_CMD_TYPE_SERIAL, some handle_fn.serial_handle_common⟩,
    ⟨char_of L 3, JSON_RPC_IPMI_CMD_TYPE_RMCP_BR, some handle_fn.rmcp_br_handle_common⟩,
    ⟨char_of L 255, 0, none⟩ ]

/-- The loop of `find_handle` from entry `i` on, `tbl` being the entries from
`i` to the end of the array. Reading past the array is undefined (`none`). -/
def find_handle_loop (type : Nat) : List jrpc_ipmi_cmd_handle_fn_table → Nat → Option Int
  | [], _ => none
  | e :: rest, i =>
    if (255 : Int) ≠ e.index then
      if type = e.type then some (i : Int) else find_handle_loop type rest (i + 1)
    else some (-1)

/-- The lookup `find_handle`: the index of the first entry for `type`, -1 when
the sentinel is reached first. -/
def find_handle (L : Headers) (type : Nat) : Option Int :=
  find_handle_loop type (handle_table L) 0

/-- The handler `rmcp_handle_common`. -/
def rmcp_handle_common (L : Headers) (st : State) (dest_msg : dest_ptr)
    (req : Option ipmi_msg) (header : ipmi_json_ipc_header_t) (valist : va_list) :
    Option State := do
  let (host, valist) ← va_arg_uint valist
  let (port, valist) ← va_arg_uint valist
  let (uname, valist) ← va_arg_str valist
  let (passwd, _) ← va_arg_str valist
  pure (format_rmcp_cmd L st dest_msg req header host port uname passwd).2

/-- The handler `rmcp_br_handle_common`. -/
def rmcp_br_handle_common (L : Headers) (st : State) (dest_msg : dest_ptr)
    (req : Option ipmi_msg) (header : ipmi_json_ipc_header_t) (valist : va_list) :
    Option State := do
  let (host, valist) ← va_arg_uint valist
  let (port, valist) ← va_arg_uint valist
  let (target_addr, valist) ← va_arg_ulong valist
  let (int_target_ch, valist) ← va_arg_uint valist
  let (uname, valist) ← va_arg_str valist
  let (passwd, valist) ← va_arg_str valist
  let (transit_addr, valist) ← va_arg_ulong valist
  let (int_transit_ch, valist) ← va_arg_uint valist
  let (bridge_level, _) ← va_arg_int valist
  let target_ch := int_target_ch % 2 ^ 16
  let transit_ch := int_transit_ch % 2 ^ 16
  let request ← req
  pure (format_rmcp_br_cmd L st dest_msg request header host port target_addr target_ch
    uname passwd transit_addr transit_ch bridge_level).2

/-- The handler `ipmb_handle_common`: it reads one positional argument. -/
def ipmb_handle_common (L : Headers) (st : State) (dest_msg : dest_ptr)
    (req : Option ipmi_msg) (header : ipmi_json_ipc_header_t) (valist : va_list) :
    Option State := do
  let (int_sa, _) ← va_arg_uint valist
  let sa := int_sa % 2 ^ 8
  pure (format_ipmb_cmd L st dest_msg req header sa).2

/-- The handler `serial_handle_common`: it reads no positional argument. -/
def serial_handle_common (L : Headers) (st : State) (dest_msg : dest_ptr)
    (req : Option ipmi_msg) (header : ipmi_json_ipc_header_t) (_valist : va_list) :
    Option State :=
  some (format_serial_cmd L st dest_msg req header).2

/-- The call `handle_table[i].handle(dest_msg, req, header, &args)` of the
four dispatchers; calling the `NULL` of the sentinel or an entry outside the
array is undefined (`none`). -/
def call_handle (L : Headers) (i : Int) (st : State) (dest_msg : dest_ptr)
    (req : Option ipmi_msg) (header : ipmi_json_ipc_header_t) (args : va_list) :
    Option State :=
  match (handle_table L).get? i.toNat with
  | some ⟨_, _, some handle_fn.rmcp_handle_common⟩ =>
    rmcp_handle_common L st dest_msg req header args
  | some ⟨_, _, some handle_fn.ipmb_handle_common⟩ =>
    ipmb_handle_common L st dest_msg req header args
  | some ⟨_, _, some handle_fn.serial_handle_common⟩ =>
    serial_handle_common L st dest_msg req header args
  | some ⟨_, _, some handle_fn.rmcp_br_handle_common⟩ =>
    rmcp_br_handle_common L st dest_msg req header args
  | _ => none

/-- The body shared by the four dispatchers `jrpc_*_handle_request_cmd`: look
the transport tag up and call the handler found, or only log. -/
def handle_request_cmd (L : Headers) (type : Nat) (st : State) (dest_msg : dest_ptr)
    (req : Option ipmi_msg) (header : ipmi_json_ipc_header_t) (args : va_list) :
    Option State :=
  match find_handle L type with
  | none => none
  | some i => if i ≠ -1 then call_handle L i st dest_msg req header args else some st

/-- The dispatcher `jrpc_rmcp_handle_request_cmd`. -/
def jrpc_rmcp_handle_request_cmd (L : Headers) (st : State) (dest_msg : dest_ptr)
    (req : Option ipmi_msg) (header : ipmi_json_ipc_header_t) (args : va_list) :
    Option State :=
  handle_request_cmd L JSON_RPC_IPMI_CMD_TYPE_RMCP st dest_msg req header args

/-- The dispatcher `jrpc_ipmb_handle_request_cmd`. -/
def jrpc_ipmb_handle_request_cmd (L : Headers) (st : State) (dest_msg : dest_ptr)
    (req : Option ipmi_msg) (header : ipmi_json_ipc_header_t) (args : va_list) :
    Option State :=
  handle_request_cmd L JSON_RPC_IPMI_CMD_TYPE_IPMB st dest_msg req header args

/-- The dispatcher `jrpc_serial_handle_request_cmd`. -/
def jrpc_serial_handle_request_cmd (L : Headers) (st : State) (dest_msg : dest_ptr)
    (req : Option ipmi_msg) (header : ipmi_json_ipc_header_t) (args : va_list) :
    Option State :=
  handle_request_cmd L JSON_RPC_IPMI_CMD_TYPE_SERIAL st dest_msg req header args

/-- The dispatcher `jrpc_rmcp_br_handle_request_cmd`. -/
def jrpc_rmcp_br_handle_request_cmd (L : Headers) (st : State) (dest_msg : dest_ptr)
    (request : Option ipmi_msg) (header : ipmi_json_ipc_header_t) (args : va_list) :
    Option State :=
  handle_request_cmd L JSON_RPC_IPMI_CMD_TYPE_RMCP_BR st dest_msg request header args

/-! ## Request parsers -/

/-- The test `(atoi(value_data_len) > 0) && jrpc_get_key_value(..., STR_DATA)`
of the four parsers: the data field is read only when the `int` that `atoi`
reads from the declared length is positive; `none` is the failure branch,
otherwise the contents of `value_data` (still all zero when the field was not
read). -/
def get_data_field (L : Headers) (json_obj : Option json_t) (value_data_len : String) :
    Option String :=
  if atoi value_data_len > 0 then jrpc_get_key_value json_obj STR_PARAMS L.STR_DATA
  else some ""

/-- The decoding block that each of the four parsers repeats after its field
checks: `i` is the `int` read by `atoi` from the declared length; for a
positive `i` the hex text is decoded and the parser returns early (`none`)
unless `i` equals the decoded length; the result is the new `req.data` and
`len`. -/
def decode_data (value_data_len value_data : String) : Option (List Nat × Int) :=
  let i := atoi value_data_len
  if i > 0 then
    let w_buf := hexstr2buf value_data
    let len : Int := (w_buf.length : Int)
    if i ≠ len then none else some (w_buf, len)
  else some ([], 0)

/-- The parser `jrpc_rmcp_req_parse`. The result is the state afterwards;
`none` only if the dispatch runs into undefined behaviour. -/
def jrpc_rmcp_req_parse (L : Headers) (st : State) (dest_msg : dest_ptr)
    (json_obj : Option json_t) (header : ipmi_json_ipc_header_t) : Option State :=
  match json_obj with
  | none => some st
  | some _ =>
  match jrpc_get_key_value json_obj STR_PARAMS L.STR_NETFN with
  | none => some st
  | some value_netfn =>
  match jrpc_get_key_value json_obj STR_PARAMS L.STR_CMD with
  | none => some st
  | some value_cmd =>
  match jrpc_get_key_value json_obj STR_PARAMS L.STR_DATA_LEN with
  | none => some st
  | some value_data_len =>
  match jrpc_get_key_value json_obj STR_PARAMS L.STR_TARGET_IP with
  | none => some st
  | some value_host =>
  match jrpc_get_key_value json_obj STR_PARAMS L.STR_TARGET_PORT with
  | none => some st
  | some value_port =>
  match get_data_field L json_obj value_data_len with
  | none => some st
  | some value_data =>
  match jrpc_get_key_value json_obj STR_PARAMS L.STR_NAME with
  | none => some st
  | some value_uname =>
  match jrpc_get_key_value json_obj STR_PARAMS L.STR_PASSWD with
  | none => some st
  | some value_passwd =>
  match decode_data value_data_len value_data with
  | none => some st
  | some (data, len) =>
    let req : ipmi_msg :=
      { ipmi_msg.zero with
        data := data
        netfn := to_unsigned 8 (atoi value_netfn)
        cmd := to_unsigned 8 (atoi value_cmd)
        data_len := to_unsigned 16 len }
    let host := inet_addr L value_host
    let port := htons L (to_unsigned 32 (atoi value_port))
    jrpc_rmcp_handle_request_cmd L st dest_msg (some req) header
      [va_item.uint host, va_item.uint port, va_item.str value_uname, va_item.str value_passwd]

/-- The parser `jrpc_ipmb_req_parse`. The dispatcher is called with two
positional arguments, the default timeout and the source address. -/
def jrpc_ipmb_req_parse (L : Headers) (st : State) (dest_msg : dest_ptr)
    (json_obj : Option json_t) (header : ipmi_json_ipc_header_t) : Option State :=
  match json_obj with
  | none => some st
  | some _ =>
  match jrpc_get_key_value json_obj STR_PARAMS L.STR_NETFN with
  | none => some st
  | some value_netfn =>
  match jrpc_get_key_value json_obj STR_PARAMS L.STR_CMD with
  | none => some st
  | some value_cmd =>
  match jrpc_get_key_value json_obj STR_PARAMS L.STR_DATA_LEN with
  | none => some st
  | some value_data_len =>
  match jrpc_get_key_value json_obj STR_PARAMS L.STR_IPMB_SRC_ADDR with
  | none => some st
  | some value_src_addr =>
  match get_data_field L json_obj value_data_len with
  | none => some st
  | some value_data =>
  match decode_data value_data_len value_data with
  | none => some st
  | some (data, len) =>
    let req : ipmi_msg :=
      { ipmi_msg.zero with
        data := data
        netfn := to_unsigned 8 (atoi value_netfn)
        cmd := to_unsigned 8 (atoi value_cmd)
        data_len := to_unsigned 16 len }
    let sa := to_unsigned 8 (atoi value_src_addr)
    let int_sa := sa
    jrpc_ipmb_handle_request_cmd L st dest_msg (some req) header
      [va_item.int (L.IPMI_DFLT_TIMEOUT_MS : Int), va_item.uint int_sa]

/-- The descriptor check of `jrpc_serail_req_parse`: the field `STR_SERIAL_FD` is
read only when `strcmp(header.method, JSON_RPC_SERIAL_CMD_REQ)` is 0; `none` is
the failure branch, otherwise the contents of `value_ser_fd` (all zero when the
field was not read). -/
def get_serial_fd_field (L : Headers) (json_obj : Option json_t)
    (header : ipmi_json_ipc_header_t) : Option String :=
  if header.method = L.JSON_RPC_SERIAL_CMD_REQ then
    jrpc_get_key_value json_obj STR_PARAMS L.STR_SERIAL_FD
  else some ""

/-- The assignment to `req.union_app_req.serial.serial_fd` in
`jrpc_serail_req_parse`: made only under the serial-command method, the field
stays 0 otherwise. -/
def serial_fd_of (L : Headers) (header : ipmi_json_ipc_header_t) (value_ser_fd : String) :
    Nat :=
  if header.method = L.JSON_RPC_SERIAL_CMD_REQ then to_unsigned 8 (atoi value_ser_fd) else 0

/-- The parser `jrpc_serail_req_parse`. -/
def jrpc_serail_req_parse (L : Headers) (st : State) (dest_msg : dest_ptr)
    (json_obj : Option json_t) (header : ipmi_json_ipc_header_t) : Option State :=
  match json_obj with
  | none => some st
  | some _ =>
  match jrpc_get_key_value json_obj STR_PARAMS L.STR_NETFN with
  | none => some st
  | some value_netfn =>
  match jrpc_get_key_value json_obj STR_PARAMS L.STR_CMD with
  | none => some st
  | some value_cmd =>
  match jrpc_get_key_value json_obj STR_PARAMS L.STR_DATA_LEN with
  | none => some st
  | some value_data_len =>
  match jrpc_get_key_value json_obj STR_PARAMS L.STR_SERIAL_FLAG with
  | none => some st
  | some value_ser_flag =>
  match get_data_field L json_obj value_data_len with
  | none => some st
  | some value_data =>
  match get_serial_fd_field L json_obj header with
  | none => some st
  | some value_ser_fd =>
  match decode_data value_data_len value_data with
  | none => some st
  | some (data, len) =>
    let req : ipmi_msg :=
      { ipmi_msg.zero with
        data := data
        netfn := to_unsigned 8 (atoi value_netfn)
        cmd := to_unsigned 8 (atoi value_cmd)
        data_len := to_unsigned 16 len
        serial :=
          { serial_flag := to_unsigned 8 (atoi value_ser_flag)
            serial_fd := serial_fd_of L header value_ser_fd } }
    jrpc_serial_handle_request_cmd L st dest_msg (some req) header []

/-- The parser `jrpc_rmcp_br_req_parse`. -/
def jrpc_rmcp_br_req_parse (L : Headers) (st : State) (dest_msg : dest_ptr)
    (json_obj : Option json_t) (header : ipmi_json_ipc_header_t) : Option State :=
  match json_obj with
  | none => some st
  | some _ =>
  match jrpc_get_key_value json_obj STR_PARAMS L.STR_NETFN with
  | none => some st
  | some value_netfn =>
  match jrpc_get_key_value json_obj STR_PARAMS L.STR_CMD with
  | none => some st
  | some value_cmd =>
  match jrpc_get_key_value json_obj STR_PARAMS L.STR_DATA_LEN with
  | none => some st
  | some value_data_len =>
  match jrpc_get_key_value json_obj STR_PARAMS L.STR_TARGET_IP with
  | none => some st
  | some value_target_ip =>
  match jrpc_get_key_value json_obj STR_PARAMS L.STR_TARGET_PORT with
  | none => some st
  | some value_target_port =>
  match jrpc_get_key_value json_obj STR_PARAMS L.STR_TRANSIT_ADDR with
  | none => some st
  | some value_transit_addr =>
  match jrpc_get_key_value json_obj STR_PARAMS L.STR_TRANSIT_CH with
  | none => some st
  | some value_transit_ch =>
  match jrpc_get_key_value json_obj STR_PARAMS L.STR_TARGET_ADDR with
  | none => some st
  | some value_target_addr =>
  match jrpc_get_key_value json_obj STR_PARAMS L.STR_TARGET_CH with
  | none => some st
  | some value_target_ch =>
  match get_data_field L json_obj value_data_len with
  | none => some st
  | some value_data =>
  match jrpc_get_key_value json_obj STR_PARAMS L.STR_NAME with
  | none => some st
  | some value_uname =>
  match jrpc_get_key_value json_obj STR_PARAMS L.STR_PASSWD with
  | none => some st
  | some value_passwd =>
  match jrpc_get_key_value json_obj STR_PARAMS L.STR_BRIDGE_LEVEL with
  | none => some st
  | some value_bridge_level =>
  match decode_data value_data_len value_data with
  | none => some st
  | some (data, len) =>
    let req : ipmi_msg :=
      { ipmi_msg.zero with
        data := data
        netfn := to_unsigned 8 (atoi value_netfn)
        cmd := to_unsigned 8 (atoi value_cmd)
        data_len := to_unsigned 16 len }
    let ip := inet_addr L value_target_ip
    let port := htons L (to_unsigned 32 (atoi value_target_port))
    let transit_addr := to_unsigned 64 (atoi value_transit_addr)
    let int_transit_ch := to_unsigned 32 (atoi value_transit_ch)
    let target_addr := to_unsigned 64 (atoi value_target_addr)
    let int_target_ch := to_unsigned 32 (atoi value_target_ch)
    let bridge_level := atoi value_bridge_level
    jrpc_rmcp_br_handle_request_cmd L st dest_msg (some req) header
      [va_item.uint ip, va_item.uint port, va_item.ulong target_addr,
       va_item.uint int_target_ch, va_item.str value_uname, va_item.str value_passwd,
       va_item.ulong transit_addr, va_item.uint int_transit_ch, va_item.int bridge_level]

/-! ## Vocabulary of the statements -/

/-- The counter of `gen_req_msgid` after `n` assignments in a fresh process. -/
def counter_after : Nat → Nat
  | 0 => State.fresh.msgid
  | n + 1 => (gen_req_msgid (counter_after n)).2

/-- The id handed out by assignment number `n + 1` of a fresh process (so
`assigned_id 0` is the first id ever assigned). -/
def assigned_id (n : Nat) : Nat := (gen_req_msgid (counter_after n)).1

/-- The value stored at `json_obj["params"][key]`, if there is one. -/
def json_field (json_obj : json_t) (key : String) : Option json_t :=
  (json_object_get json_obj STR_PARAMS).bind (fun params => json_object_get params key)

/-- A request object whose `params` member holds the given fields as strings,
in the given order. -/
def mk_request (method : String) (fields : List (String × String)) : json_t :=
  json_t.object
    [("method", json_t.string method),
     ("id", json_t.integer 42),
     ("params", json_t.object (fields.map (fun f => (f.1, json_t.string f.2))))]

/-- A header as the orchestrator fills it in for a request with the given
method name. -/
def sample_header (method : String) : ipmi_json_ipc_header_t :=
  { ip := 167772161, port := 50000, json_ipc_id := 42, method := method }

/-- The request message that a parser assembles from the field texts and the
decoded payload: `req.netfn`, `req.cmd`, `req.data_len` and `req.data`, all
else zero. -/
def parsed_msg (value_netfn value_cmd : String) (data : List Nat) (len : Int) : ipmi_msg :=
  { ipmi_msg.zero with
    data := data
    netfn := to_unsigned 8 (atoi value_netfn)
    cmd := to_unsigned 8 (atoi value_cmd)
    data_len := to_unsigned 16 len }

/-- The four transports, one per request parser. -/
inductive transport where
  | rmcp
  | rmcp_br
  | ipmb
  | serial
deriving DecidableEq

/-- The request parser of a transport. -/
def req_parse (t : transport) (L : Headers) (st : State) (dest_msg : dest_ptr)
    (json_obj : Option json_t) (header : ipmi_json_ipc_header_t) : Option State :=
  match t with
  | transport.rmcp => jrpc_rmcp_req_parse L st dest_msg json_obj header
  | transport.rmcp_br => jrpc_rmcp_br_req_parse L st dest_msg json_obj header
  | transport.ipmb => jrpc_ipmb_req_parse L st dest_msg json_obj header
  | transport.serial => jrpc_serail_req_parse L st dest_msg json_obj header

/-- The request carries field `key`: `jrpc_get_key_value` succeeds on it. -/
def has_field (json_obj : json_t) (key : String) : Bool :=
  (jrpc_get_key_value (some json_obj) STR_PARAMS key).isSome

/-- The keys, other than the data field, that the parser of a transport
extracts with `jrpc_get_key_value` and fails without; the serial parser asks
for the descriptor only under the serial-command method. -/
def required_keys (L : Headers) (t : transport) (header : ipmi_json_ipc_header_t) :
    List String :=
  match t with
  | transport.rmcp =>
    [L.STR_NETFN, L.STR_CMD, L.STR_DATA_LEN, L.STR_TARGET_IP, L.STR_TARGET_PORT, L.STR_NAME,
     L.STR_PASSWD]
  | transport.rmcp_br =>
    [L.STR_NETFN, L.STR_CMD, L.STR_DATA_LEN, L.STR_TARGET_IP, L.STR_TARGET_PORT,
     L.STR_TRANSIT_ADDR, L.STR_TRANSIT_CH, L.STR_TARGET_ADDR, L.STR_TARGET_CH, L.STR_NAME,
     L.STR_PASSWD, L.STR_BRIDGE_LEVEL]
  | transport.ipmb => [L.STR_NETFN, L.STR_CMD, L.STR_DATA_LEN, L.STR_IPMB_SRC_ADDR]
  | transport.serial =>
    [L.STR_NETFN, L.STR_CMD, L.STR_DATA_LEN, L.STR_SERIAL_FLAG] ++
      (if header.method = L.JSON_RPC_SERIAL_CMD_REQ then [L.STR_SERIAL_FD] else [])

/-- The request carries every required field of the transport. -/
def carries_required (L : Headers) (t : transport) (json_obj : json_t)
    (header : ipmi_json_ipc_header_t) : Bool :=
  (required_keys L t header).all (has_field json_obj)

/-- A bridged request with bridge level 2, netfn 6, cmd 1 and one payload
byte. -/
def bridged_sample : json_t :=
  mk_request "rmcp_br_req"
    [("netfn", "6"), ("cmd", "1"), ("data_len", "1"), ("data", "0F"),
     ("target_ip", "10.0.0.5"), ("target_port", "623"), ("name", "admin"),
     ("passwd", "secret"), ("transit_addr", "130"), ("transit_ch", "7"),
     ("target_addr", "36"), ("target_ch", "0"), ("bridge_level", "2")]

/-! ## Byte order -/

/-- The bytes, in memory order, of an unsigned integer of `w` bytes holding
the value `v` on the target. -/
def mem_bytes (L : Headers) (w v : Nat) : List Nat :=
  let le := (List.range w).map (fun i => v / 256 ^ i % 256)
  if L.LITTLE_ENDIAN then le else le.reverse

/-- The integer whose big-endian (network order) representation is the given
bytes. -/
def be_value (bytes : List Nat) : Nat :=
  bytes.foldl (fun acc b => acc * 256 + b) 0

/-- The socket library function `ntohs`: a 16-bit integer holding bytes in
network order, converted to the value it stands for. -/
def ntohs (L : Headers) (netshort : Nat) : Nat :=
  let n := netshort % 2 ^ 16
  if L.LITTLE_ENDIAN then (n % 256) * 256 + n / 256 else n

/-- The socket library function `ntohl`: a 32-bit integer holding bytes in
network order, converted to the value it stands for. -/
def ntohl (L : Headers) (netlong : Nat) : Nat :=
  let n := netlong % 2 ^ 32
  if L.LITTLE_ENDIAN then
    (n % 256) * 2 ^ 24 + (n / 2 ^ 8 % 256) * 2 ^ 16 + (n / 2 ^ 16 % 256) * 2 ^ 8 + n / 2 ^ 24
  else n

/-! ## Error records of the request parsers -/

/-- The record logged with level ERROR by the decoding block of a parser: one
message when the declared length is positive and differs from the decoded
length, nothing otherwise. -/
def decode_errors (value_data_len value_data : String) : List String :=
  let i := atoi value_data_len
  if i > 0 then
    let len : Int := ((hexstr2buf value_data).length : Int)
    if i ≠ len then ["data len(" ++ toString i ++ " != " ++ toString len ++ ") is wrong!\n"]
    else []
  else []

/-- The ERROR records that `jrpc_rmcp_req_parse` itself hands to `rmm_log`, up
to its call of the dispatcher: every early return is preceded by one record. -/
def jrpc_rmcp_req_parse_errors (L : Headers) (json_obj : Option json_t) : List String :=
  match json_obj with
  | none => ["rmcp_req_handle json_obj == NULL\n"]
  | some _ =>
  match jrpc_get_key_value json_obj STR_PARAMS L.STR_NETFN with
  | none => ["jrpc_get_netfn failed.\n"]
  | some _ =>
  match jrpc_get_key_value json_obj STR_PARAMS L.STR_CMD with
  | none => ["jrpc_get_cmd failed.\n"]
  | some _ =>
  match jrpc_get_key_value json_obj STR_PARAMS L.STR_DATA_LEN with
  | none => ["jrpc_get_data_len failed.\n"]
  | some value_data_len =>
  match jrpc_get_key_value json_obj STR_PARAMS L.STR_TARGET_IP with
  | none => ["jrpc_get_target_ip failed.\n"]
  | some _ =>
  match jrpc_get_key_value json_obj STR_PARAMS L.STR_TARGET_PORT with
  | none => ["jrpc_get_target_port failed.\n"]
  | some _ =>
  match get_data_field L json_obj value_data_len with
  | none => ["jrpc_get_data failed.\n"]
  | some value_data =>
  match jrpc_get_key_value json_obj STR_PARAMS L.STR_NAME with
  | none => ["jrpc_get_uname failed.\n"]
  | some _ =>
  match jrpc_get_key_value json_obj STR_PARAMS L.STR_PASSWD with
  | none => ["jrpc_get_passwd failed.\n"]
  | some _ => decode_errors value_data_len value_data

/-- The ERROR records that `jrpc_ipmb_req_parse` itself hands to `rmm_log`, up
to its call of the dispatcher. -/
def jrpc_ipmb_req_parse_errors (L : Headers) (json_obj : Option json_t) : List String :=
  match json_obj with
  | none => ["rmcp_req_handle json_obj == NULL\n"]
  | some _ =>
  match jrpc_get_key_value json_obj STR_PARAMS L.STR_NETFN with
  | none => ["jrpc_get_netfn failed.\n"]
  | some _ =>
  match jrpc_get_key_value json_obj STR_PARAMS L.STR_CMD with
  | none => ["jrpc_get_cmd failed.\n"]
  | some _ =>
  match jrpc_get_key_value json_obj STR_PARAMS L.STR_DATA_LEN with
  | none => ["jrpc_get_data_len failed.\n"]
  | some value_data_len =>
  match jrpc_get_key_value json_obj STR_PARAMS L.STR_IPMB_SRC_ADDR with
  | none => ["jrpc_get_ipmb_src_addr failed.\n"]
  | some _ =>
  match get_data_field L json_obj value_data_len with
  | none => ["jrpc_get_data failed.\n"]
  | some value_data => decode_errors value_data_len value_data

/-- The ERROR records that `jrpc_serail_req_parse` itself hands to `rmm_log`,
up to its call of the dispatcher. -/
def jrpc_serail_req_parse_errors (L : Headers) (json_obj : Option json_t)
    (header : ipmi_json_ipc_header_t) : List String :=
  match json_obj with
  | none => ["rmcp_req_handle json_obj == NULL\n"]
  | some _ =>
  match jrpc_get_key_value json_obj STR_PARAMS L.STR_NETFN with
  | none => ["jrpc_get_netfn failed.\n"]
  | some _ =>
  match jrpc_get_key_value json_obj STR_PARAMS L.STR_CMD with
  | none => ["jrpc_get_cmd failed.\n"]
  | some _ =>
  match jrpc_get_key_value json_obj STR_PARAMS L.STR_DATA_LEN with
  | none => ["jrpc_get_data_len failed.\n"]
  | some value_data_len =>
  match jrpc_get_key_value json_obj STR_PARAMS L.STR_SERIAL_FLAG with
  | none => ["jrpc_get_serial_flag failed.\n"]
  | some _ =>
  match get_data_field L json_obj value_data_len with
  | none => ["jrpc_get_data failed.\n"]
  | some value_data =>
  match get_serial_fd_field L json_obj header with
  | none => ["jrpc_get_serial_fd failed.\n"]
  | some _ => decode_errors value_data_len value_data

/-- The ERROR records that `jrpc_rmcp_br_req_parse` itself hands to `rmm_log`,
up to its call of the dispatcher. A missing transit address is reported with
the text of the target address, as in the source. -/
def jrpc_rmcp_br_req_parse_errors (L : Headers) (json_obj : Option json_t) : List String :=
  match json_obj with
  | none => ["rmcp_req_handle json_obj == NULL\n"]
  | some _ =>
  match jrpc_get_key_value json_obj STR_PARAMS L.STR_NETFN with
  | none => ["jrpc_get_netfn failed.\n"]
  | some _ =>
  match jrpc_get_key_value json_obj STR_PARAMS L.STR_CMD with
  | none => ["jrpc_get_cmd failed.\n"]
  | some _ =>
  match jrpc_get_key_value json_obj STR_PARAMS L.STR_DATA_LEN with
  | none => ["jrpc_get_data_len failed.\n"]
  | some value_data_len =>
  match jrpc_get_key_value json_obj STR_PARAMS L.STR_TARGET_IP with
  | none => ["jrpc_get_target_ip failed.\n"]
  | some _ =>
  match jrpc_get_key_value json_obj STR_PARAMS L.STR_TARGET_PORT with
  | none => ["jrpc_get_target_port failed.\n"]
  | some _ =>
  match jrpc_get_key_value json_obj STR_PARAMS L.STR_TRANSIT_ADDR with
  | none => ["jrpc_get_target_addr failed.\n"]
  | some _ =>
  match jrpc_get_key_value json_obj STR_PARAMS L.STR_TRANSIT_CH with
  | none => ["jrpc_get_transit_ch failed.\n"]
  | some _ =>
  match jrpc_get_key_value json_obj STR_PARAMS L.STR_TARGET_ADDR with
  | none => ["jrpc_get_target_addr failed.\n"]
  | some _ =>
  match jrpc_get_key_value json_obj STR_PARAMS L.STR_TARGET_CH with
  | none => ["jrpc_get_target_ch failed.\n"]
  | some _ =>
  match get_data_field L json_obj value_data_len with
  | none => ["jrpc_get_data failed.\n"]
  | some value_data =>
  match jrpc_get_key_value json_obj STR_PARAMS L.STR_NAME with
  | none => ["jrpc_get_uname failed.\n"]
  | some _ =>
  match jrpc_get_key_value json_obj STR_PARAMS L.STR_PASSWD with
  | none => ["jrpc_get_passwd failed.\n"]
  | some _ =>
  match jrpc_get_key_value json_obj STR_PARAMS L.STR_BRIDGE_LEVEL with
  | none => ["jrpc_get_bridge_level failed.\n"]
  | some _ => decode_errors value_data_len value_data

/-- The ERROR records of the request parser of a transport. -/
def req_parse_errors (t : transport) (L : Headers) (json_obj : Option json_t)
    (header : ipmi_json_ipc_header_t) : List String :=
  match t with
  | transport.rmcp => jrpc_rmcp_req_parse_errors L json_obj
  | transport.rmcp_br => jrpc_rmcp_br_req_parse_errors L json_obj
  | transport.ipmb => jrpc_ipmb_req_parse_errors L json_obj
  | transport.serial => jrpc_serail_req_parse_errors L json_obj header

/-- The record logged when the data field is required and cannot be read. -/
def data_error : String := "jrpc_get_data failed.\n"

/-- The unconditionally required fields that the parser of a transport checks
before the data field, in the order of the source, each with the record logged
when it is missing. -/
def checks_before_data (L : Headers) (t : transport) : List (String × String) :=
  match t with
  | transport.rmcp =>
    [(L.STR_NETFN, "jrpc_get_netfn failed.\n"), (L.STR_CMD, "jrpc_get_cmd failed.\n"),
     (L.STR_DATA_LEN, "jrpc_get_data_len failed.\n"),
     (L.STR_TARGET_IP, "jrpc_get_target_ip failed.\n"),
     (L.STR_TARGET_PORT, "jrpc_get_target_port failed.\n")]
  | transport.rmcp_br =>
    [(L.STR_NETFN, "jrpc_get_netfn failed.\n"), (L.STR_CMD, "jrpc_get_cmd failed.\n"),
     (L.STR_DATA_LEN, "jrpc_get_data_len failed.\n"),
     (L.STR_TARGET_IP, "jrpc_get_target_ip failed.\n"),
     (L.STR_TARGET_PORT, "jrpc_get_target_port failed.\n"),
     (L.STR_TRANSIT_ADDR, "jrpc_get_target_addr failed.\n"),
     (L.STR_TRANSIT_CH, "jrpc_get_transit_ch failed.\n"),
     (L.STR_TARGET_ADDR, "jrpc_get_target_addr failed.\n"),
     (L.STR_TARGET_CH, "jrpc_get_target_ch failed.\n")]
  | transport.ipmb =>
    [(L.STR_NETFN, "jrpc_get_netfn failed.\n"), (L.STR_CMD, "jrpc_get_cmd failed.\n"),
     (L.STR_DATA_LEN, "jrpc_get_data_len failed.\n"),
     (L.STR_IPMB_SRC_ADDR, "jrpc_get_ipmb_src_addr failed.\n")]
  | transport.serial =>
    [(L.STR_NETFN, "jrpc_get_netfn failed.\n"), (L.STR_CMD, "jrpc_get_cmd failed.\n"),
     (L.STR_DATA_LEN, "jrpc_get_data_len failed.\n"),
     (L.STR_SERIAL_FLAG, "jrpc_get_serial_flag failed.\n")]

/-- The unconditionally required fields that the parser of a transport checks
only after the data field, with their records. -/
def checks_after_data (L : Headers) (t : transport) : List (String × String) :=
  match t with
  | transport.rmcp =>
    [(L.STR_NAME, "jrpc_get_uname failed.\n"), (L.STR_PASSWD, "jrpc_get_passwd failed.\n")]
  | transport.rmcp_br =>
    [(L.STR_NAME, "jrpc_get_uname failed.\n"), (L.STR_PASSWD, "jrpc_get_passwd failed.\n"),
     (L.STR_BRIDGE_LEVEL, "jrpc_get_bridge_level failed.\n")]
  | transport.ipmb => []
  | transport.serial => []

/-- The record of the first check of the list that fails on the request, if
one does. -/
def first_missing (json_obj : json_t) : List (String × String) → Option String
  | [] => none
  | (key, msg) :: rest =>
    if has_field json_obj key then first_missing json_obj rest else some msg

/-! ## Request orchestrator -/

/-- The peer address `struct sockaddr_in` as far as the orchestrator reads it:
`sin_addr.s_addr` and `sin_port`, both as stored (network byte order). -/
structure sockaddr_in where
  sin_addr : Nat
  sin_port : Nat
deriving DecidableEq

/-- The queued message `struct app_recv_msg`: the request text held in
`appmsg` and the peer address `addr`. -/
structure app_recv_msg where
  appmsg : String
  addr : sockaddr_in
deriving DecidableEq

/-- Modelled from the spec: the external JSON-RPC library (`libjsonrpc`, not
part of the sources) as far as `ipmi_jrpc.c` calls it, "an external JSON
parse/query capability". Each function is a parameter; `none` stands for a
failed call (`JSONRPC_FAILED`, or `NULL` for `jrpc_create_result_rsp`).
`jrpc_format_string rsp n` is the text written for `rsp` into a buffer of `n`
bytes when it fits. -/
structure jsonrpc_lib where
  jrpc_parse_req : String → Option json_t
  jrpc_get_method : json_t → Option String
  jrpc_get_id : json_t → Option Int
  jrpc_create_result_rsp : Int → json_t → Option json_t
  jrpc_format_string : json_t → Nat → Option String

/-- What an entry point of the orchestrator does with a request: return
without calling a parser, or call the parser of a transport on the parsed
request with the header it has filled in. -/
inductive routed where
  | dropped
  | parser (t : transport) (parsed_req : json_t) (header : ipmi_json_ipc_header_t)

/-- The effect of an entry point on the state: nothing when the request is
dropped, otherwise the effect of the parser called. -/
def run_routed (L : Headers) (st : State) (dest_msg : dest_ptr) : routed → Option State
  | routed.dropped => some st
  | routed.parser t parsed_req header => req_parse t L st dest_msg (some parsed_req) header

/-- The control flow of `app_json_parse`: the extraction chain on the queued
text and the `strcmp` chain on response type and method name. -/
def app_json_parse_route (lib : jsonrpc_lib) (L : Headers) (list : Option app_recv_msg)
    (dest_msg : dest_ptr) : routed :=
  match list, dest_msg with
  | some list, dest_ptr.buffer =>
    match lib.jrpc_parse_req list.appmsg with
    | none => routed.dropped
    | some parsed_req =>
    match lib.jrpc_get_method parsed_req with
    | none => routed.dropped
    | some method =>
    match lib.jrpc_get_id parsed_req with
    | none => routed.dropped
    | some id =>
    match jrpc_get_key_value (some parsed_req) STR_PARAMS L.STR_RSP_TYPE with
    | none => routed.dropped
    | some value_rsp_type =>
      let header : ipmi_json_ipc_header_t :=
        { ip := ntohl L list.addr.sin_addr, port := ntohs L list.addr.sin_port,
          json_ipc_id := id, method := "" }
      if value_rsp_type = L.STR_RSP_TYPE_UDP then
        if method = L.JSON_RPC_IPMB_REQ then
          routed.parser transport.ipmb parsed_req
            { header with method := L.JSON_RPC_IPMB_REQ }
        else if method = L.JSON_RPC_RMCP_REQ then
          routed.parser transport.rmcp parsed_req
            { header with method := L.JSON_RPC_RMCP_REQ }
        else if method = L.JSON_RPC_SERIAL_OP_REQ then
          routed.parser transport.serial parsed_req
            { header with method := L.JSON_RPC_SERIAL_OP_REQ }
        else if method = L.JSON_RPC_SERIAL_CMD_REQ then
          routed.parser transport.serial parsed_req
            { header with method := L.JSON_RPC_SERIAL_CMD_REQ }
        else if method = L.JSON_RPC_RMCP_BR_REQ then
          routed.parser transport.rmcp_br parsed_req
            { header with method := L.JSON_RPC_RMCP_BR_REQ }
        else routed.dropped
      else routed.dropped
  | _, _ => routed.dropped

/-- The entry point `app_json_parse` for a queued buffer. -/
def app_json_parse (lib : jsonrpc_lib) (L : Headers) (st : State)
    (list : Option app_recv_msg) (dest_msg : dest_ptr) : Option State :=
  run_routed L st dest_msg (app_json_parse_route lib L list dest_msg)

/-- The control flow of `app_json_rpc_msg`. `recvfrom` is the outcome of the
receive call on the descriptor: `none` when it returns 0 or less, otherwise the
text left in `buffer` and the peer address. -/
def app_json_rpc_msg_route (lib : jsonrpc_lib) (L : Headers) (fd : Int)
    (recvfrom : Option (String × sockaddr_in)) : routed :=
  if fd > 0 then
    match recvfrom with
    | none => routed.dropped
    | some (buffer, addr) =>
    match lib.jrpc_parse_req buffer with
    | none => routed.dropped
    | some parsed_req =>
    match lib.jrpc_get_method parsed_req with
    | none => routed.dropped
    | some method =>
    match lib.jrpc_get_id parsed_req with
    | none => routed.dropped
    | some id =>
    match jrpc_get_key_value (some parsed_req) STR_PARAMS L.STR_RSP_TYPE with
    | none => routed.dropped
    | some value_rsp_type =>
      let header : ipmi_json_ipc_header_t :=
        { ip := ntohl L addr.sin_addr, port := ntohs L addr.sin_port,
          json_ipc_id := id, method := "" }
      if value_rsp_type = L.STR_RSP_TYPE_UDP then
        if method = L.JSON_RPC_IPMB_REQ then
          routed.parser transport.ipmb parsed_req
            { header with method := L.JSON_RPC_IPMB_REQ }
        else if method = L.JSON_RPC_RMCP_REQ then
          routed.parser transport.rmcp parsed_req
            { header with method := L.JSON_RPC_RMCP_REQ }
        else if method = L.JSON_RPC_SERIAL_OP_REQ then
          routed.parser transport.serial parsed_req
            { header with method := L.JSON_RPC_SERIAL_OP_REQ }
        else if method = L.JSON_RPC_SERIAL_CMD_REQ then
          routed.parser transport.serial parsed_req
            { header with method := L.JSON_RPC_SERIAL_CMD_REQ }
        else if method = L.JSON_RPC_RMCP_BR_REQ then
          routed.parser transport.rmcp_br parsed_req
            { header with method := L.JSON_RPC_RMCP_BR_REQ }
        else routed.dropped
      else routed.dropped
  else routed.dropped

/-- The entry point `app_json_rpc_msg` for a datagram socket. -/
def app_json_rpc_msg (lib : jsonrpc_lib) (L : Headers) (st : State) (fd : Int)
    (recvfrom : Option (String × sockaddr_in)) (dest_msg : dest_ptr) : Option State :=
  run_routed L st dest_msg (app_json_rpc_msg_route lib L fd recvfrom)

/-- The five method names are pairwise different. -/
def methods_distinct (L : Headers) : Prop :=
  [L.JSON_RPC_IPMB_REQ, L.JSON_RPC_RMCP_REQ, L.JSON_RPC_SERIAL_OP_REQ,
   L.JSON_RPC_SERIAL_CMD_REQ, L.JSON_RPC_RMCP_BR_REQ].Nodup

mutual
/-- Modelled from the spec: a compact JSON text of a value, standing for the
serialisation done by the external JSON library. -/
def json_text : json_t → List Char
  | json_t.null => "null".data
  | json_t.bool b => if b then "true".data else "false".data
  | json_t.integer v => (toString v).data
  | json_t.string s => Char.ofNat 34 :: s.data ++ [Char.ofNat 34]
  | json_t.array xs => Char.ofNat 91 :: items_text xs ++ [Char.ofNat 93]
  | json_t.object ms => Char.ofNat 123 :: members_text ms ++ [Char.ofNat 125]
/-- The texts of the items of an array, separated by commas. -/
def items_text : List json_t → List Char
  | [] => []
  | [x] => json_text x
  | x :: rest => json_text x ++ Char.ofNat 44 :: items_text rest
/-- The texts of the members of an object, separated by commas. -/
def members_text : List (String × json_t) → List Char
  | [] => []
  | [(k, v)] => Char.ofNat 34 :: k.data ++ Char.ofNat 34 :: Char.ofNat 58 :: json_text v
  | (k, v) :: rest =>
    Char.ofNat 34 :: k.data ++ Char.ofNat 34 :: Char.ofNat 58 :: json_text v
      ++ Char.ofNat 44 :: members_text rest
end

/-- Modelled from the spec: an instance of the JSON-RPC library for the
evaluation of concrete requests. Every received text parses to the given
object `parsed`; the method and the id are its top-level members `method` and
`id`; a result is the object with the members `jsonrpc`, `result` and `id`;
its text is the compact JSON text, written when it fits the buffer. -/
def sample_lib (parsed : json_t) : jsonrpc_lib where
  jrpc_parse_req := fun _ => some parsed
  jrpc_get_method := fun req => (json_object_get req "method").bind json_string_value
  jrpc_get_id := fun req =>
    match json_object_get req "id" with
    | some (json_t.integer v) => some v
    | _ => none
  jrpc_create_result_rsp := fun id req =>
    some (json_t.object
      [("jsonrpc", json_t.string "2.0"), ("result", req), ("id", json_t.integer id)])
  jrpc_format_string := fun rsp n =>
    if (json_text rsp).length < n then some (String.mk (json_text rsp)) else none

/-! ## Response encoder -/

/-- The call `snprintf(str, size, "%d", value)` for a value that is not
negative: the decimal digits, cut to the `size - 1` characters that fit. -/
def snprintf_d (size value : Nat) : String :=
  String.mk ((Nat.repr value).data.take (size - 1))

/-- The builder `jrpc_string_build`. The result is the returned length and the
contents of `jrpc_data` afterwards; `none` when the hex text of the payload
does not fit the local array `buffer` (undefined in C). What a failed
`jrpc_format_string` leaves in `jrpc_data` is not modelled: the contents are
kept. The argument `method` is not used by the body. -/
def jrpc_string_build (lib : jsonrpc_lib) (L : Headers) (_method : String) (id : Int)
    (ipmi_data : List Nat) (len : Nat) (jrpc_data : Option String) (jrpc_data_len : Nat) :
    Option (Nat × Option String) :=
  if 2 * len < L.IPMI_JSONRPC_MAX_STRING_LEN then
    let buffer := buf2hexstr (memcpy_bytes ipmi_data len)
    let str_buf_len := snprintf_d L.IPMI_JSONRPC_MAX_STRING_LEN len
    let req := json_t.object
      [(L.STR_DATA_LEN, json_t.string str_buf_len), (L.STR_DATA, json_t.string buffer)]
    match lib.jrpc_create_result_rsp id req, jrpc_data with
    | some rsp, some _ =>
      match lib.jrpc_format_string rsp jrpc_data_len with
      | none => some (0, jrpc_data)
      | some text => some (text.length, some text)
    | _, _ => some (0, jrpc_data)
  else none

/-- The response encoder `format_app_jrpc_to_user`. The reply `msg` is read as
an app-message header followed by the IPMI body (`nbytes` plays no part);
`buffer` is `none` for `NULL`, otherwise the contents of the output buffer. The
result is the C return value and the contents of the output buffer
afterwards. -/
def format_app_jrpc_to_user (lib : jsonrpc_lib) (L : Headers) (buffer : Option String)
    (header : ipmi_json_ipc_header_t) (msg : app_msg) : Option (Int × Option String) :=
  if msg.datalen ≠ APPMSG_IPMI_MSG_LEN L msg.ipmi.msg.data_len then some (-1, buffer)
  else
    match buffer with
    | none => some (-2, none)
    | some _ =>
      match jrpc_string_build lib L header.method header.json_ipc_id msg.ipmi.msg.data
          msg.ipmi.msg.data_len (some "") L.IPMI_JSONRPC_MAX_STRING_LEN with
      | none => none
      | some (str_len, buffer) =>
        if str_len = 0 then some (-3, buffer) else some ((str_len : Int), buffer)

/-- A reply record around the given payload, with the record length that
matches the payload length. -/
def sample_reply (L : Headers) (payload : List Nat) : app_msg :=
  { type := L.APPMSG_IPMI_MSG
    datalen := APPMSG_IPMI_MSG_LEN L payload.length
    ipmi :=
      { id := 7, timeo := L.IPMI_DFLT_TIMEOUT_MS, user_port := 50000
        header := sample_header "ipmb_req"
        addr := ⟨L.IPMI_ADDR_TYPE_IPMB, ipmi_addr_union.ipmb 32 L.IPMI_BMC_CMD_LUN⟩
        msg := { ipmi_msg.zero with netfn := 7, cmd := 1, data_len := payload.length,
                                    data := payload } }
    nbytes := APPMSG_IPMI_MSG_LEN L payload.length + L.APP_MSG_HDR_SIZE
    overread := false }

/-! ## Integer extraction and the vocabulary of the reply path -/

/-- Modelled from the spec: `json_integer_value` of the JSON library, the
integer held by an integer value. For every other kind of value the result is
taken to be 0; `jrpc_get_int` fails for such a value under this reading and
under the reading that gives the sentinel -1 as well. -/
def json_integer_value (obj : json_t) : Int :=
  match obj with
  | json_t.integer v => v
  | _ => 0

/-- The extractor `jrpc_get_int`: `none` is `JSONRPC_FAILED`; `some v` is
`JSONRPC_SUCCESS` with `v` the integer stored to `*value`. (On the two failures
that follow the lookup, `*value` has been assigned as well; the callers are
told a failure.) The last test of the source, `*value == 0` written with the
character constant of value 0, compares the integer with 0. -/
def jrpc_get_int (req : Option json_t) (key : String) : Option Int :=
  match req with
  | none => none
  | some r =>
    match json_object_get r key with
    | none => none
    | some json_obj =>
      let value := json_integer_value json_obj
      if -1 = value ∨ value = 0 then none else some value

/-- The object `req` that `jrpc_string_build` hands to `jrpc_create_result_rsp`
for the payload of a reply: the decimal length and the hex text. -/
def reply_params (L : Headers) (msg : app_msg) : json_t :=
  json_t.object
    [(L.STR_DATA_LEN,
        json_t.string (snprintf_d L.IPMI_JSONRPC_MAX_STRING_LEN msg.ipmi.msg.data_len)),
     (L.STR_DATA,
        json_t.string (buf2hexstr (memcpy_bytes msg.ipmi.msg.data msg.ipmi.msg.data_len)))]

/-- The reply path is defined for a reply when the hex text of its payload and
the terminating zero fit the local array of `jrpc_string_build`. -/
def hex_fits (L : Headers) (msg : app_msg) : Prop :=
  2 * msg.ipmi.msg.data_len < L.IPMI_JSONRPC_MAX_STRING_LEN

instance (L : Headers) (msg : app_msg) : Decidable (hex_fits L msg) := by
  unfold hex_fits; infer_instance

/-- The sample constants with an output capacity of 40 bytes, which the text
of no result fits. -/
def small_buffer_headers : Headers :=
  { sampleHeaders with IPMI_JSONRPC_MAX_STRING_LEN := 40 }

/-! ## The tgt target configuration (`tgt_target_config.cpp`) -/

/-- The C++ exceptions thrown by `TgtTargetConfig::to_string`:
`std::invalid_argument` with its message. -/
inductive cpp_exception where
  | invalid_argument (what : String)
deriving DecidableEq

/-- The class `TgtTargetConfig` as far as `to_string` reads the target behind
`m_target` through its getters: the target IQN, the LUNs in their stored order
and the initiator IQN. The type of a LUN is declared in a header outside the
sources and is a parameter. -/
structure TgtTargetConfig (Lun : Type) where
  target_iqn : String
  target_lun : List Lun
  initiator_iqn : String

/-- The constant `TGT_CONFIG_PROPERTY_INITIATOR_ADDRESS`. -/
def TGT_CONFIG_PROPERTY_INITIATOR_ADDRESS : String := "initiator-address"

/-- The constant `TAB`. -/
def TAB : String := "\t"

/-- What `std::endl` writes to the stream: a newline. -/
def endl : String := "\n"

/-- The member `TgtTargetConfig::get_target_begin_tag`. -/
def TgtTargetConfig.get_target_begin_tag {Lun : Type} (self : TgtTargetConfig Lun) : String :=
  "<target " ++ self.target_iqn ++ ">"

/-- The member `TgtTargetConfig::get_target_end_tag`. -/
def TgtTargetConfig.get_target_end_tag {Lun : Type} (_self : TgtTargetConfig Lun) : String :=
  "</target>"

/-- The member `TgtTargetConfig::get_target_initiator_address`. -/
def TgtTargetConfig.get_target_initiator_address {Lun : Type} (self : TgtTargetConfig Lun) :
    String :=
  TGT_CONFIG_PROPERTY_INITIATOR_ADDRESS ++ " " ++ self.initiator_iqn

/-- The member `TgtTargetConfig::to_string`. `lunConf_to_string` stands for
`TgtTargetLunConfig(lun).to_string()`, which is defined outside the sources;
an exception thrown by it leaves `to_string` as well. -/
def TgtTargetConfig.to_string {Lun : Type}
    (lunConf_to_string : Lun → Except cpp_exception String) (self : TgtTargetConfig Lun) :
    Except cpp_exception String :=
  if self.target_iqn = "" then
    Except.error (cpp_exception.invalid_argument "Target iqn is empty")
  else if self.target_lun.length = 0 then
    Except.error (cpp_exception.invalid_argument "No lun for target")
  else do
    let content := self.get_target_begin_tag ++ endl
    let content ← self.target_lun.foldlM
      (fun content lun => do
        let text ← lunConf_to_string lun
        pure (content ++ text)) content
    let content :=
      if ¬ self.initiator_iqn = "" then
        content ++ TAB ++ self.get_target_initiator_address ++ endl
      else content
    pure (content ++ self.get_target_end_tag ++ endl)

/-- The texts of a list one after the other. -/
def concat_all : List String → String
  | [] => ""
  | s :: rest => s ++ concat_all rest

/-! ## Lemmas on message ids and the envelope encoder -/

theorem gen_req_msgid_fst_pos (msgid : Nat) : 0 < (gen_req_msgid msgid).1 := by
  unfold gen_req_msgid
  dsimp only
  split
  · exact Nat.one_pos
  · exact Nat.pos_of_ne_zero (by assumption)

theorem gen_req_msgid_snd (msgid : Nat) : (gen_req_msgid msgid).2 = (gen_req_msgid msgid).1 := rfl

theorem gen_req_msgid_succ (c : Nat) (h : c < UINT_MAX) : (gen_req_msgid c).1 = c + 1 := by
  unfold UINT_MAX at h
  unfold gen_req_msgid
  have h1 : (c + 1) % 4294967296 = c + 1 := Nat.mod_eq_of_lt (by omega)
  simp [h1]

theorem gen_req_msgid_wrap : (gen_req_msgid UINT_MAX).1 = 1 := by
  decide

theorem counter_after_succ (n : Nat) :
    counter_after (n + 1) = (gen_req_msgid (counter_after n)).2 := rfl

theorem counter_after_eq (n : Nat) (h : n + 1 ≤ UINT_MAX) : counter_after n = n + 1 := by
  induction n with
  | zero => rfl
  | succ k ih =>
    have hk : counter_after k = k + 1 := ih (by omega)
    show (gen_req_msgid (counter_after k)).2 = k + 1 + 1
    rw [hk, gen_req_msgid_snd, gen_req_msgid_succ (k + 1) (by omega)]

theorem convert_ipmi_appmsg_ok (L : Headers) (st : State) (addr : ipmi_addr) (req : ipmi_msg)
    (header : ipmi_json_ipc_header_t) (timeo : Nat) (broadcast : Int) :
    convert_ipmi_appmsg L st dest_ptr.buffer (some addr) (some req) header timeo broadcast
      = (0, { msgid := (gen_req_msgid st.msgid).2
              dest := some
                { type := L.APPMSG_IPMI_MSG
                  datalen := APPMSG_IPMI_MSG_LEN L req.data_len
                  ipmi := build_appmsg L (gen_req_msgid st.msgid).1 addr req header timeo
                  nbytes := APPMSG_IPMI_MSG_LEN L req.data_len + L.APP_MSG_HDR_SIZE
                  overread := decide (req.data_len > L.IPMI_MAX_DATA_LENGTH) } }) := rfl

theorem convert_ipmi_appmsg_ret (L : Headers) (st : State) (dest_msg : dest_ptr)
    (addr : Option ipmi_addr) (req : Option ipmi_msg) (header : ipmi_json_ipc_header_t)
    (timeo : Nat) (broadcast : Int) :
    ((dest_msg = dest_ptr.NULL ∨ addr = none ∨ req = none) ∧
      convert_ipmi_appmsg L st dest_msg addr req header timeo broadcast = (-1, st)) ∨
    (∃ a r, dest_msg = dest_ptr.buffer ∧ addr = some a ∧ req = some r) := by
  cases dest_msg <;> cases addr <;> cases req <;> simp [convert_ipmi_appmsg]

/-! ## Theorems on message ids and the envelope encoder -/

/-- C1: `gen_req_msgid` never returns 0, whatever the counter holds (also at
0xFFFFFFFF), and whenever `convert_ipmi_appmsg` succeeds the envelope it has
written carries a non-zero id. -/
theorem msgid_never_zero :
    (∀ msgid : Nat, (gen_req_msgid msgid).1 ≠ 0) ∧
    (gen_req_msgid UINT_MAX).1 ≠ 0 ∧
    (∀ (L : Headers) (st : State) (dest_msg : dest_ptr) (addr : Option ipmi_addr)
      (req : Option ipmi_msg) (header : ipmi_json_ipc_header_t) (timeo : Nat) (broadcast : Int),
      (convert_ipmi_appmsg L st dest_msg addr req header timeo broadcast).1 = 0 →
      ∃ env, (convert_ipmi_appmsg L st dest_msg addr req header timeo broadcast).2.dest = some env
        ∧ env.ipmi.id ≠ 0) := by
  refine ⟨fun m => Nat.pos_iff_ne_zero.mp (gen_req_msgid_fst_pos m),
    Nat.pos_iff_ne_zero.mp (gen_req_msgid_fst_pos _), ?_⟩
  intro L st dest_msg addr req header timeo broadcast h
  rcases convert_ipmi_appmsg_ret L st dest_msg addr req header timeo broadcast with
    ⟨_, hfail⟩ | ⟨a, r, hd, ha, hr⟩
  · rw [hfail] at h
    simp at h
  · subst hd ha hr
    rw [convert_ipmi_appmsg_ok]
    exact ⟨_, rfl, Nat.pos_iff_ne_zero.mp (gen_req_msgid_fst_pos _)⟩

/-- C2 (as stated, refuted): the first id a fresh process assigns is 2, not 1. -/
theorem first_assigned_id_not_one : assigned_id 0 = 2 ∧ assigned_id 0 ≠ 1 := by
  decide

/-- C2 (amended): in a fresh process the ids are assigned in the order
2, 3, ..., 0xFFFFFFFF, the assignment after 0xFFFFFFFF gives 1 and the one
after that 2 again; the first id ever assigned is 2. -/
theorem assigned_id_sequence :
    (∀ n : Nat, n + 2 ≤ UINT_MAX → assigned_id n = n + 2) ∧
    assigned_id (UINT_MAX - 2) = UINT_MAX ∧
    assigned_id (UINT_MAX - 1) = 1 ∧
    assigned_id UINT_MAX = 2 ∧
    assigned_id 0 = 2 := by
  have hseq : ∀ n : Nat, n + 2 ≤ UINT_MAX → assigned_id n = n + 2 := by
    intro n hn
    unfold assigned_id
    rw [counter_after_eq n (by omega), gen_req_msgid_succ (n + 1) (by omega)]
  have hlast : counter_after (UINT_MAX - 1) = UINT_MAX := by
    have h := counter_after_eq (UINT_MAX - 1) (by unfold UINT_MAX; omega)
    rw [h]
    unfold UINT_MAX
    omega
  have hwrap : assigned_id (UINT_MAX - 1) = 1 := by
    unfold assigned_id
    rw [hlast]
    exact gen_req_msgid_wrap
  have hnext : counter_after (UINT_MAX - 1 + 1) = 1 := by
    rw [counter_after_succ, hlast]
    exact gen_req_msgid_wrap
  have hmaxeq : UINT_MAX - 1 + 1 = UINT_MAX := by
    unfold UINT_MAX
    omega
  rw [hmaxeq] at hnext
  have hmax : assigned_id (UINT_MAX - 2) = UINT_MAX := by
    rw [hseq (UINT_MAX - 2) (by unfold UINT_MAX; omega)]
    unfold UINT_MAX
    omega
  refine ⟨hseq, hmax, hwrap, ?_, hseq 0 (by unfold UINT_MAX; omega)⟩
  unfold assigned_id
  rw [hnext]
  rfl

/-- Witness of C2 (amended): the sixth assignment of a fresh process gives 7. -/
theorem assigned_id_sequence_witness : 5 + 2 ≤ UINT_MAX ∧ assigned_id 5 = 5 + 2 :=
  ⟨by unfold UINT_MAX; omega, assigned_id_sequence.1 5 (by unfold UINT_MAX; omega)⟩

/-- C3: the envelope written by `convert_ipmi_appmsg` for an input timeout `t`
carries `IPMI_DFLT_TIMEOUT_MS` when `t = 0`, `IPMI_MAX_TIMEOUT_MS` when
`t > IPMI_MAX_TIMEOUT_MS`, and `t` itself otherwise. -/
theorem timeout_clamping (L : Headers) (st : State) (addr : ipmi_addr) (req : ipmi_msg)
    (header : ipmi_json_ipc_header_t) (t : Nat) (broadcast : Int) :
    ∃ env,
      (convert_ipmi_appmsg L st dest_ptr.buffer (some addr) (some req) header t broadcast).2.dest
        = some env ∧
      env.ipmi.timeo =
        (if t = 0 then L.IPMI_DFLT_TIMEOUT_MS
         else if t > L.IPMI_MAX_TIMEOUT_MS then L.IPMI_MAX_TIMEOUT_MS
         else t) := by
  rw [convert_ipmi_appmsg_ok]
  refine ⟨_, rfl, ?_⟩
  show new_timeo L t = _
  unfold new_timeo
  by_cases h0 : t = 0
  · simp [h0]
  · simp [h0]

/-- C6: `convert_ipmi_appmsg` returns -1 exactly when the destination buffer,
the address or the message is `NULL`, and then the state (destination contents
and id counter) is unchanged; in every other case it returns 0. -/
theorem convert_ipmi_appmsg_failure (L : Headers) (st : State) (dest_msg : dest_ptr)
    (addr : Option ipmi_addr) (req : Option ipmi_msg) (header : ipmi_json_ipc_header_t)
    (timeo : Nat) (broadcast : Int) :
    ((convert_ipmi_appmsg L st dest_msg addr req header timeo broadcast).1 = -1 ↔
      (dest_msg = dest_ptr.NULL ∨ addr = none ∨ req = none)) ∧
    ((dest_msg = dest_ptr.NULL ∨ addr = none ∨ req = none) ∧
        (convert_ipmi_appmsg L st dest_msg addr req header timeo broadcast).2 = st ∨
      ¬ (dest_msg = dest_ptr.NULL ∨ addr = none ∨ req = none) ∧
        (convert_ipmi_appmsg L st dest_msg addr req header timeo broadcast).1 = 0) := by
  rcases convert_ipmi_appmsg_ret L st dest_msg addr req header timeo broadcast with
    ⟨hnull, hfail⟩ | ⟨a, r, hd, ha, hr⟩
  · rw [hfail]
    exact ⟨⟨fun _ => hnull, fun _ => rfl⟩, Or.inl ⟨hnull, rfl⟩⟩
  · subst hd ha hr
    rw [convert_ipmi_appmsg_ok]
    simp

/-- C8: after every successful `convert_ipmi_appmsg` call the length field of
the envelope is the fixed IPMI-message header size plus the payload length of
the message, `APPMSG_IPMI_MSG_LEN(data_len)`, and the number of bytes written
to the destination is that length plus `APP_MSG_HDR_SIZE`; the maximum payload
size does not enter. -/
theorem envelope_length (L : Headers) (st : State) (dest_msg : dest_ptr)
    (addr : Option ipmi_addr) (req : Option ipmi_msg) (header : ipmi_json_ipc_header_t)
    (timeo : Nat) (broadcast : Int)
    (h : (convert_ipmi_appmsg L st dest_msg addr req header timeo broadcast).1 = 0) :
    ∃ r env, req = some r ∧
      (convert_ipmi_appmsg L st dest_msg addr req header timeo broadcast).2.dest = some env ∧
      env.datalen = L.APPMSG_IPMI_HDR_LEN + r.data_len ∧
      env.datalen = APPMSG_IPMI_MSG_LEN L env.ipmi.msg.data_len ∧
      env.nbytes = L.APPMSG_IPMI_HDR_LEN + r.data_len + L.APP_MSG_HDR_SIZE := by
  rcases convert_ipmi_appmsg_ret L st dest_msg addr req header timeo broadcast with
    ⟨_, hfail⟩ | ⟨a, r, hd, ha, hr⟩
  · rw [hfail] at h
    simp at h
  · subst hd ha hr
    rw [convert_ipmi_appmsg_ok]
    exact ⟨r, _, rfl, rfl, rfl, rfl, rfl⟩

/-- Witness of C8: a three-byte payload gives a record of 128 + 3 bytes after
the 8-byte app-message header. -/
theorem envelope_length_witness :
    ∃ r env, some { ipmi_msg.zero with data_len := 3, data := [0, 26, 255] } = some r ∧
      (convert_ipmi_appmsg sampleHeaders State.fresh dest_ptr.buffer
        (some ⟨3, ipmi_addr_union.zero⟩)
        (some { ipmi_msg.zero with data_len := 3, data := [0, 26, 255] })
        (sample_header "serial_op_req") 0 0).2.dest = some env ∧
      env.datalen = sampleHeaders.APPMSG_IPMI_HDR_LEN + r.data_len ∧
      env.datalen = APPMSG_IPMI_MSG_LEN sampleHeaders env.ipmi.msg.data_len ∧
      env.nbytes = sampleHeaders.APPMSG_IPMI_HDR_LEN + r.data_len
        + sampleHeaders.APP_MSG_HDR_SIZE :=
  envelope_length sampleHeaders State.fresh dest_ptr.buffer (some ⟨3, ipmi_addr_union.zero⟩)
    (some { ipmi_msg.zero with data_len := 3, data := [0, 26, 255] })
    (sample_header "serial_op_req") 0 0 (by decide)

/-! ## Lemmas on the dispatch -/

theorem find_handle_known (L : Headers) :
    find_handle L JSON_RPC_IPMI_CMD_TYPE_RMCP = some 0 ∧
    find_handle L JSON_RPC_IPMI_CMD_TYPE_IPMB = some 1 ∧
    find_handle L JSON_RPC_IPMI_CMD_TYPE_SERIAL = some 2 ∧
    find_handle L JSON_RPC_IPMI_CMD_TYPE_RMCP_BR = some 3 := by
  cases h : L.CHAR_SIGNED <;>
    simp [find_handle, handle_table, find_handle_loop, char_of, h,
      JSON_RPC_IPMI_CMD_TYPE_RMCP, JSON_RPC_IPMI_CMD_TYPE_IPMB,
      JSON_RPC_IPMI_CMD_TYPE_SERIAL, JSON_RPC_IPMI_CMD_TYPE_RMCP_BR]

theorem rmcp_dispatch (L : Headers) (st : State) (dest_msg : dest_ptr) (req : Option ipmi_msg)
    (header : ipmi_json_ipc_header_t) (args : va_list) :
    jrpc_rmcp_handle_request_cmd L st dest_msg req header args
      = rmcp_handle_common L st dest_msg req header args := by
  simp [jrpc_rmcp_handle_request_cmd, handle_request_cmd, (find_handle_known L).1, call_handle,
    handle_table]

theorem ipmb_dispatch (L : Headers) (st : State) (dest_msg : dest_ptr) (req : Option ipmi_msg)
    (header : ipmi_json_ipc_header_t) (args : va_list) :
    jrpc_ipmb_handle_request_cmd L st dest_msg req header args
      = ipmb_handle_common L st dest_msg req header args := by
  simp [jrpc_ipmb_handle_request_cmd, handle_request_cmd, (find_handle_known L).2.1, call_handle,
    handle_table]

theorem serial_dispatch (L : Headers) (st : State) (dest_msg : dest_ptr) (req : Option ipmi_msg)
    (header : ipmi_json_ipc_header_t) (args : va_list) :
    jrpc_serial_handle_request_cmd L st dest_msg req header args
      = serial_handle_common L st dest_msg req header args := by
  simp [jrpc_serial_handle_request_cmd, handle_request_cmd, (find_handle_known L).2.2.1,
    call_handle, handle_table]

theorem rmcp_br_dispatch (L : Headers) (st : State) (dest_msg : dest_ptr)
    (req : Option ipmi_msg) (header : ipmi_json_ipc_header_t) (args : va_list) :
    jrpc_rmcp_br_handle_request_cmd L st dest_msg req header args
      = rmcp_br_handle_common L st dest_msg req header args := by
  simp [jrpc_rmcp_br_handle_request_cmd, handle_request_cmd, (find_handle_known L).2.2.2,
    call_handle, handle_table]

/-! ## Lemmas on the handlers -/

theorem to_unsigned_natCast (w n : Nat) : to_unsigned w (n : Int) = n % 2 ^ w := by
  unfold to_unsigned
  have h : ((n : Int) % (2 : Int) ^ w) = ((n % 2 ^ w : Nat) : Int) := by
    push_cast
    rfl
  rw [h]
  exact Int.toNat_natCast _

theorem to_unsigned_lt (w : Nat) (x : Int) : to_unsigned w x < 2 ^ w := by
  unfold to_unsigned
  have hpos : (0 : Int) < (2 : Int) ^ w := by positivity
  have h1 := Int.emod_lt_of_pos x hpos
  have h0 := Int.emod_nonneg x (ne_of_gt hpos)
  have h2 : ((x % (2 : Int) ^ w).toNat : Int) = x % (2 : Int) ^ w := Int.toNat_of_nonneg h0
  have h3 : ((x % (2 : Int) ^ w).toNat : Int) < ((2 ^ w : Nat) : Int) := by
    rw [h2]
    push_cast
    exact h1
  exact_mod_cast h3

theorem ipmb_handle_eval (L : Headers) (st : State) (req : ipmi_msg)
    (header : ipmi_json_ipc_header_t) (int_sa : Nat) :
    ipmb_handle_common L st dest_ptr.buffer (some req) header
        [va_item.int (L.IPMI_DFLT_TIMEOUT_MS : Int), va_item.uint int_sa]
      = some (convert_ipmi_appmsg L st dest_ptr.buffer
          (some ⟨L.IPMI_ADDR_TYPE_IPMB,
            ipmi_addr_union.ipmb (L.IPMI_DFLT_TIMEOUT_MS % 2 ^ 32 % 2 ^ 8) L.IPMI_BMC_CMD_LUN⟩)
          (some req) header L.IPMI_DFLT_TIMEOUT_MS
          (is_ipmb_addr_bcast L (L.IPMI_DFLT_TIMEOUT_MS % 2 ^ 32 % 2 ^ 8))).2 := by
  simp [ipmb_handle_common, va_arg_uint, to_unsigned_natCast, format_ipmb_cmd,
    format_ipmb_cmd_timeout]

theorem rmcp_handle_eval (L : Headers) (st : State) (req : ipmi_msg)
    (header : ipmi_json_ipc_header_t) (host port : Nat) (uname passwd : String) :
    rmcp_handle_common L st dest_ptr.buffer (some req) header
        [va_item.uint host, va_item.uint port, va_item.str uname, va_item.str passwd]
      = some (convert_ipmi_appmsg L st dest_ptr.buffer
          (some ⟨L.IPMI_ADDR_TYPE_RMCP,
            ipmi_addr_union.rmcp (host % 2 ^ 32) (port % 2 ^ 32)
              (strncpy_safe uname L.RMCP_USERNAME_LEN (L.RMCP_USERNAME_LEN - 1))
              (strncpy_safe passwd L.RMCP_PASSWORD_LEN (L.RMCP_PASSWORD_LEN - 1))⟩)
          (some req) header L.IPMI_DFLT_TIMEOUT_MS 0).2 := by
  rfl

theorem serial_handle_eval (L : Headers) (st : State) (req : ipmi_msg)
    (header : ipmi_json_ipc_header_t) (args : va_list) :
    serial_handle_common L st dest_ptr.buffer (some req) header args
      = some (convert_ipmi_appmsg L st dest_ptr.buffer
          (some ⟨L.IPMI_ADDR_TYPE_SERIAL, ipmi_addr_union.zero⟩)
          (some req) header L.IPMI_DFLT_TIMEOUT_MS 0).2 := by
  simp [serial_handle_common, format_serial_cmd, format_serial_cmd_timeout]

theorem rmcp_br_handle_eval (L : Headers) (st : State) (req : ipmi_msg)
    (header : ipmi_json_ipc_header_t) (host port target_addr int_target_ch : Nat)
    (uname passwd : String) (transit_addr int_transit_ch : Nat) (bridge_level : Int) :
    rmcp_br_handle_common L st dest_ptr.buffer (some req) header
        [va_item.uint host, va_item.uint port, va_item.ulong target_addr,
         va_item.uint int_target_ch, va_item.str uname, va_item.str passwd,
         va_item.ulong transit_addr, va_item.uint int_transit_ch, va_item.int bridge_level]
      = some (convert_ipmi_appmsg L st dest_ptr.buffer
          (some ⟨L.IPMI_ADDR_TYPE_RMCP,
            ipmi_addr_union.rmcp (host % 2 ^ 32) (port % 2 ^ 32)
              (strncpy_safe uname L.RMCP_USERNAME_LEN (L.RMCP_USERNAME_LEN - 1))
              (strncpy_safe passwd L.RMCP_PASSWORD_LEN (L.RMCP_PASSWORD_LEN - 1))⟩)
          (some (rmcp_br_msg L req (target_addr % 2 ^ 64) (int_target_ch % 2 ^ 32 % 2 ^ 16)
            (transit_addr % 2 ^ 64) (int_transit_ch % 2 ^ 32 % 2 ^ 16) bridge_level))
          header L.IPMI_DFLT_TIMEOUT_MS 0).2 := by
  rfl

/-- With `NULL` for the destination no handler changes the state. -/
theorem handlers_null_dest (L : Headers) (st : State) (req : Option ipmi_msg)
    (header : ipmi_json_ipc_header_t) (args : va_list) (st' : State) :
    (ipmb_handle_common L st dest_ptr.NULL req header args = some st' → st' = st) ∧
    (rmcp_handle_common L st dest_ptr.NULL req header args = some st' → st' = st) ∧
    (serial_handle_common L st dest_ptr.NULL req header args = some st' → st' = st) ∧
    (rmcp_br_handle_common L st dest_ptr.NULL req header args = some st' → st' = st) := by
  refine ⟨?_, ?_, ?_, ?_⟩
  · intro h
    simp only [ipmb_handle_common, format_ipmb_cmd, format_ipmb_cmd_timeout, bind, pure,
      Option.bind_eq_some] at h
    obtain ⟨_, _, h⟩ := h
    simpa using h.symm
  · intro h
    simp only [rmcp_handle_common, format_rmcp_cmd, format_rmcp_cmd_timeout, bind, pure,
      Option.bind_eq_some] at h
    obtain ⟨_, _, _, _, _, _, _, _, h⟩ := h
    simpa using h.symm
  · intro h
    simp only [serial_handle_common, format_serial_cmd, format_serial_cmd_timeout] at h
    simpa using h.symm
  · intro h
    simp only [rmcp_br_handle_common, format_rmcp_br_cmd, format_rmcp_cmd_timeout, bind, pure,
      Option.bind_eq_some] at h
    obtain ⟨_, _, _, _, _, _, _, _, _, _, _, _, _, _, _, _, _, _, _, _, h⟩ := h
    simpa using h.symm

/-! ## Lemmas on the request parsers -/

theorem ipmb_parse_inv (L : Headers) (st : State) (dest_msg : dest_ptr)
    (json_obj : Option json_t) (header : ipmi_json_ipc_header_t) :
    jrpc_ipmb_req_parse L st dest_msg json_obj header = some st ∨
    ∃ value_netfn value_cmd value_data_len value_src_addr value_data data len,
      jrpc_get_key_value json_obj STR_PARAMS L.STR_NETFN = some value_netfn ∧
      jrpc_get_key_value json_obj STR_PARAMS L.STR_CMD = some value_cmd ∧
      jrpc_get_key_value json_obj STR_PARAMS L.STR_DATA_LEN = some value_data_len ∧
      jrpc_get_key_value json_obj STR_PARAMS L.STR_IPMB_SRC_ADDR = some value_src_addr ∧
      get_data_field L json_obj value_data_len = some value_data ∧
      decode_data value_data_len value_data = some (data, len) ∧
      jrpc_ipmb_req_parse L st dest_msg json_obj header
        = ipmb_handle_common L st dest_msg (some (parsed_msg value_netfn value_cmd data len))
            header [va_item.int (L.IPMI_DFLT_TIMEOUT_MS : Int),
              va_item.uint (to_unsigned 8 (atoi value_src_addr))] := by
  unfold jrpc_ipmb_req_parse
  repeat' split
  all_goals first
    | exact Or.inl rfl
    | exact Or.inr ⟨_, _, _, _, _, _, _, ‹_›, ‹_›, ‹_›, ‹_›, ‹_›, ‹_›, ipmb_dispatch _ _ _ _ _ _⟩

theorem rmcp_parse_inv (L : Headers) (st : State) (dest_msg : dest_ptr)
    (json_obj : Option json_t) (header : ipmi_json_ipc_header_t) :
    jrpc_rmcp_req_parse L st dest_msg json_obj header = some st ∨
    ∃ value_netfn value_cmd value_data_len value_host value_port value_data value_uname
      value_passwd data len,
      jrpc_get_key_value json_obj STR_PARAMS L.STR_NETFN = some value_netfn ∧
      jrpc_get_key_value json_obj STR_PARAMS L.STR_CMD = some value_cmd ∧
      jrpc_get_key_value json_obj STR_PARAMS L.STR_DATA_LEN = some value_data_len ∧
      jrpc_get_key_value json_obj STR_PARAMS L.STR_TARGET_IP = some value_host ∧
      jrpc_get_key_value json_obj STR_PARAMS L.STR_TARGET_PORT = some value_port ∧
      get_data_field L json_obj value_data_len = some value_data ∧
      jrpc_get_key_value json_obj STR_PARAMS L.STR_NAME = some value_uname ∧
      jrpc_get_key_value json_obj STR_PARAMS L.STR_PASSWD = some value_passwd ∧
      decode_data value_data_len value_data = some (data, len) ∧
      jrpc_rmcp_req_parse L st dest_msg json_obj header
        = rmcp_handle_common L st dest_msg (some (parsed_msg value_netfn value_cmd data len))
            header [va_item.uint (inet_addr L value_host),
              va_item.uint (htons L (to_unsigned 32 (atoi value_port))),
              va_item.str value_uname, va_item.str value_passwd] := by
  unfold jrpc_rmcp_req_parse
  repeat' split
  all_goals first
    | exact Or.inl rfl
    | exact Or.inr ⟨_, _, _, _, _, _, _, _, _, _, ‹_›, ‹_›, ‹_›, ‹_›, ‹_›, ‹_›, ‹_›, ‹_›, ‹_›,
        rmcp_dispatch _ _ _ _ _ _⟩

theorem serial_parse_inv (L : Headers) (st : State) (dest_msg : dest_ptr)
    (json_obj : Option json_t) (header : ipmi_json_ipc_header_t) :
    jrpc_serail_req_parse L st dest_msg json_obj header = some st ∨
    ∃ value_netfn value_cmd value_data_len value_ser_flag value_data value_ser_fd data len,
      jrpc_get_key_value json_obj STR_PARAMS L.STR_NETFN = some value_netfn ∧
      jrpc_get_key_value json_obj STR_PARAMS L.STR_CMD = some value_cmd ∧
      jrpc_get_key_value json_obj STR_PARAMS L.STR_DATA_LEN = some value_data_len ∧
      jrpc_get_key_value json_obj STR_PARAMS L.STR_SERIAL_FLAG = some value_ser_flag ∧
      get_data_field L json_obj value_data_len = some value_data ∧
      get_serial_fd_field L json_obj header = some value_ser_fd ∧
      decode_data value_data_len value_data = some (data, len) ∧
      jrpc_serail_req_parse L st dest_msg json_obj header
        = serial_handle_common L st dest_msg
            (some { parsed_msg value_netfn value_cmd data len with
              serial :=
                { serial_flag := to_unsigned 8 (atoi value_ser_flag)
                  serial_fd := serial_fd_of L header value_ser_fd } })
            header [] := by
  unfold jrpc_serail_req_parse
  repeat' split
  all_goals first
    | exact Or.inl rfl
    | exact Or.inr ⟨_, _, _, _, _, _, _, _, ‹_›, ‹_›, ‹_›, ‹_›, ‹_›, ‹_›, ‹_›,
        serial_dispatch _ _ _ _ _ _⟩

theorem rmcp_br_parse_inv (L : Headers) (st : State) (dest_msg : dest_ptr)
    (json_obj : Option json_t) (header : ipmi_json_ipc_header_t) :
    jrpc_rmcp_br_req_parse L st dest_msg json_obj header = some st ∨
    ∃ value_netfn value_cmd value_data_len value_target_ip value_target_port
      value_transit_addr value_transit_ch value_target_addr value_target_ch value_data
      value_uname value_passwd value_bridge_level data len,
      jrpc_get_key_value json_obj STR_PARAMS L.STR_NETFN = some value_netfn ∧
      jrpc_get_key_value json_obj STR_PARAMS L.STR_CMD = some value_cmd ∧
      jrpc_get_key_value json_obj STR_PARAMS L.STR_DATA_LEN = some value_data_len ∧
      jrpc_get_key_value json_obj STR_PARAMS L.STR_TARGET_IP = some value_target_ip ∧
      jrpc_get_key_value json_obj STR_PARAMS L.STR_TARGET_PORT = some value_target_port ∧
      jrpc_get_key_value json_obj STR_PARAMS L.STR_TRANSIT_ADDR = some value_transit_addr ∧
      jrpc_get_key_value json_obj STR_PARAMS L.STR_TRANSIT_CH = some value_transit_ch ∧
      jrpc_get_key_value json_obj STR_PARAMS L.STR_TARGET_ADDR = some value_target_addr ∧
      jrpc_get_key_value json_obj STR_PARAMS L.STR_TARGET_CH = some value_target_ch ∧
      get_data_field L json_obj value_data_len = some value_data ∧
      jrpc_get_key_value json_obj STR_PARAMS L.STR_NAME = some value_uname ∧
      jrpc_get_key_value json_obj STR_PARAMS L.STR_PASSWD = some value_passwd ∧
      jrpc_get_key_value json_obj STR_PARAMS L.STR_BRIDGE_LEVEL = some value_bridge_level ∧
      decode_data value_data_len value_data = some (data, len) ∧
      jrpc_rmcp_br_req_parse L st dest_msg json_obj header
        = rmcp_br_handle_common L st dest_msg
            (some (parsed_msg value_netfn value_cmd data len)) header
            [va_item.uint (inet_addr L value_target_ip),
             va_item.uint (htons L (to_unsigned 32 (atoi value_target_port))),
             va_item.ulong (to_unsigned 64 (atoi value_target_addr)),
             va_item.uint (to_unsigned 32 (atoi value_target_ch)),
             va_item.str value_uname, va_item.str value_passwd,
             va_item.ulong (to_unsigned 64 (atoi value_transit_addr)),
             va_item.uint (to_unsigned 32 (atoi value_transit_ch)),
             va_item.int (atoi value_bridge_level)] := by
  unfold jrpc_rmcp_br_req_parse
  repeat' split
  all_goals first
    | exact Or.inl rfl
    | exact Or.inr ⟨_, _, _, _, _, _, _, _, _, _, _, _, _, _, _, ‹_›, ‹_›, ‹_›, ‹_›, ‹_›, ‹_›,
        ‹_›, ‹_›, ‹_›, ‹_›, ‹_›, ‹_›, ‹_›, ‹_›, rmcp_br_dispatch _ _ _ _ _ _⟩

theorem ipmb_parse_fwd (L : Headers) (st : State) (dest_msg : dest_ptr) (json_obj : json_t)
    (header : ipmi_json_ipc_header_t)
    (value_netfn value_cmd value_data_len value_src_addr value_data : String)
    (data : List Nat) (len : Int)
    (h1 : jrpc_get_key_value (some json_obj) STR_PARAMS L.STR_NETFN = some value_netfn)
    (h2 : jrpc_get_key_value (some json_obj) STR_PARAMS L.STR_CMD = some value_cmd)
    (h3 : jrpc_get_key_value (some json_obj) STR_PARAMS L.STR_DATA_LEN = some value_data_len)
    (h4 : jrpc_get_key_value (some json_obj) STR_PARAMS L.STR_IPMB_SRC_ADDR
      = some value_src_addr)
    (hd : get_data_field L (some json_obj) value_data_len = some value_data)
    (hdec : decode_data value_data_len value_data = some (data, len)) :
    jrpc_ipmb_req_parse L st dest_msg (some json_obj) header
      = ipmb_handle_common L st dest_msg (some (parsed_msg value_netfn value_cmd data len))
          header [va_item.int (L.IPMI_DFLT_TIMEOUT_MS : Int),
            va_item.uint (to_unsigned 8 (atoi value_src_addr))] := by
  simp only [jrpc_ipmb_req_parse, h1, h2, h3, h4, hd, hdec, ipmb_dispatch]
  rfl

theorem rmcp_parse_fwd (L : Headers) (st : State) (dest_msg : dest_ptr) (json_obj : json_t)
    (header : ipmi_json_ipc_header_t)
    (value_netfn value_cmd value_data_len value_host value_port value_data value_uname
      value_passwd : String) (data : List Nat) (len : Int)
    (h1 : jrpc_get_key_value (some json_obj) STR_PARAMS L.STR_NETFN = some value_netfn)
    (h2 : jrpc_get_key_value (some json_obj) STR_PARAMS L.STR_CMD = some value_cmd)
    (h3 : jrpc_get_key_value (some json_obj) STR_PARAMS L.STR_DATA_LEN = some value_data_len)
    (h4 : jrpc_get_key_value (some json_obj) STR_PARAMS L.STR_TARGET_IP = some value_host)
    (h5 : jrpc_get_key_value (some json_obj) STR_PARAMS L.STR_TARGET_PORT = some value_port)
    (hd : get_data_field L (some json_obj) value_data_len = some value_data)
    (h6 : jrpc_get_key_value (some json_obj) STR_PARAMS L.STR_NAME = some value_uname)
    (h7 : jrpc_get_key_value (some json_obj) STR_PARAMS L.STR_PASSWD = some value_passwd)
    (hdec : decode_data value_data_len value_data = some (data, len)) :
    jrpc_rmcp_req_parse L st dest_msg (some json_obj) header
      = rmcp_handle_common L st dest_msg (some (parsed_msg value_netfn value_cmd data len))
          header [va_item.uint (inet_addr L value_host),
            va_item.uint (htons L (to_unsigned 32 (atoi value_port))),
            va_item.str value_uname, va_item.str value_passwd] := by
  simp only [jrpc_rmcp_req_parse, h1, h2, h3, h4, h5, h6, h7, hd, hdec, rmcp_dispatch]
  rfl

theorem serial_parse_fwd (L : Headers) (st : State) (dest_msg : dest_ptr) (json_obj : json_t)
    (header : ipmi_json_ipc_header_t)
    (value_netfn value_cmd value_data_len value_ser_flag value_data value_ser_fd : String)
    (data : List Nat) (len : Int)
    (h1 : jrpc_get_key_value (some json_obj) STR_PARAMS L.STR_NETFN = some value_netfn)
    (h2 : jrpc_get_key_value (some json_obj) STR_PARAMS L.STR_CMD = some value_cmd)
    (h3 : jrpc_get_key_value (some json_obj) STR_PARAMS L.STR_DATA_LEN = some value_data_len)
    (h4 : jrpc_get_key_value (some json_obj) STR_PARAMS L.STR_SERIAL_FLAG
      = some value_ser_flag)
    (hd : get_data_field L (some json_obj) value_data_len = some value_data)
    (h5 : get_serial_fd_field L (some json_obj) header = some value_ser_fd)
    (hdec : decode_data value_data_len value_data = some (data, len)) :
    jrpc_serail_req_parse L st dest_msg (some json_obj) header
      = serial_handle_common L st dest_msg
          (some { parsed_msg value_netfn value_cmd data len with
            serial :=
              { serial_flag := to_unsigned 8 (atoi value_ser_flag)
                serial_fd := serial_fd_of L header value_ser_fd } })
          header [] := by
  simp only [jrpc_serail_req_parse, h1, h2, h3, h4, h5, hd, hdec, serial_dispatch]
  rfl

theorem rmcp_br_parse_fwd (L : Headers) (st : State) (dest_msg : dest_ptr) (json_obj : json_t)
    (header : ipmi_json_ipc_header_t)
    (value_netfn value_cmd value_data_len value_target_ip value_target_port
      value_transit_addr value_transit_ch value_target_addr value_target_ch value_data
      value_uname value_passwd value_bridge_level : String) (data : List Nat) (len : Int)
    (h1 : jrpc_get_key_value (some json_obj) STR_PARAMS L.STR_NETFN = some value_netfn)
    (h2 : jrpc_get_key_value (some json_obj) STR_PARAMS L.STR_CMD = some value_cmd)
    (h3 : jrpc_get_key_value (some json_obj) STR_PARAMS L.STR_DATA_LEN = some value_data_len)
    (h4 : jrpc_get_key_value (some json_obj) STR_PARAMS L.STR_TARGET_IP
      = some value_target_ip)
    (h5 : jrpc_get_key_value (some json_obj) STR_PARAMS L.STR_TARGET_PORT
      = some value_target_port)
    (h6 : jrpc_get_key_value (some json_obj) STR_PARAMS L.STR_TRANSIT_ADDR
      = some value_transit_addr)
    (h7 : jrpc_get_key_value (some json_obj) STR_PARAMS L.STR_TRANSIT_CH
      = some value_transit_ch)
    (h8 : jrpc_get_key_value (some json_obj) STR_PARAMS L.STR_TARGET_ADDR
      = some value_target_addr)
    (h9 : jrpc_get_key_value (some json_obj) STR_PARAMS L.STR_TARGET_CH
      = some value_target_ch)
    (hd : get_data_field L (some json_obj) value_data_len = some value_data)
    (h10 : jrpc_get_key_value (some json_obj) STR_PARAMS L.STR_NAME = some value_uname)
    (h11 : jrpc_get_key_value (some json_obj) STR_PARAMS L.STR_PASSWD = some value_passwd)
    (h12 : jrpc_get_key_value (some json_obj) STR_PARAMS L.STR_BRIDGE_LEVEL
      = some value_bridge_level)
    (hdec : decode_data value_data_len value_data = some (data, len)) :
    jrpc_rmcp_br_req_parse L st dest_msg (some json_obj) header
      = rmcp_br_handle_common L st dest_msg
          (some (parsed_msg value_netfn value_cmd data len)) header
          [va_item.uint (inet_addr L value_target_ip),
           va_item.uint (htons L (to_unsigned 32 (atoi value_target_port))),
           va_item.ulong (to_unsigned 64 (atoi value_target_addr)),
           va_item.uint (to_unsigned 32 (atoi value_target_ch)),
           va_item.str value_uname, va_item.str value_passwd,
           va_item.ulong (to_unsigned 64 (atoi value_transit_addr)),
           va_item.uint (to_unsigned 32 (atoi value_transit_ch)),
           va_item.int (atoi value_bridge_level)] := by
  simp only [jrpc_rmcp_br_req_parse, h1, h2, h3, h4, h5, h6, h7, h8, h9, h10, h11, h12, hd,
    hdec, rmcp_br_dispatch]
  rfl

/-! ## Lemmas on payload bytes -/

theorem memcpy_bytes_self (l : List Nat) : memcpy_bytes l l.length = l := by
  unfold memcpy_bytes
  apply List.ext_getElem
  · simp
  · intro i h1 h2
    simp [List.getElem?_eq_getElem h2]

theorem hexstr2buf_chars_length (n : Nat) :
    ∀ cs : List Char, cs.length = 2 * n → (hexstr2buf_chars cs).length = n := by
  induction n with
  | zero =>
    intro cs h
    have : cs = [] := List.length_eq_zero.mp (by omega)
    subst this
    rfl
  | succ k ih =>
    intro cs h
    match cs, h with
    | hi :: lo :: rest, h =>
      have hr : rest.length = 2 * k := by
        simp only [List.length_cons] at h
        omega
      simp [hexstr2buf_chars, ih rest hr]

theorem hexstr2buf_length (s : String) (n : Nat) (h : s.length = 2 * n) :
    (hexstr2buf s).length = n :=
  hexstr2buf_chars_length n s.data h

theorem get_key_value_of_field (json_obj : json_t) (key v : String)
    (hf : json_field json_obj key = some (json_t.string v)) (hl : v.length < MAX_KEY_NAME) :
    jrpc_get_key_value (some json_obj) STR_PARAMS key = some v := by
  unfold json_field at hf
  unfold jrpc_get_key_value
  cases hp : json_object_get json_obj STR_PARAMS with
  | none => simp [hp] at hf
  | some params =>
    simp only [hp, Option.some_bind] at hf
    show (match json_object_get json_obj STR_PARAMS with
      | none => none
      | some o => jrpc_get_string (some o) key) = some v
    rw [hp]
    show (match json_object_get params key with
      | none => none
      | some o =>
        match json_string_value o with
        | none => none
        | some p_value => if p_value.length < MAX_KEY_NAME then some p_value else none) = some v
    rw [hf]
    show (if v.length < MAX_KEY_NAME then some v else none) = some v
    rw [if_pos hl]

theorem decode_data_pos (value_data_len value_data : String) (N : Nat)
    (hN : atoi value_data_len = (N : Int)) (h1 : 1 ≤ N)
    (hlen : (hexstr2buf value_data).length = N) :
    decode_data value_data_len value_data = some (hexstr2buf value_data, (N : Int)) := by
  unfold decode_data
  have hpos : (N : Int) > 0 := by omega
  simp [hN, hpos, hlen]

theorem decode_data_mismatch (value_data_len value_data : String)
    (hpos : 0 < atoi value_data_len)
    (hne : atoi value_data_len ≠ ((hexstr2buf value_data).length : Int)) :
    decode_data value_data_len value_data = none := by
  unfold decode_data
  simp [hpos, hne]

theorem get_data_field_pos (L : Headers) (json_obj : Option json_t) (value_data_len : String)
    (hpos : 0 < atoi value_data_len) :
    get_data_field L json_obj value_data_len
      = jrpc_get_key_value json_obj STR_PARAMS L.STR_DATA := by
  unfold get_data_field
  simp [hpos]

theorem build_appmsg_payload (L : Headers) (id : Nat) (addr : ipmi_addr) (req : ipmi_msg)
    (header : ipmi_json_ipc_header_t) (timeo : Nat)
    (hlen : req.data.length = req.data_len) (hmax : req.data_len ≤ L.IPMI_MAX_DATA_LENGTH) :
    (build_appmsg L id addr req header timeo).msg.data_len = req.data_len ∧
    (build_appmsg L id addr req header timeo).msg.data = req.data := by
  refine ⟨rfl, ?_⟩
  show (if 0 < req.data_len ∧ req.data_len ≤ L.IPMI_MAX_DATA_LENGTH then
      memcpy_bytes req.data req.data_len else []) = req.data
  by_cases h0 : 0 < req.data_len
  · rw [if_pos ⟨h0, hmax⟩, ← hlen, memcpy_bytes_self]
  · rw [if_neg (fun h => h0 h.1)]
    have : req.data.length = 0 := by omega
    exact (List.length_eq_zero.mp this).symm

/-! ## Theorems on the request parsers -/

theorem has_field_iff (json_obj : json_t) (key : String) :
    has_field json_obj key = true ↔
      ∃ v, jrpc_get_key_value (some json_obj) STR_PARAMS key = some v := by
  unfold has_field
  exact Option.isSome_iff_exists

/-- The envelope written for an accepted payload of `N` bytes. -/
theorem convert_payload (L : Headers) (st : State) (addr : ipmi_addr) (req : ipmi_msg)
    (header : ipmi_json_ipc_header_t) (timeo : Nat) (broadcast : Int)
    (hlen : req.data.length = req.data_len) (hmax : req.data_len ≤ L.IPMI_MAX_DATA_LENGTH) :
    ∃ env msgid,
      some (convert_ipmi_appmsg L st dest_ptr.buffer (some addr) (some req) header timeo
        broadcast).2 = some ⟨msgid, some env⟩ ∧
      env.ipmi.msg.data_len = req.data_len ∧ env.ipmi.msg.data = req.data := by
  rw [convert_ipmi_appmsg_ok]
  exact ⟨_, _, rfl, build_appmsg_payload L _ addr req header timeo hlen hmax⟩

theorem to_unsigned_16_small (N : Nat) (h : N ≤ 15) : to_unsigned 16 (N : Int) = N := by
  rw [to_unsigned_natCast]
  exact Nat.mod_eq_of_lt (by omega)

/-- C4 (amended): for each of the four request parsers and every payload length
`N` from 1 to 15 (and not above `IPMI_MAX_DATA_LENGTH`), a request that
carries all required fields, a declared data length `N` and a data field of
`2 * N` characters produces an envelope whose payload length field is `N` and
whose payload is the `N` bytes decoded from the data field. -/
theorem payload_length_exact (t : transport) (L : Headers) (st : State) (json_obj : json_t)
    (header : ipmi_json_ipc_header_t) (value_data_len value_data : String) (N : Nat)
    (hreq : carries_required L t json_obj header = true)
    (hlen : jrpc_get_key_value (some json_obj) STR_PARAMS L.STR_DATA_LEN = some value_data_len)
    (hN : atoi value_data_len = (N : Int))
    (hdata : json_field json_obj L.STR_DATA = some (json_t.string value_data))
    (hhex : value_data.length = 2 * N)
    (h1 : 1 ≤ N) (h15 : N ≤ 15) (hmax : N ≤ L.IPMI_MAX_DATA_LENGTH) :
    ∃ env msgid,
      req_parse t L st dest_ptr.buffer (some json_obj) header = some ⟨msgid, some env⟩ ∧
      env.ipmi.msg.data_len = N ∧
      env.ipmi.msg.data = hexstr2buf value_data ∧
      (hexstr2buf value_data).length = N := by
  have hbytes : (hexstr2buf value_data).length = N := hexstr2buf_length value_data N hhex
  have hpos : 0 < atoi value_data_len := by omega
  have hget : jrpc_get_key_value (some json_obj) STR_PARAMS L.STR_DATA = some value_data :=
    get_key_value_of_field json_obj _ _ hdata (by unfold MAX_KEY_NAME; omega)
  have hd : get_data_field L (some json_obj) value_data_len = some value_data := by
    rw [get_data_field_pos L _ _ hpos, hget]
  have hdec := decode_data_pos value_data_len value_data N hN h1 hbytes
  have hconv : ∀ (addr : ipmi_addr) (req : ipmi_msg), req.data = hexstr2buf value_data →
      req.data_len = N →
      ∃ env msgid,
        some (convert_ipmi_appmsg L st dest_ptr.buffer (some addr) (some req) header
          L.IPMI_DFLT_TIMEOUT_MS 0).2 = some ⟨msgid, some env⟩ ∧
        env.ipmi.msg.data_len = N ∧ env.ipmi.msg.data = hexstr2buf value_data ∧
        (hexstr2buf value_data).length = N := by
    intro addr req hdat hl
    obtain ⟨env, msgid, he, h2, h3⟩ := convert_payload L st addr req header
      L.IPMI_DFLT_TIMEOUT_MS 0 (by rw [hdat, hl, hbytes]) (by rw [hl]; exact hmax)
    exact ⟨env, msgid, he, by rw [h2, hl], by rw [h3, hdat], hbytes⟩
  have hdl : to_unsigned 16 (N : Int) = N := to_unsigned_16_small N h15
  cases t with
  | rmcp =>
    simp only [carries_required, required_keys, List.all_cons, List.all_nil, Bool.and_true,
      Bool.and_eq_true, has_field_iff] at hreq
    obtain ⟨⟨v1, e1⟩, ⟨v2, e2⟩, _, ⟨v4, e4⟩, ⟨v5, e5⟩, ⟨v6, e6⟩, ⟨v7, e7⟩⟩ := hreq
    simp only [req_parse]
    rw [rmcp_parse_fwd L st _ json_obj header _ _ _ _ _ _ _ _ _ _ e1 e2 hlen e4 e5 hd e6 e7 hdec,
      rmcp_handle_eval]
    exact hconv _ _ rfl hdl
  | rmcp_br =>
    simp only [carries_required, required_keys, List.all_cons, List.all_nil, Bool.and_true,
      Bool.and_eq_true, has_field_iff] at hreq
    obtain ⟨⟨v1, e1⟩, ⟨v2, e2⟩, _, ⟨v4, e4⟩, ⟨v5, e5⟩, ⟨v6, e6⟩, ⟨v7, e7⟩, ⟨v8, e8⟩, ⟨v9, e9⟩,
      ⟨v10, e10⟩, ⟨v11, e11⟩, ⟨v12, e12⟩⟩ := hreq
    simp only [req_parse]
    rw [rmcp_br_parse_fwd L st _ json_obj header _ _ _ _ _ _ _ _ _ _ _ _ _ _ _ e1 e2 hlen e4 e5
      e6 e7 e8 e9 hd e10 e11 e12 hdec, rmcp_br_handle_eval]
    refine hconv _ _ ?_ hdl
    show (if 0 ≠ to_unsigned 16 (N : Int) then
      memcpy_bytes (hexstr2buf value_data) (to_unsigned 16 (N : Int)) else [])
        = hexstr2buf value_data
    rw [hdl, if_pos (by omega)]
    conv_lhs => rw [← hbytes]
    exact memcpy_bytes_self _
  | ipmb =>
    simp only [carries_required, required_keys, List.all_cons, List.all_nil, Bool.and_true,
      Bool.and_eq_true, has_field_iff] at hreq
    obtain ⟨⟨v1, e1⟩, ⟨v2, e2⟩, _, ⟨v4, e4⟩⟩ := hreq
    simp only [req_parse]
    rw [ipmb_parse_fwd L st _ json_obj header _ _ _ _ _ _ _ e1 e2 hlen e4 hd hdec,
      ipmb_handle_eval]
    exact hconv _ _ rfl hdl
  | serial =>
    simp only [carries_required, required_keys, List.all_append, List.all_cons, List.all_nil,
      Bool.and_true, Bool.and_eq_true, has_field_iff] at hreq
    obtain ⟨⟨⟨v1, e1⟩, ⟨v2, e2⟩, _, ⟨v4, e4⟩⟩, hfd⟩ := hreq
    have h5 : ∃ v, get_serial_fd_field L (some json_obj) header = some v := by
      unfold get_serial_fd_field
      by_cases hm : header.method = L.JSON_RPC_SERIAL_CMD_REQ
      · simp only [hm, if_true, List.all_cons, List.all_nil, Bool.and_true,
          has_field_iff] at hfd ⊢
        exact hfd
      · exact ⟨"", by rw [if_neg hm]⟩
    obtain ⟨v5, e5⟩ := h5
    simp only [req_parse]
    rw [serial_parse_fwd L st _ json_obj header _ _ _ _ _ _ _ _ e1 e2 hlen e4 hd e5 hdec,
      serial_handle_eval]
    exact hconv _ _ rfl hdl

theorem to_unsigned_32_16 (x : Int) : to_unsigned 32 x % 2 ^ 32 % 2 ^ 16 = to_unsigned 16 x := by
  unfold to_unsigned
  omega

theorem to_unsigned_64_64 (x : Int) : to_unsigned 64 x % 2 ^ 64 = to_unsigned 64 x := by
  unfold to_unsigned
  omega

theorem hexstr2buf_chars_le : ∀ cs : List Char, 2 * (hexstr2buf_chars cs).length ≤ cs.length
  | [] => by simp [hexstr2buf_chars]
  | [_] => by simp [hexstr2buf_chars]
  | _ :: _ :: rest => by
    have := hexstr2buf_chars_le rest
    simp only [hexstr2buf_chars, List.length_cons]
    omega

theorem get_key_value_length (json_obj : Option json_t) (param key v : String)
    (h : jrpc_get_key_value json_obj param key = some v) : v.length < MAX_KEY_NAME := by
  unfold jrpc_get_key_value at h
  split at h
  · exact absurd h (by simp)
  · split at h
    · exact absurd h (by simp)
    · unfold jrpc_get_string at h
      split at h
      · exact absurd h (by simp)
      · split at h
        · exact absurd h (by simp)
        · split at h
          · exact absurd h (by simp)
          · split at h
            · cases h
              assumption
            · exact absurd h (by simp)

/-- An accepted payload has at most 15 bytes and `len` is its length. -/
theorem accepted_payload_bound (L : Headers) (json_obj : Option json_t)
    (value_data_len value_data : String) (data : List Nat) (len : Int)
    (hd : get_data_field L json_obj value_data_len = some value_data)
    (hdec : decode_data value_data_len value_data = some (data, len)) :
    data.length ≤ 15 ∧ len = (data.length : Int) := by
  unfold decode_data at hdec
  unfold get_data_field at hd
  by_cases hpos : atoi value_data_len > 0
  · rw [if_pos hpos] at hd
    simp only [hpos, if_true] at hdec
    split at hdec
    · exact absurd hdec (by simp)
    · cases hdec
      have h32 := get_key_value_length _ _ _ _ hd
      have hle := hexstr2buf_chars_le value_data.data
      unfold MAX_KEY_NAME at h32
      have : value_data.data.length = value_data.length := rfl
      refine ⟨?_, rfl⟩
      show (hexstr2buf_chars value_data.data).length ≤ 15
      omega
  · simp only [hpos, if_false] at hdec
    cases hdec
    exact ⟨by simp, rfl⟩

/-- C4 (as stated, refuted): with a maximum payload size of 256, a request that
carries all required fields, declares 16 bytes and holds 32 hex digits is
rejected by each of the four parsers; nothing is written. -/
theorem sixteen_byte_payload_rejected :
    sampleHeaders.IPMI_MAX_DATA_LENGTH = 256 ∧
    req_parse transport.rmcp sampleHeaders State.fresh dest_ptr.buffer
      (some (mk_request "rmcp_req"
        [("netfn", "6"), ("cmd", "1"), ("data_len", "16"),
         ("data", "00112233445566778899AABBCCDDEEFF"), ("target_ip", "10.0.0.5"),
         ("target_port", "623"), ("name", "admin"), ("passwd", "secret")]))
      (sample_header "rmcp_req") = some State.fresh ∧
    req_parse transport.rmcp_br sampleHeaders State.fresh dest_ptr.buffer
      (some (mk_request "rmcp_br_req"
        [("netfn", "6"), ("cmd", "1"), ("data_len", "16"),
         ("data", "00112233445566778899AABBCCDDEEFF"), ("target_ip", "10.0.0.5"),
         ("target_port", "623"), ("name", "admin"), ("passwd", "secret"),
         ("transit_addr", "130"), ("transit_ch", "7"), ("target_addr", "36"),
         ("target_ch", "0"), ("bridge_level", "2")]))
      (sample_header "rmcp_br_req") = some State.fresh ∧
    req_parse transport.ipmb sampleHeaders State.fresh dest_ptr.buffer
      (some (mk_request "ipmb_req"
        [("netfn", "6"), ("cmd", "1"), ("data_len", "16"),
         ("data", "00112233445566778899AABBCCDDEEFF"), ("src_addr", "32")]))
      (sample_header "ipmb_req") = some State.fresh ∧
    req_parse transport.serial sampleHeaders State.fresh dest_ptr.buffer
      (some (mk_request "serial_op_req"
        [("netfn", "6"), ("cmd", "1"), ("data_len", "16"),
         ("data", "00112233445566778899AABBCCDDEEFF"), ("serial_flag", "3")]))
      (sample_header "serial_op_req") = some State.fresh := by
  decide

/-- Witness of C4 (amended): an IPMB request declaring 2 bytes with data "AABB". -/
theorem payload_length_exact_witness :
    ∃ env msgid,
      req_parse transport.ipmb sampleHeaders State.fresh dest_ptr.buffer
        (some (mk_request "ipmb_req"
          [("netfn", "6"), ("cmd", "1"), ("data_len", "2"), ("data", "AABB"),
           ("src_addr", "32")]))
        (sample_header "ipmb_req") = some ⟨msgid, some env⟩ ∧
      env.ipmi.msg.data_len = 2 ∧
      env.ipmi.msg.data = hexstr2buf "AABB" ∧
      (hexstr2buf "AABB").length = 2 :=
  payload_length_exact transport.ipmb sampleHeaders State.fresh
    (mk_request "ipmb_req"
      [("netfn", "6"), ("cmd", "1"), ("data_len", "2"), ("data", "AABB"), ("src_addr", "32")])
    (sample_header "ipmb_req") "2" "AABB" 2 (by decide) (by decide) (by decide) rfl
    (by decide) (by decide) (by decide) (by decide)

/-- C5 (as stated, refuted): a request that declares length "0" while its data
field "AABB" decodes to 2 bytes is accepted; an envelope with payload length 0
is written and a message id is consumed. -/
theorem zero_declared_length_accepted :
    (hexstr2buf "AABB").length = 2 ∧
    ∃ env,
      req_parse transport.ipmb sampleHeaders State.fresh dest_ptr.buffer
        (some (mk_request "ipmb_req"
          [("netfn", "6"), ("cmd", "1"), ("data_len", "0"), ("data", "AABB"),
           ("src_addr", "32")]))
        (sample_header "ipmb_req") = some ⟨2, some env⟩ ∧
      env.ipmi.msg.data_len = 0 :=
  ⟨by decide, _, by rfl, by rfl⟩

/-- C5 (amended): in each of the four request parsers, whenever the declared
data length, the `int` that `atoi` reads from the field, is positive and
differs from the number of bytes the hex data field decodes to, the parse
fails: the destination buffer and the id counter are left as they were. -/
theorem length_mismatch_rejected (t : transport) (L : Headers) (st : State)
    (dest_msg : dest_ptr) (json_obj : json_t) (header : ipmi_json_ipc_header_t)
    (value_data_len : String)
    (hlen : jrpc_get_key_value (some json_obj) STR_PARAMS L.STR_DATA_LEN = some value_data_len)
    (hpos : 0 < atoi value_data_len)
    (hmis : ∀ value_data,
      jrpc_get_key_value (some json_obj) STR_PARAMS L.STR_DATA = some value_data →
      atoi value_data_len ≠ ((hexstr2buf value_data).length : Int)) :
    req_parse t L st dest_msg (some json_obj) header = some st := by
  have key : ∀ (v_len v_data : String) (data : List Nat) (len : Int),
      jrpc_get_key_value (some json_obj) STR_PARAMS L.STR_DATA_LEN = some v_len →
      get_data_field L (some json_obj) v_len = some v_data →
      decode_data v_len v_data = some (data, len) → False := by
    intro v_len v_data data len g3 gd gdec
    rw [hlen] at g3
    cases g3
    rw [get_data_field_pos L _ _ hpos] at gd
    rw [decode_data_mismatch _ _ hpos (hmis _ gd)] at gdec
    cases gdec
  cases t with
  | rmcp =>
    rcases rmcp_parse_inv L st dest_msg (some json_obj) header with
      h | ⟨_, _, _, _, _, _, _, _, _, _, _, _, g3, _, _, gd, _, _, gdec, _⟩
    · exact h
    · exact (key _ _ _ _ g3 gd gdec).elim
  | rmcp_br =>
    rcases rmcp_br_parse_inv L st dest_msg (some json_obj) header with
      h | ⟨_, _, _, _, _, _, _, _, _, _, _, _, _, _, _, _, _, g3, _, _, _, _, _, _, gd, _, _, _,
        gdec, _⟩
    · exact h
    · exact (key _ _ _ _ g3 gd gdec).elim
  | ipmb =>
    rcases ipmb_parse_inv L st dest_msg (some json_obj) header with
      h | ⟨_, _, _, _, _, _, _, _, _, g3, _, gd, gdec, _⟩
    · exact h
    · exact (key _ _ _ _ g3 gd gdec).elim
  | serial =>
    rcases serial_parse_inv L st dest_msg (some json_obj) header with
      h | ⟨_, _, _, _, _, _, _, _, _, _, g3, _, gd, _, gdec, _⟩
    · exact h
    · exact (key _ _ _ _ g3 gd gdec).elim

/-- Witness of C5 (amended): declared "4" with hex payload "AABB" (2 bytes) is
rejected by the RMCP parser. -/
theorem length_mismatch_rejected_witness :
    req_parse transport.rmcp sampleHeaders State.fresh dest_ptr.buffer
      (some (mk_request "rmcp_req"
        [("netfn", "6"), ("cmd", "1"), ("data_len", "4"), ("data", "AABB"),
         ("target_ip", "10.0.0.5"), ("target_port", "623"), ("name", "admin"),
         ("passwd", "secret")]))
      (sample_header "rmcp_req") = some State.fresh :=
  length_mismatch_rejected transport.rmcp sampleHeaders State.fresh dest_ptr.buffer
    (mk_request "rmcp_req"
      [("netfn", "6"), ("cmd", "1"), ("data_len", "4"), ("data", "AABB"),
       ("target_ip", "10.0.0.5"), ("target_port", "623"), ("name", "admin"),
       ("passwd", "secret")])
    (sample_header "rmcp_req") "4" (by decide) (by decide)
    (by
      intro value_data h
      have : value_data = "AABB" := by
        have h2 : jrpc_get_key_value (some (mk_request "rmcp_req"
          [("netfn", "6"), ("cmd", "1"), ("data_len", "4"), ("data", "AABB"),
           ("target_ip", "10.0.0.5"), ("target_port", "623"), ("name", "admin"),
           ("passwd", "secret")])) STR_PARAMS sampleHeaders.STR_DATA = some "AABB" := by
          decide
        rw [h2] at h
        exact (Option.some.inj h).symm
      subst this
      decide)

/-- Every envelope written by `jrpc_ipmb_req_parse` is IPMB-tagged, has the
BMC-command LUN and the (clamped) default timeout, and its source address is
the low byte of the first positional argument of the dispatcher call, which is
`IPMI_DFLT_TIMEOUT_MS`; the source-address field of the request does not
enter. -/
theorem ipmb_accepted (L : Headers) (st : State) (dest_msg : dest_ptr)
    (json_obj : Option json_t) (header : ipmi_json_ipc_header_t) (st' : State)
    (hacc : jrpc_ipmb_req_parse L st dest_msg json_obj header = some st') (hne : st' ≠ st) :
    ∃ env, st'.dest = some env ∧
      env.ipmi.addr = ⟨L.IPMI_ADDR_TYPE_IPMB,
        ipmi_addr_union.ipmb (L.IPMI_DFLT_TIMEOUT_MS % 2 ^ 32 % 2 ^ 8) L.IPMI_BMC_CMD_LUN⟩ ∧
      env.ipmi.timeo = new_timeo L L.IPMI_DFLT_TIMEOUT_MS := by
  rcases ipmb_parse_inv L st dest_msg json_obj header with
    h | ⟨_, _, _, _, _, _, _, _, _, _, _, _, _, heq⟩
  · rw [h] at hacc
    exact absurd (Option.some.inj hacc).symm hne
  · rw [heq] at hacc
    cases dest_msg with
    | NULL => exact absurd ((handlers_null_dest L st _ header _ st').1 hacc) hne
    | buffer =>
      rw [ipmb_handle_eval, convert_ipmi_appmsg_ok] at hacc
      cases hacc
      exact ⟨_, rfl, rfl, rfl⟩

/-- C9 (the code at the failing input): an IPMB request whose source-address
field is "32" is accepted, and the envelope written carries source address
232, the low byte of the default timeout 1000, not 32. -/
theorem ipmb_source_address_lost :
    atoi "32" = 32 ∧
    ∃ env,
      jrpc_ipmb_req_parse sampleHeaders State.fresh dest_ptr.buffer
        (some (mk_request "ipmb_req"
          [("netfn", "6"), ("cmd", "1"), ("data_len", "0"), ("src_addr", "32")]))
        (sample_header "ipmb_req") = some ⟨2, some env⟩ ∧
      env.ipmi.addr = ⟨sampleHeaders.IPMI_ADDR_TYPE_IPMB,
        ipmi_addr_union.ipmb 232 sampleHeaders.IPMI_BMC_CMD_LUN⟩ ∧
      env.ipmi.addr ≠ ⟨sampleHeaders.IPMI_ADDR_TYPE_IPMB,
        ipmi_addr_union.ipmb (32 % 256) sampleHeaders.IPMI_BMC_CMD_LUN⟩ ∧
      sampleHeaders.IPMI_DFLT_TIMEOUT_MS % 256 = 232 :=
  ⟨by decide, _, by rfl, by rfl, by decide, by decide⟩

/-- C10 (as stated, refuted): a bridged request with bridge level "0", the
value of `IPMI_BRIDGE_MSG_NONE`, is accepted, yet the bridging descriptor of
its envelope does not carry the request's netfn 6 and cmd 1 nor the
bridge-initiator address: these fields are 0. -/
theorem bridge_level_none_descriptor_empty :
    ∃ env,
      jrpc_rmcp_br_req_parse sampleHeaders State.fresh dest_ptr.buffer
        (some (mk_request "rmcp_br_req"
          [("netfn", "6"), ("cmd", "1"), ("data_len", "0"), ("target_ip", "10.0.0.5"),
           ("target_port", "623"), ("name", "admin"), ("passwd", "secret"),
           ("transit_addr", "130"), ("transit_ch", "7"), ("target_addr", "36"),
           ("target_ch", "0"), ("bridge_level", "0")]))
        (sample_header "rmcp_br_req") = some ⟨2, some env⟩ ∧
      env.ipmi.msg.bridge.br_netfn = 0 ∧ env.ipmi.msg.bridge.br_cmd = 0 ∧
      env.ipmi.msg.bridge.my_addr = 0 ∧ env.ipmi.msg.bridge.transit_addr = 0 ∧
      sampleHeaders.IPMI_BMC_SLAVE_ADDR = 32 :=
  ⟨_, by rfl, by rfl, by rfl, by rfl, by rfl, by rfl⟩

/-- C10 (amended): for every RMCP-bridged request accepted by
`jrpc_rmcp_br_req_parse` the outer opcode of the envelope is the fixed pair
(`IPMI_BRIDGE_NETFN_APP`, `IPMI_BRIDGE_IPMI_CMD`), the payload length is that
of the original request, and so is the payload when it is within
`IPMI_MAX_DATA_LENGTH`; for every bridge level, the `int` that `atoi` reads
from the field, other than `IPMI_BRIDGE_MSG_NONE` the bridging descriptor
carries that level, the
original netfn and cmd as bridged opcode, `IPMI_BMC_SLAVE_ADDR` as `my_addr`
and the transit and target address and channel of the request. -/
theorem bridged_envelope (L : Headers) (st : State) (dest_msg : dest_ptr)
    (json_obj : Option json_t) (header : ipmi_json_ipc_header_t) (st' : State)
    (hacc : jrpc_rmcp_br_req_parse L st dest_msg json_obj header = some st')
    (hne : st' ≠ st) :
    ∃ value_netfn value_cmd value_data_len value_data value_transit_addr value_transit_ch
      value_target_addr value_target_ch value_bridge_level data len env,
      jrpc_get_key_value json_obj STR_PARAMS L.STR_NETFN = some value_netfn ∧
      jrpc_get_key_value json_obj STR_PARAMS L.STR_CMD = some value_cmd ∧
      jrpc_get_key_value json_obj STR_PARAMS L.STR_DATA_LEN = some value_data_len ∧
      get_data_field L json_obj value_data_len = some value_data ∧
      jrpc_get_key_value json_obj STR_PARAMS L.STR_TRANSIT_ADDR = some value_transit_addr ∧
      jrpc_get_key_value json_obj STR_PARAMS L.STR_TRANSIT_CH = some value_transit_ch ∧
      jrpc_get_key_value json_obj STR_PARAMS L.STR_TARGET_ADDR = some value_target_addr ∧
      jrpc_get_key_value json_obj STR_PARAMS L.STR_TARGET_CH = some value_target_ch ∧
      jrpc_get_key_value json_obj STR_PARAMS L.STR_BRIDGE_LEVEL = some value_bridge_level ∧
      decode_data value_data_len value_data = some (data, len) ∧
      st'.dest = some env ∧
      env.ipmi.msg.netfn = L.IPMI_BRIDGE_NETFN_APP ∧
      env.ipmi.msg.cmd = L.IPMI_BRIDGE_IPMI_CMD ∧
      env.ipmi.msg.data_len = data.length ∧
      (data.length ≤ L.IPMI_MAX_DATA_LENGTH → env.ipmi.msg.data = data) ∧
      (atoi value_bridge_level ≠ L.IPMI_BRIDGE_MSG_NONE →
        env.ipmi.msg.bridge =
          { bridge_level := atoi value_bridge_level
            my_addr := L.IPMI_BMC_SLAVE_ADDR
            transit_addr := to_unsigned 64 (atoi value_transit_addr)
            transit_channel := to_unsigned 16 (atoi value_transit_ch)
            target_addr := to_unsigned 64 (atoi value_target_addr)
            target_channel := to_unsigned 16 (atoi value_target_ch)
            br_netfn := to_unsigned 8 (atoi value_netfn)
            br_cmd := to_unsigned 8 (atoi value_cmd) }) := by
  rcases rmcp_br_parse_inv L st dest_msg json_obj header with
    h | ⟨v1, v2, v3, _, _, v6, v7, v8, v9, vd, _, _, v12, data, len, g1, g2, g3, _, _, g6, g7, g8,
      g9, gd, _, _, g12, gdec, heq⟩
  · rw [h] at hacc
    exact absurd (Option.some.inj hacc).symm hne
  · rw [heq] at hacc
    cases dest_msg with
    | NULL => exact absurd ((handlers_null_dest L st _ header _ st').2.2.2 hacc) hne
    | buffer =>
      rw [rmcp_br_handle_eval, convert_ipmi_appmsg_ok] at hacc
      cases hacc
      obtain ⟨hb15, hlenv⟩ := accepted_payload_bound L json_obj v3 vd data len gd gdec
      have hdl : to_unsigned 16 len = data.length := by
        rw [hlenv]
        exact to_unsigned_16_small _ hb15
      have hbrdata : (rmcp_br_msg L (parsed_msg v1 v2 data len)
          (to_unsigned 64 (atoi v8) % 2 ^ 64) (to_unsigned 32 (atoi v9) % 2 ^ 32 % 2 ^ 16)
          (to_unsigned 64 (atoi v6) % 2 ^ 64) (to_unsigned 32 (atoi v7) % 2 ^ 32 % 2 ^ 16)
          (atoi v12)).data = data := by
        show (if 0 ≠ to_unsigned 16 len then memcpy_bytes data (to_unsigned 16 len) else [])
          = data
        rw [hdl]
        by_cases h0 : 0 ≠ data.length
        · rw [if_pos h0]
          exact memcpy_bytes_self data
        · rw [if_neg h0]
          have : data.length = 0 := by omega
          exact (List.length_eq_zero.mp this).symm
      refine ⟨v1, v2, v3, vd, v6, v7, v8, v9, v12, data, len, _, g1, g2, g3, gd, g6, g7, g8, g9,
        g12, gdec, rfl, rfl, rfl, hdl, ?_, ?_⟩
      · intro hmax
        have hp := fun addr => (build_appmsg_payload L (gen_req_msgid st.msgid).1
          addr (rmcp_br_msg L (parsed_msg v1 v2 data len)
          (to_unsigned 64 (atoi v8) % 2 ^ 64) (to_unsigned 32 (atoi v9) % 2 ^ 32 % 2 ^ 16)
          (to_unsigned 64 (atoi v6) % 2 ^ 64) (to_unsigned 32 (atoi v7) % 2 ^ 32 % 2 ^ 16)
          (atoi v12)) header L.IPMI_DFLT_TIMEOUT_MS
          (by rw [hbrdata]; exact hdl.symm)
          (by show to_unsigned 16 len ≤ _; rw [hdl]; exact hmax)).2
        exact (hp _).trans hbrdata
      · intro hlevel
        show (if L.IPMI_BRIDGE_MSG_NONE ≠ atoi v12 then _ else _) = _
        rw [if_pos (fun h => hlevel h.symm)]
        show bridge_t.mk _ _ _ _ _ _ _ _ = bridge_t.mk _ _ _ _ _ _ _ _
        rw [to_unsigned_32_16, to_unsigned_32_16, to_unsigned_64_64, to_unsigned_64_64]
        rfl

/-- Witness of C10 (amended): the sample bridged request with bridge level 2 is
accepted in a fresh process, and the theorem applies to the state it leaves. -/
theorem bridged_envelope_witness :
    jrpc_rmcp_br_req_parse sampleHeaders State.fresh dest_ptr.buffer (some bridged_sample)
      (sample_header "rmcp_br_req")
      = some ((jrpc_rmcp_br_req_parse sampleHeaders State.fresh dest_ptr.buffer
          (some bridged_sample) (sample_header "rmcp_br_req")).getD State.fresh) ∧
    (jrpc_rmcp_br_req_parse sampleHeaders State.fresh dest_ptr.buffer (some bridged_sample)
      (sample_header "rmcp_br_req")).getD State.fresh ≠ State.fresh ∧
    ∃ value_netfn value_cmd value_data_len value_data value_transit_addr value_transit_ch
      value_target_addr value_target_ch value_bridge_level data len env,
      jrpc_get_key_value (some bridged_sample) STR_PARAMS sampleHeaders.STR_NETFN
        = some value_netfn ∧
      jrpc_get_key_value (some bridged_sample) STR_PARAMS sampleHeaders.STR_CMD
        = some value_cmd ∧
      jrpc_get_key_value (some bridged_sample) STR_PARAMS sampleHeaders.STR_DATA_LEN
        = some value_data_len ∧
      get_data_field sampleHeaders (some bridged_sample) value_data_len = some value_data ∧
      jrpc_get_key_value (some bridged_sample) STR_PARAMS sampleHeaders.STR_TRANSIT_ADDR
        = some value_transit_addr ∧
      jrpc_get_key_value (some bridged_sample) STR_PARAMS sampleHeaders.STR_TRANSIT_CH
        = some value_transit_ch ∧
      jrpc_get_key_value (some bridged_sample) STR_PARAMS sampleHeaders.STR_TARGET_ADDR
        = some value_target_addr ∧
      jrpc_get_key_value (some bridged_sample) STR_PARAMS sampleHeaders.STR_TARGET_CH
        = some value_target_ch ∧
      jrpc_get_key_value (some bridged_sample) STR_PARAMS sampleHeaders.STR_BRIDGE_LEVEL
        = some value_bridge_level ∧
      decode_data value_data_len value_data = some (data, len) ∧
      ((jrpc_rmcp_br_req_parse sampleHeaders State.fresh dest_ptr.buffer (some bridged_sample)
        (sample_header "rmcp_br_req")).getD State.fresh).dest = some env ∧
      env.ipmi.msg.netfn = sampleHeaders.IPMI_BRIDGE_NETFN_APP ∧
      env.ipmi.msg.cmd = sampleHeaders.IPMI_BRIDGE_IPMI_CMD ∧
      env.ipmi.msg.data_len = data.length ∧
      (data.length ≤ sampleHeaders.IPMI_MAX_DATA_LENGTH → env.ipmi.msg.data = data) ∧
      (atoi value_bridge_level ≠ sampleHeaders.IPMI_BRIDGE_MSG_NONE →
        env.ipmi.msg.bridge =
          { bridge_level := atoi value_bridge_level
            my_addr := sampleHeaders.IPMI_BMC_SLAVE_ADDR
            transit_addr := to_unsigned 64 (atoi value_transit_addr)
            transit_channel := to_unsigned 16 (atoi value_transit_ch)
            target_addr := to_unsigned 64 (atoi value_target_addr)
            target_channel := to_unsigned 16 (atoi value_target_ch)
            br_netfn := to_unsigned 8 (atoi value_netfn)
            br_cmd := to_unsigned 8 (atoi value_cmd) }) :=
  ⟨by rfl, by decide,
    bridged_envelope sampleHeaders State.fresh dest_ptr.buffer (some bridged_sample)
      (sample_header "rmcp_br_req") _ (by rfl) (by decide)⟩

/-- The sample bridged request evaluated: outer opcode (6, 52), bridged opcode
(6, 1), initiator address 32, transit 130 on channel 7, target 36 on channel
0, and the one payload byte 15. -/
theorem bridged_sample_envelope :
    ∃ env,
      jrpc_rmcp_br_req_parse sampleHeaders State.fresh dest_ptr.buffer (some bridged_sample)
        (sample_header "rmcp_br_req") = some ⟨2, some env⟩ ∧
      env.ipmi.msg.netfn = 6 ∧ env.ipmi.msg.cmd = 52 ∧
      env.ipmi.msg.bridge = ⟨2, 32, 130, 7, 36, 0, 6, 1⟩ ∧
      env.ipmi.msg.data_len = 1 ∧ env.ipmi.msg.data = [15] :=
  ⟨_, by rfl, by rfl, by rfl, by rfl, by rfl, by rfl⟩

/-! ## The RMCP scenario -/

theorem inet_addr_sample (L : Headers) :
    inet_addr L "10.0.0.5" = if L.LITTLE_ENDIAN then 83886090 else 167772165 := by
  unfold inet_addr
  rfl

theorem strncpy_safe_fits (src : String) (size : Nat) (h : src.length + 1 ≤ size) :
    strncpy_safe src size (size - 1) = src := by
  unfold strncpy_safe
  have h1 : src.data.length ≤ min (size - 1) (size - 1) := by
    have : src.data.length = src.length := rfl
    omega
  rw [List.take_of_length_le h1]

theorem new_timeo_default (L : Headers)
    (h : L.IPMI_DFLT_TIMEOUT_MS ≤ L.IPMI_MAX_TIMEOUT_MS) :
    new_timeo L L.IPMI_DFLT_TIMEOUT_MS = L.IPMI_DFLT_TIMEOUT_MS := by
  unfold new_timeo
  by_cases h0 : L.IPMI_DFLT_TIMEOUT_MS = 0
  · simp [h0]
  · simp [h0, Nat.not_lt.mpr h]

/-- C11: `jrpc_rmcp_req_parse`, given params with netfn "6", cmd "1", data_len
"0", target_ip "10.0.0.5", target_port "623", name "admin", passwd "secret"
(the data field is not looked at), writes an envelope with the default
timeout, an RMCP-tagged address whose host has the bytes 10, 0, 0, 5 and whose
port has the bytes of 623 in network order (2, 111), user name "admin",
password "secret", opcode netfn 6 / cmd 1 and payload length 0. -/
theorem rmcp_scenario (L : Headers) (st : State) (json_obj : json_t)
    (header : ipmi_json_ipc_header_t)
    (h1 : jrpc_get_key_value (some json_obj) STR_PARAMS L.STR_NETFN = some "6")
    (h2 : jrpc_get_key_value (some json_obj) STR_PARAMS L.STR_CMD = some "1")
    (h3 : jrpc_get_key_value (some json_obj) STR_PARAMS L.STR_DATA_LEN = some "0")
    (h4 : jrpc_get_key_value (some json_obj) STR_PARAMS L.STR_TARGET_IP = some "10.0.0.5")
    (h5 : jrpc_get_key_value (some json_obj) STR_PARAMS L.STR_TARGET_PORT = some "623")
    (h6 : jrpc_get_key_value (some json_obj) STR_PARAMS L.STR_NAME = some "admin")
    (h7 : jrpc_get_key_value (some json_obj) STR_PARAMS L.STR_PASSWD = some "secret")
    (hto : L.IPMI_DFLT_TIMEOUT_MS ≤ L.IPMI_MAX_TIMEOUT_MS)
    (hu : 6 ≤ L.RMCP_USERNAME_LEN) (hp : 7 ≤ L.RMCP_PASSWORD_LEN) :
    ∃ env host port,
      jrpc_rmcp_req_parse L st dest_ptr.buffer (some json_obj) header
        = some ⟨(gen_req_msgid st.msgid).2, some env⟩ ∧
      env.ipmi.timeo = L.IPMI_DFLT_TIMEOUT_MS ∧
      env.ipmi.addr = ⟨L.IPMI_ADDR_TYPE_RMCP, ipmi_addr_union.rmcp host port "admin" "secret"⟩ ∧
      mem_bytes L 4 host = [10, 0, 0, 5] ∧
      mem_bytes L 2 port = [2, 111] ∧
      be_value [2, 111] = 623 ∧
      env.ipmi.msg.netfn = 6 ∧ env.ipmi.msg.cmd = 1 ∧ env.ipmi.msg.data_len = 0 := by
  have hd : get_data_field L (some json_obj) "0" = some "" := by
    unfold get_data_field
    rw [if_neg (by decide)]
  have hdec : decode_data "0" "" = some ([], 0) := by decide
  rw [rmcp_parse_fwd L st _ json_obj header _ _ _ _ _ _ _ _ _ _ h1 h2 h3 h4 h5 hd h6 h7 hdec,
    rmcp_handle_eval, convert_ipmi_appmsg_ok]
  have h623 : to_unsigned 32 (atoi "623") = 623 := by decide
  refine ⟨_, inet_addr L "10.0.0.5" % 2 ^ 32, htons L (to_unsigned 32 (atoi "623")) % 2 ^ 32,
    rfl, ?_, ?_, ?_, ?_, by decide, ?_, ?_, ?_⟩
  · exact new_timeo_default L hto
  · show ipmi_addr.mk _ (ipmi_addr_union.rmcp _ _ (strncpy_safe "admin" _ _)
      (strncpy_safe "secret" _ _)) = _
    rw [strncpy_safe_fits "admin" _ hu, strncpy_safe_fits "secret" _ hp]
  · rw [inet_addr_sample]
    cases hle : L.LITTLE_ENDIAN
    · simp only [mem_bytes, hle]
      decide
    · simp only [mem_bytes, hle]
      decide
  · rw [h623]
    cases hle : L.LITTLE_ENDIAN
    · simp only [mem_bytes, htons, hle]
      decide
    · simp only [mem_bytes, htons, hle]
      decide
  · show to_unsigned 8 (atoi "6") = 6
    decide
  · show to_unsigned 8 (atoi "1") = 1
    decide
  · show to_unsigned 16 0 = 0
    decide

/-- Witness of C11: the request of the scenario, built with the key names of the
sample constants. -/
theorem rmcp_scenario_witness :
    ∃ env host port,
      jrpc_rmcp_req_parse sampleHeaders State.fresh dest_ptr.buffer
        (some (mk_request "rmcp_req"
          [("netfn", "6"), ("cmd", "1"), ("data_len", "0"), ("target_ip", "10.0.0.5"),
           ("target_port", "623"), ("name", "admin"), ("passwd", "secret")]))
        (sample_header "rmcp_req")
        = some ⟨(gen_req_msgid State.fresh.msgid).2, some env⟩ ∧
      env.ipmi.timeo = sampleHeaders.IPMI_DFLT_TIMEOUT_MS ∧
      env.ipmi.addr = ⟨sampleHeaders.IPMI_ADDR_TYPE_RMCP,
        ipmi_addr_union.rmcp host port "admin" "secret"⟩ ∧
      mem_bytes sampleHeaders 4 host = [10, 0, 0, 5] ∧
      mem_bytes sampleHeaders 2 port = [2, 111] ∧
      be_value [2, 111] = 623 ∧
      env.ipmi.msg.netfn = 6 ∧ env.ipmi.msg.cmd = 1 ∧ env.ipmi.msg.data_len = 0 :=
  rmcp_scenario sampleHeaders State.fresh
    (mk_request "rmcp_req"
      [("netfn", "6"), ("cmd", "1"), ("data_len", "0"), ("target_ip", "10.0.0.5"),
       ("target_port", "623"), ("name", "admin"), ("passwd", "secret")])
    (sample_header "rmcp_req") (by decide) (by decide) (by decide) (by decide) (by decide)
    (by decide) (by decide) (by decide) (by decide) (by decide)

/-! ## Missing fields -/

theorem has_field_false_iff (json_obj : json_t) (key : String) :
    has_field json_obj key = false ↔
      jrpc_get_key_value (some json_obj) STR_PARAMS key = none := by
  unfold has_field
  cases jrpc_get_key_value (some json_obj) STR_PARAMS key <;> simp

theorem get_key_value_no_params (json_obj : json_t) (key : String)
    (h : json_object_get json_obj STR_PARAMS = none) :
    jrpc_get_key_value (some json_obj) STR_PARAMS key = none := by
  show (match json_object_get json_obj STR_PARAMS with
    | none => none
    | some o => jrpc_get_string (some o) key) = none
  rw [h]

theorem get_key_value_none_obj (param key : String) :
    jrpc_get_key_value none param key = none := rfl

/-- C12: in `jrpc_serail_req_parse` the serial descriptor field is required
exactly under the serial-command method: with that method a request lacking the
field is rejected and nothing is written; with any other method name, the
serial-operation method among them, an otherwise valid request lacking the
field is accepted and the serial descriptor of its envelope is 0. -/
theorem serial_descriptor_required (L : Headers) (st : State) (json_obj : json_t)
    (header : ipmi_json_ipc_header_t)
    (hfd : jrpc_get_key_value (some json_obj) STR_PARAMS L.STR_SERIAL_FD = none) :
    (header.method = L.JSON_RPC_SERIAL_CMD_REQ →
      ∀ dest_msg, jrpc_serail_req_parse L st dest_msg (some json_obj) header = some st) ∧
    (header.method ≠ L.JSON_RPC_SERIAL_CMD_REQ →
      ∀ value_netfn value_cmd value_data_len value_ser_flag value_data data len,
        jrpc_get_key_value (some json_obj) STR_PARAMS L.STR_NETFN = some value_netfn →
        jrpc_get_key_value (some json_obj) STR_PARAMS L.STR_CMD = some value_cmd →
        jrpc_get_key_value (some json_obj) STR_PARAMS L.STR_DATA_LEN = some value_data_len →
        jrpc_get_key_value (some json_obj) STR_PARAMS L.STR_SERIAL_FLAG
          = some value_ser_flag →
        get_data_field L (some json_obj) value_data_len = some value_data →
        decode_data value_data_len value_data = some (data, len) →
        ∃ env,
          jrpc_serail_req_parse L st dest_ptr.buffer (some json_obj) header
            = some ⟨(gen_req_msgid st.msgid).2, some env⟩ ∧
          env.ipmi.msg.serial.serial_fd = 0 ∧
          env.ipmi.msg.netfn = to_unsigned 8 (atoi value_netfn) ∧
          env.ipmi.msg.cmd = to_unsigned 8 (atoi value_cmd)) := by
  refine ⟨?_, ?_⟩
  · intro hm dest_msg
    rcases serial_parse_inv L st dest_msg (some json_obj) header with
      h | ⟨_, _, _, _, _, _, _, _, _, _, _, _, _, g5, _, _⟩
    · exact h
    · unfold get_serial_fd_field at g5
      rw [if_pos hm, hfd] at g5
      cases g5
  · intro hm v1 v2 v3 v4 vd data len e1 e2 e3 e4 hd hdec
    have h5 : get_serial_fd_field L (some json_obj) header = some "" := by
      unfold get_serial_fd_field
      rw [if_neg hm]
    rw [serial_parse_fwd L st _ json_obj header _ _ _ _ _ _ _ _ e1 e2 e3 e4 hd h5 hdec,
      serial_handle_eval, convert_ipmi_appmsg_ok]
    refine ⟨_, rfl, ?_, rfl, rfl⟩
    show (if L.IPMI_SERIAL_OPEN_DEV = to_unsigned 8 (atoi v4)
        ∨ L.IPMI_SERIAL_CLOSE_DEV = to_unsigned 8 (atoi v4) then
          { serial_t.zero with serial_flag := to_unsigned 8 (atoi v4) }
        else if L.IPMI_SERIAL_OPERATION = to_unsigned 8 (atoi v4) then
          { serial_flag := to_unsigned 8 (atoi v4), serial_fd := serial_fd_of L header "" }
        else serial_t.zero).serial_fd = 0
    have hz : serial_fd_of L header "" = 0 := by
      unfold serial_fd_of
      rw [if_neg hm]
    split
    · rfl
    · split
      · exact hz
      · rfl

/-- Witness of C12: the same request without a descriptor field is rejected
under the serial-command method and accepted, with descriptor 0, under the
serial-operation method. -/
theorem serial_descriptor_required_witness :
    jrpc_serail_req_parse sampleHeaders State.fresh dest_ptr.buffer
      (some (mk_request "serial_cmd_req"
        [("netfn", "6"), ("cmd", "1"), ("data_len", "0"), ("serial_flag", "3")]))
      (sample_header "serial_cmd_req") = some State.fresh ∧
    ∃ env,
      jrpc_serail_req_parse sampleHeaders State.fresh dest_ptr.buffer
        (some (mk_request "serial_op_req"
          [("netfn", "6"), ("cmd", "1"), ("data_len", "0"), ("serial_flag", "3")]))
        (sample_header "serial_op_req")
        = some ⟨(gen_req_msgid State.fresh.msgid).2, some env⟩ ∧
      env.ipmi.msg.serial.serial_fd = 0 ∧
      env.ipmi.msg.netfn = to_unsigned 8 (atoi "6") ∧
      env.ipmi.msg.cmd = to_unsigned 8 (atoi "1") :=
  ⟨(serial_descriptor_required sampleHeaders State.fresh
      (mk_request "serial_cmd_req"
        [("netfn", "6"), ("cmd", "1"), ("data_len", "0"), ("serial_flag", "3")])
      (sample_header "serial_cmd_req") (by decide)).1 (by decide) dest_ptr.buffer,
   (serial_descriptor_required sampleHeaders State.fresh
      (mk_request "serial_op_req"
        [("netfn", "6"), ("cmd", "1"), ("data_len", "0"), ("serial_flag", "3")])
      (sample_header "serial_op_req") (by decide)).2 (by decide) "6" "1" "0" "3" "" [] 0
      (by decide) (by decide) (by decide) (by decide) (by decide) (by decide)⟩

theorem missing_data_rejected (t : transport) (L : Headers) (st : State)
    (dest_msg : dest_ptr) (json_obj : json_t) (header : ipmi_json_ipc_header_t)
    (value_data_len : String)
    (hlen : jrpc_get_key_value (some json_obj) STR_PARAMS L.STR_DATA_LEN = some value_data_len)
    (hpos : 0 < atoi value_data_len)
    (hdata : jrpc_get_key_value (some json_obj) STR_PARAMS L.STR_DATA = none) :
    req_parse t L st dest_msg (some json_obj) header = some st := by
  have key : ∀ (v_len v_data : String),
      jrpc_get_key_value (some json_obj) STR_PARAMS L.STR_DATA_LEN = some v_len →
      get_data_field L (some json_obj) v_len = some v_data → False := by
    intro v_len v_data g3 gd
    rw [hlen] at g3
    cases g3
    rw [get_data_field_pos L _ _ hpos, hdata] at gd
    cases gd
  cases t with
  | rmcp =>
    rcases rmcp_parse_inv L st dest_msg (some json_obj) header with
      h | ⟨_, _, _, _, _, _, _, _, _, _, _, _, g3, _, _, gd, _, _, _, _⟩
    · exact h
    · exact (key _ _ g3 gd).elim
  | rmcp_br =>
    rcases rmcp_br_parse_inv L st dest_msg (some json_obj) header with
      h | ⟨_, _, _, _, _, _, _, _, _, _, _, _, _, _, _, _, _, g3, _, _, _, _, _, _, gd, _, _, _,
        _, _⟩
    · exact h
    · exact (key _ _ g3 gd).elim
  | ipmb =>
    rcases ipmb_parse_inv L st dest_msg (some json_obj) header with
      h | ⟨_, _, _, _, _, _, _, _, _, g3, _, gd, _, _⟩
    · exact h
    · exact (key _ _ g3 gd).elim
  | serial =>
    rcases serial_parse_inv L st dest_msg (some json_obj) header with
      h | ⟨_, _, _, _, _, _, _, _, _, _, g3, _, gd, _, _, _⟩
    · exact h
    · exact (key _ _ g3 gd).elim

/-- C14: a failed parse is atomic. For each of the four request parsers, a
request whose JSON object is absent, whose `params` object is absent, in which
a field the transport requires is missing, or whose data field is missing
while the declared length reads (by `atoi`, as an `int`) as positive, leaves
the destination buffer and the id counter exactly as they were. -/
theorem failed_parse_atomic (t : transport) (L : Headers) (st : State) (dest_msg : dest_ptr)
    (header : ipmi_json_ipc_header_t) :
    req_parse t L st dest_msg none header = some st ∧
    (∀ json_obj : json_t, json_object_get json_obj STR_PARAMS = none →
      req_parse t L st dest_msg (some json_obj) header = some st) ∧
    (∀ (json_obj : json_t) (key : String), key ∈ required_keys L t header →
      has_field json_obj key = false →
      req_parse t L st dest_msg (some json_obj) header = some st) ∧
    (∀ (json_obj : json_t) (value_data_len : String),
      jrpc_get_key_value (some json_obj) STR_PARAMS L.STR_DATA_LEN = some value_data_len →
      0 < atoi value_data_len →
      jrpc_get_key_value (some json_obj) STR_PARAMS L.STR_DATA = none →
      req_parse t L st dest_msg (some json_obj) header = some st) := by
  have hkey : ∀ (json_obj : json_t) (key : String), key ∈ required_keys L t header →
      has_field json_obj key = false →
      req_parse t L st dest_msg (some json_obj) header = some st := by
    intro json_obj key hk hmiss
    rw [has_field_false_iff] at hmiss
    cases t with
    | rmcp =>
      rcases rmcp_parse_inv L st dest_msg (some json_obj) header with
        h | ⟨_, _, _, _, _, _, _, _, _, _, g1, g2, g3, g4, g5, _, g6, g7, _, _⟩
      · exact h
      · simp only [required_keys, List.mem_cons, List.mem_singleton, List.not_mem_nil,
          or_false] at hk
        rcases hk with rfl | rfl | rfl | rfl | rfl | rfl | rfl <;> simp_all
    | rmcp_br =>
      rcases rmcp_br_parse_inv L st dest_msg (some json_obj) header with
        h | ⟨_, _, _, _, _, _, _, _, _, _, _, _, _, _, _, g1, g2, g3, g4, g5, g6, g7, g8, g9, _,
          g10, g11, g12, _, _⟩
      · exact h
      · simp only [required_keys, List.mem_cons, List.mem_singleton, List.not_mem_nil,
          or_false] at hk
        rcases hk with rfl | rfl | rfl | rfl | rfl | rfl | rfl | rfl | rfl | rfl | rfl | rfl <;>
          simp_all
    | ipmb =>
      rcases ipmb_parse_inv L st dest_msg (some json_obj) header with
        h | ⟨_, _, _, _, _, _, _, g1, g2, g3, g4, _, _, _⟩
      · exact h
      · simp only [required_keys, List.mem_cons, List.mem_singleton, List.not_mem_nil,
          or_false] at hk
        rcases hk with rfl | rfl | rfl | rfl <;> simp_all
    | serial =>
      rcases serial_parse_inv L st dest_msg (some json_obj) header with
        h | ⟨_, _, _, _, _, _, _, _, g1, g2, g3, g4, _, g5, _, _⟩
      · exact h
      · simp only [required_keys, List.mem_append, List.mem_cons, List.mem_singleton,
          List.not_mem_nil, or_false] at hk
        rcases hk with (rfl | rfl | rfl | rfl) | hk
        · simp_all
        · simp_all
        · simp_all
        · simp_all
        · by_cases hm : header.method = L.JSON_RPC_SERIAL_CMD_REQ
          · simp only [hm, if_true, List.mem_singleton] at hk
            subst hk
            unfold get_serial_fd_field at g5
            rw [if_pos hm, hmiss] at g5
            cases g5
          · simp [hm] at hk
  have hne : ∃ key, key ∈ required_keys L t header := by
    cases t <;> exact ⟨L.STR_NETFN, by simp [required_keys]⟩
  refine ⟨?_, ?_, hkey, ?_⟩
  · cases t <;> rfl
  · intro json_obj hp
    obtain ⟨key, hk⟩ := hne
    exact hkey json_obj key hk
      ((has_field_false_iff _ _).mpr (get_key_value_no_params json_obj key hp))
  · intro json_obj value_data_len hlen hpos hdata
    exact missing_data_rejected t L st dest_msg json_obj header value_data_len hlen hpos hdata

/-! ## Order of the field checks -/

theorem decode_errors_length (value_data_len value_data : String) :
    (decode_errors value_data_len value_data).length ≤ 1 := by
  unfold decode_errors
  dsimp only
  split
  · split <;> simp
  · simp

/-- Every error record of a parser is followed by an early return: nothing is
written and no id is consumed. -/
theorem errors_imply_rejected (t : transport) (L : Headers) (st : State) (dest_msg : dest_ptr)
    (json_obj : Option json_t) (header : ipmi_json_ipc_header_t)
    (h : req_parse_errors t L json_obj header ≠ []) :
    req_parse t L st dest_msg json_obj header = some st := by
  have hdec : ∀ v_len v_data data len, decode_data v_len v_data = some (data, len) →
      decode_errors v_len v_data = [] := by
    intro v_len v_data data len hd
    unfold decode_data at hd
    unfold decode_errors
    dsimp only at hd ⊢
    split
    · rw [if_pos (by assumption)] at hd
      split
      · rw [if_pos (by assumption)] at hd
        cases hd
      · rfl
    · rfl
  cases t with
  | rmcp =>
    rcases rmcp_parse_inv L st dest_msg json_obj header with
      h' | ⟨_, _, _, _, _, _, _, _, _, _, g1, g2, g3, g4, g5, gd, g6, g7, gdec, _⟩
    · exact h'
    · exfalso
      apply h
      cases json_obj with
      | none => cases g1
      | some j =>
        simp only [req_parse_errors, jrpc_rmcp_req_parse_errors, g1, g2, g3, g4, g5, gd, g6, g7]
        exact hdec _ _ _ _ gdec
  | rmcp_br =>
    rcases rmcp_br_parse_inv L st dest_msg json_obj header with
      h' | ⟨_, _, _, _, _, _, _, _, _, _, _, _, _, _, _, g1, g2, g3, g4, g5, g6, g7, g8, g9, gd,
        g10, g11, g12, gdec, _⟩
    · exact h'
    · exfalso
      apply h
      cases json_obj with
      | none => cases g1
      | some j =>
        simp only [req_parse_errors, jrpc_rmcp_br_req_parse_errors, g1, g2, g3, g4, g5, g6, g7,
          g8, g9, gd, g10, g11, g12]
        exact hdec _ _ _ _ gdec
  | ipmb =>
    rcases ipmb_parse_inv L st dest_msg json_obj header with
      h' | ⟨_, _, _, _, _, _, _, g1, g2, g3, g4, gd, gdec, _⟩
    · exact h'
    · exfalso
      apply h
      cases json_obj with
      | none => cases g1
      | some j =>
        simp only [req_parse_errors, jrpc_ipmb_req_parse_errors, g1, g2, g3, g4, gd]
        exact hdec _ _ _ _ gdec
  | serial =>
    rcases serial_parse_inv L st dest_msg json_obj header with
      h' | ⟨_, _, _, _, _, _, _, _, g1, g2, g3, g4, gd, g5, gdec, _⟩
    · exact h'
    · exfalso
      apply h
      cases json_obj with
      | none => cases g1
      | some j =>
        simp only [req_parse_errors, jrpc_serail_req_parse_errors, g1, g2, g3, g4, gd, g5]
        exact hdec _ _ _ _ gdec

theorem req_parse_errors_length (t : transport) (L : Headers) (json_obj : Option json_t)
    (header : ipmi_json_ipc_header_t) : (req_parse_errors t L json_obj header).length ≤ 1 := by
  cases t
  · simp only [req_parse_errors, jrpc_rmcp_req_parse_errors]
    repeat' split
    all_goals first
      | exact decode_errors_length _ _
      | simp
  · simp only [req_parse_errors, jrpc_rmcp_br_req_parse_errors]
    repeat' split
    all_goals first
      | exact decode_errors_length _ _
      | simp
  · simp only [req_parse_errors, jrpc_ipmb_req_parse_errors]
    repeat' split
    all_goals first
      | exact decode_errors_length _ _
      | simp
  · simp only [req_parse_errors, jrpc_serail_req_parse_errors]
    repeat' split
    all_goals first
      | exact decode_errors_length _ _
      | simp

theorem first_check_reported (t : transport) (L : Headers) (json_obj : json_t)
    (header : ipmi_json_ipc_header_t) (m : String)
    (h : first_missing json_obj (checks_before_data L t) = some m) :
    req_parse_errors t L (some json_obj) header = [m] ∧ m ≠ data_error := by
  cases t
  · simp only [req_parse_errors, jrpc_rmcp_req_parse_errors]
    repeat' split
    all_goals first
      | (simp_all [checks_before_data, first_missing, has_field, data_error]; done)
      | (simp_all [checks_before_data, first_missing, has_field, data_error]; subst h; decide)
  · simp only [req_parse_errors, jrpc_rmcp_br_req_parse_errors]
    repeat' split
    all_goals first
      | (simp_all [checks_before_data, first_missing, has_field, data_error]; done)
      | (simp_all [checks_before_data, first_missing, has_field, data_error]; subst h; decide)
  · simp only [req_parse_errors, jrpc_ipmb_req_parse_errors]
    repeat' split
    all_goals first
      | (simp_all [checks_before_data, first_missing, has_field, data_error]; done)
      | (simp_all [checks_before_data, first_missing, has_field, data_error]; subst h; decide)
  · simp only [req_parse_errors, jrpc_serail_req_parse_errors]
    repeat' split
    all_goals first
      | (simp_all [checks_before_data, first_missing, has_field, data_error]; done)
      | (simp_all [checks_before_data, first_missing, has_field, data_error]; subst h; decide)

theorem data_check_reported (t : transport) (L : Headers) (json_obj : json_t)
    (header : ipmi_json_ipc_header_t) (value_data_len : String)
    (hb : first_missing json_obj (checks_before_data L t) = none)
    (hlen : jrpc_get_key_value (some json_obj) STR_PARAMS L.STR_DATA_LEN = some value_data_len)
    (hpos : 0 < atoi value_data_len)
    (hdata : jrpc_get_key_value (some json_obj) STR_PARAMS L.STR_DATA = none) :
    req_parse_errors t L (some json_obj) header = [data_error] := by
  have hd : get_data_field L (some json_obj) value_data_len = none := by
    rw [get_data_field_pos L _ _ hpos, hdata]
  cases t
  · simp only [req_parse_errors, jrpc_rmcp_req_parse_errors]
    repeat' split
    all_goals simp_all [checks_before_data, first_missing, has_field, data_error]
  · simp only [req_parse_errors, jrpc_rmcp_br_req_parse_errors]
    repeat' split
    all_goals simp_all [checks_before_data, first_missing, has_field, data_error]
  · simp only [req_parse_errors, jrpc_ipmb_req_parse_errors]
    repeat' split
    all_goals simp_all [checks_before_data, first_missing, has_field, data_error]
  · simp only [req_parse_errors, jrpc_serail_req_parse_errors]
    repeat' split
    all_goals simp_all [checks_before_data, first_missing, has_field, data_error]

theorem late_check_reported (t : transport) (L : Headers) (json_obj : json_t)
    (header : ipmi_json_ipc_header_t) (value_data_len value_data m : String)
    (hb : first_missing json_obj (checks_before_data L t) = none)
    (hlen : jrpc_get_key_value (some json_obj) STR_PARAMS L.STR_DATA_LEN = some value_data_len)
    (hd : get_data_field L (some json_obj) value_data_len = some value_data)
    (ha : first_missing json_obj (checks_after_data L t) = some m) :
    req_parse_errors t L (some json_obj) header = [m] := by
  cases t
  · simp only [req_parse_errors, jrpc_rmcp_req_parse_errors]
    repeat' split
    all_goals simp_all [checks_before_data, checks_after_data, first_missing, has_field]
  · simp only [req_parse_errors, jrpc_rmcp_br_req_parse_errors]
    repeat' split
    all_goals simp_all [checks_before_data, checks_after_data, first_missing, has_field]
  · simp [checks_after_data, first_missing] at ha
  · simp [checks_after_data, first_missing] at ha

/-- C13 (as stated, refuted): an RMCP request that declares 2 bytes and lacks
both the required user name and the data field is rejected with the record of
the data field, not with the record of the user name. -/
theorem data_reported_before_name :
    has_field (mk_request "rmcp_req"
      [("netfn", "6"), ("cmd", "1"), ("data_len", "2"), ("target_ip", "10.0.0.5"),
       ("target_port", "623"), ("passwd", "secret")]) sampleHeaders.STR_NAME = false ∧
    has_field (mk_request "rmcp_req"
      [("netfn", "6"), ("cmd", "1"), ("data_len", "2"), ("target_ip", "10.0.0.5"),
       ("target_port", "623"), ("passwd", "secret")]) sampleHeaders.STR_DATA = false ∧
    req_parse_errors transport.rmcp sampleHeaders
      (some (mk_request "rmcp_req"
        [("netfn", "6"), ("cmd", "1"), ("data_len", "2"), ("target_ip", "10.0.0.5"),
         ("target_port", "623"), ("passwd", "secret")]))
      (sample_header "rmcp_req") = ["jrpc_get_data failed.\n"] ∧
    req_parse_errors transport.rmcp sampleHeaders
      (some (mk_request "rmcp_req"
        [("netfn", "6"), ("cmd", "1"), ("data_len", "2"), ("target_ip", "10.0.0.5"),
         ("target_port", "623"), ("passwd", "secret")]))
      (sample_header "rmcp_req") ≠ ["jrpc_get_uname failed.\n"] := by
  decide

/-- C13 (amended): each parser logs at most one error record per attempt and
checks its fields in a fixed order. A missing field among those checked before
the data field (netfn, cmd, data_len and the addressing fields; for IPMB and
serial these are all the unconditionally required fields) is reported by the
record of the first such field, never by the data record. When all of those
are present, the declared length reads (by `atoi`) as positive and the data
field is missing,
the single record is the data record, also when a field checked after the data
field (name and passwd for RMCP, and bridge_level for the bridged parser) is
missing as well; such a field is reported only when the data check passes. -/
theorem validation_order (t : transport) (L : Headers) (json_obj : json_t)
    (header : ipmi_json_ipc_header_t) :
    (req_parse_errors t L (some json_obj) header).length ≤ 1 ∧
    (∀ m, first_missing json_obj (checks_before_data L t) = some m →
      req_parse_errors t L (some json_obj) header = [m] ∧ m ≠ data_error) ∧
    (∀ value_data_len, first_missing json_obj (checks_before_data L t) = none →
      jrpc_get_key_value (some json_obj) STR_PARAMS L.STR_DATA_LEN = some value_data_len →
      0 < atoi value_data_len →
      jrpc_get_key_value (some json_obj) STR_PARAMS L.STR_DATA = none →
      req_parse_errors t L (some json_obj) header = [data_error]) ∧
    (∀ value_data_len value_data m,
      first_missing json_obj (checks_before_data L t) = none →
      jrpc_get_key_value (some json_obj) STR_PARAMS L.STR_DATA_LEN = some value_data_len →
      get_data_field L (some json_obj) value_data_len = some value_data →
      first_missing json_obj (checks_after_data L t) = some m →
      req_parse_errors t L (some json_obj) header = [m]) ∧
    checks_after_data L transport.ipmb = [] ∧
    checks_after_data L transport.serial = [] ∧
    (∀ st dest_msg, req_parse_errors t L (some json_obj) header ≠ [] →
      req_parse t L st dest_msg (some json_obj) header = some st) :=
  ⟨req_parse_errors_length t L _ header,
   fun m h => first_check_reported t L json_obj header m h,
   fun v hb hlen hpos hdata => data_check_reported t L json_obj header v hb hlen hpos hdata,
   fun v vd m hb hlen hd ha => late_check_reported t L json_obj header v vd m hb hlen hd ha,
   rfl, rfl,
   fun st dest_msg h => errors_imply_rejected t L st dest_msg _ header h⟩

/-- An instance of C13 (amended): an IPMB request lacking both the source
address and the data field is reported by the source-address record alone. -/
theorem validation_order_witness :
    req_parse_errors transport.ipmb sampleHeaders
      (some (mk_request "ipmb_req" [("netfn", "6"), ("cmd", "1"), ("data_len", "2")]))
      (sample_header "ipmb_req") = ["jrpc_get_ipmb_src_addr failed.\n"] ∧
    "jrpc_get_ipmb_src_addr failed.\n" ≠ data_error :=
  (validation_order transport.ipmb sampleHeaders
    (mk_request "ipmb_req" [("netfn", "6"), ("cmd", "1"), ("data_len", "2")])
    (sample_header "ipmb_req")).2.1 _ (by decide)

/-! ## Theorems on the orchestrator -/

theorem ntohl_host_order (L : Headers) (x : Nat) (h : x < 2 ^ 32) :
    ntohl L x = be_value (mem_bytes L 4 x) := by
  have hm : x % 4294967296 = x := Nat.mod_eq_of_lt h
  have e2 : x / 65536 = x / 256 / 256 := by rw [Nat.div_div_eq_div_mul]
  have e3 : x / 16777216 = x / 256 / 256 / 256 := by
    rw [Nat.div_div_eq_div_mul, Nat.div_div_eq_div_mul]
  cases hle : L.LITTLE_ENDIAN
  · simp only [ntohl, mem_bytes, be_value, hle, List.range_succ, List.range_zero]
    simp [hm, e2, e3]
    omega
  · simp only [ntohl, mem_bytes, be_value, hle, List.range_succ, List.range_zero]
    simp [hm, e2, e3]
    omega

theorem ntohs_host_order (L : Headers) (x : Nat) (h : x < 2 ^ 16) :
    ntohs L x = be_value (mem_bytes L 2 x) := by
  have hm : x % 65536 = x := Nat.mod_eq_of_lt h
  cases hle : L.LITTLE_ENDIAN
  · simp only [ntohs, mem_bytes, be_value, hle, List.range_succ, List.range_zero]
    simp [hm]
    omega
  · simp only [ntohs, mem_bytes, be_value, hle, List.range_succ, List.range_zero]
    simp [hm]
    omega

/-- C15: in both entry points of the orchestrator (`app_json_parse`, and
`app_json_rpc_msg` once a datagram has been received), if parsing the JSON-RPC
envelope fails or the method, the id or `params.rsp_type` cannot be extracted,
the request is dropped: no transport parser is called and the destination
buffer and the id counter are left unchanged. -/
theorem malformed_request_dropped (lib : jsonrpc_lib) (L : Headers) (st : State)
    (text : String) (addr : sockaddr_in) (fd : Int) (dest_msg : dest_ptr)
    (hfail : lib.jrpc_parse_req text = none ∨
      ∃ parsed_req, lib.jrpc_parse_req text = some parsed_req ∧
        (lib.jrpc_get_method parsed_req = none ∨ lib.jrpc_get_id parsed_req = none ∨
         jrpc_get_key_value (some parsed_req) STR_PARAMS L.STR_RSP_TYPE = none)) :
    app_json_parse_route lib L (some ⟨text, addr⟩) dest_msg = routed.dropped ∧
    app_json_parse lib L st (some ⟨text, addr⟩) dest_msg = some st ∧
    app_json_rpc_msg_route lib L fd (some (text, addr)) = routed.dropped ∧
    app_json_rpc_msg lib L st fd (some (text, addr)) dest_msg = some st := by
  have h1 : app_json_parse_route lib L (some ⟨text, addr⟩) dest_msg = routed.dropped := by
    unfold app_json_parse_route
    cases dest_msg with
    | NULL => rfl
    | buffer =>
      rcases hfail with hp | ⟨p, hp, hm | hi | hr⟩
      · simp only [hp]
      · simp only [hp, hm]
      · simp only [hp, hi]
        split <;> rfl
      · simp only [hp, hr]
        split
        · rfl
        · split <;> rfl
  have h2 : app_json_rpc_msg_route lib L fd (some (text, addr)) = routed.dropped := by
    unfold app_json_rpc_msg_route
    split
    · rcases hfail with hp | ⟨p, hp, hm | hi | hr⟩
      · simp only [hp]
      · simp only [hp, hm]
      · simp only [hp, hi]
        split <;> rfl
      · simp only [hp, hr]
        split
        · rfl
        · split <;> rfl
    · rfl
  refine ⟨h1, ?_, h2, ?_⟩
  · unfold app_json_parse
    rw [h1]
    rfl
  · unfold app_json_rpc_msg
    rw [h2]
    rfl

/-- Witness of C15: a request without `rsp_type` in its parameters is dropped
by both entry points. -/
theorem malformed_request_dropped_witness :
    app_json_parse_route
      (sample_lib (mk_request "ipmb_req"
        [("netfn", "6"), ("cmd", "1"), ("data_len", "0"), ("src_addr", "32")]))
      sampleHeaders (some ⟨"request", ⟨16777343, 20480⟩⟩) dest_ptr.buffer = routed.dropped ∧
    app_json_parse
      (sample_lib (mk_request "ipmb_req"
        [("netfn", "6"), ("cmd", "1"), ("data_len", "0"), ("src_addr", "32")]))
      sampleHeaders State.fresh (some ⟨"request", ⟨16777343, 20480⟩⟩) dest_ptr.buffer
      = some State.fresh ∧
    app_json_rpc_msg_route
      (sample_lib (mk_request "ipmb_req"
        [("netfn", "6"), ("cmd", "1"), ("data_len", "0"), ("src_addr", "32")]))
      sampleHeaders 3 (some ("request", ⟨16777343, 20480⟩)) = routed.dropped ∧
    app_json_rpc_msg
      (sample_lib (mk_request "ipmb_req"
        [("netfn", "6"), ("cmd", "1"), ("data_len", "0"), ("src_addr", "32")]))
      sampleHeaders State.fresh 3 (some ("request", ⟨16777343, 20480⟩)) dest_ptr.buffer
      = some State.fresh :=
  malformed_request_dropped
    (sample_lib (mk_request "ipmb_req"
      [("netfn", "6"), ("cmd", "1"), ("data_len", "0"), ("src_addr", "32")]))
    sampleHeaders State.fresh "request" ⟨16777343, 20480⟩ 3 dest_ptr.buffer
    (Or.inr ⟨_, rfl, Or.inr (Or.inr (by decide))⟩)

theorem methods_distinct_ne (L : Headers) (h : methods_distinct L) :
    L.JSON_RPC_IPMB_REQ ≠ L.JSON_RPC_RMCP_REQ ∧
    L.JSON_RPC_IPMB_REQ ≠ L.JSON_RPC_SERIAL_OP_REQ ∧
    L.JSON_RPC_IPMB_REQ ≠ L.JSON_RPC_SERIAL_CMD_REQ ∧
    L.JSON_RPC_IPMB_REQ ≠ L.JSON_RPC_RMCP_BR_REQ ∧
    L.JSON_RPC_RMCP_REQ ≠ L.JSON_RPC_SERIAL_OP_REQ ∧
    L.JSON_RPC_RMCP_REQ ≠ L.JSON_RPC_SERIAL_CMD_REQ ∧
    L.JSON_RPC_RMCP_REQ ≠ L.JSON_RPC_RMCP_BR_REQ ∧
    L.JSON_RPC_SERIAL_OP_REQ ≠ L.JSON_RPC_SERIAL_CMD_REQ ∧
    L.JSON_RPC_SERIAL_OP_REQ ≠ L.JSON_RPC_RMCP_BR_REQ ∧
    L.JSON_RPC_SERIAL_CMD_REQ ≠ L.JSON_RPC_RMCP_BR_REQ := by
  unfold methods_distinct at h
  simp only [List.nodup_cons, List.mem_cons, List.mem_singleton, List.not_mem_nil,
    not_or, List.nodup_nil, and_true, not_false_eq_true] at h
  obtain ⟨⟨a1, a2, a3, a4⟩, ⟨b1, b2, b3⟩, ⟨c1, c2⟩, d1⟩ := h
  exact ⟨a1, a2, a3, a4, b1, b2, b3, c1, c2, d1⟩

/-- The route taken for an extracted method name, by the `strcmp` chain. -/
theorem route_of_method (lib : jsonrpc_lib) (L : Headers) (text : String)
    (addr : sockaddr_in) (fd : Int) (parsed_req : json_t) (method : String) (id : Int)
    (hfd : 0 < fd)
    (hparse : lib.jrpc_parse_req text = some parsed_req)
    (hmethod : lib.jrpc_get_method parsed_req = some method)
    (hid : lib.jrpc_get_id parsed_req = some id)
    (hrsp : jrpc_get_key_value (some parsed_req) STR_PARAMS L.STR_RSP_TYPE
      = some L.STR_RSP_TYPE_UDP)
    (t : transport) (name : String)
    (hchain : (if method = L.JSON_RPC_IPMB_REQ then some (transport.ipmb, L.JSON_RPC_IPMB_REQ)
      else if method = L.JSON_RPC_RMCP_REQ then some (transport.rmcp, L.JSON_RPC_RMCP_REQ)
      else if method = L.JSON_RPC_SERIAL_OP_REQ then
        some (transport.serial, L.JSON_RPC_SERIAL_OP_REQ)
      else if method = L.JSON_RPC_SERIAL_CMD_REQ then
        some (transport.serial, L.JSON_RPC_SERIAL_CMD_REQ)
      else if method = L.JSON_RPC_RMCP_BR_REQ then
        some (transport.rmcp_br, L.JSON_RPC_RMCP_BR_REQ)
      else none) = some (t, name)) :
    app_json_parse_route lib L (some ⟨text, addr⟩) dest_ptr.buffer
      = routed.parser t parsed_req
          ⟨ntohl L addr.sin_addr, ntohs L addr.sin_port, id, name⟩ ∧
    app_json_rpc_msg_route lib L fd (some (text, addr))
      = routed.parser t parsed_req
          ⟨ntohl L addr.sin_addr, ntohs L addr.sin_port, id, name⟩ := by
  unfold app_json_parse_route app_json_rpc_msg_route
  simp only [hparse, hmethod, hid, hrsp, if_pos hfd, if_true]
  split_ifs at hchain ⊢ <;> simp_all

/-- C16: when the response type is the UDP reply channel and the five method
names are pairwise different, both entry points route by exact method-name
match: the IPMB method to `jrpc_ipmb_req_parse`, the RMCP method to
`jrpc_rmcp_req_parse`, the RMCP-bridged method to `jrpc_rmcp_br_req_parse`, the
serial-operation and the serial-command method to `jrpc_serail_req_parse`; the
header passed has the matched method name, the id of the request and the ip
and port of the peer converted from network to host byte order. -/
theorem routing_by_method (lib : jsonrpc_lib) (L : Headers) (st : State) (text : String)
    (addr : sockaddr_in) (fd : Int) (parsed_req : json_t) (method : String) (id : Int)
    (hfd : 0 < fd)
    (hparse : lib.jrpc_parse_req text = some parsed_req)
    (hmethod : lib.jrpc_get_method parsed_req = some method)
    (hid : lib.jrpc_get_id parsed_req = some id)
    (hrsp : jrpc_get_key_value (some parsed_req) STR_PARAMS L.STR_RSP_TYPE
      = some L.STR_RSP_TYPE_UDP)
    (hdist : methods_distinct L) :
    (∀ (t : transport) (name : String),
      (name = L.JSON_RPC_IPMB_REQ ∧ t = transport.ipmb ∨
       name = L.JSON_RPC_RMCP_REQ ∧ t = transport.rmcp ∨
       name = L.JSON_RPC_RMCP_BR_REQ ∧ t = transport.rmcp_br ∨
       name = L.JSON_RPC_SERIAL_OP_REQ ∧ t = transport.serial ∨
       name = L.JSON_RPC_SERIAL_CMD_REQ ∧ t = transport.serial) →
      method = name →
      app_json_parse_route lib L (some ⟨text, addr⟩) dest_ptr.buffer
        = routed.parser t parsed_req
            ⟨ntohl L addr.sin_addr, ntohs L addr.sin_port, id, name⟩ ∧
      app_json_rpc_msg_route lib L fd (some (text, addr))
        = routed.parser t parsed_req
            ⟨ntohl L addr.sin_addr, ntohs L addr.sin_port, id, name⟩ ∧
      app_json_parse lib L st (some ⟨text, addr⟩) dest_ptr.buffer
        = req_parse t L st dest_ptr.buffer (some parsed_req)
            ⟨ntohl L addr.sin_addr, ntohs L addr.sin_port, id, name⟩ ∧
      app_json_rpc_msg lib L st fd (some (text, addr)) dest_ptr.buffer
        = req_parse t L st dest_ptr.buffer (some parsed_req)
            ⟨ntohl L addr.sin_addr, ntohs L addr.sin_port, id, name⟩) ∧
    (addr.sin_addr < 2 ^ 32 →
      ntohl L addr.sin_addr = be_value (mem_bytes L 4 addr.sin_addr)) ∧
    (addr.sin_port < 2 ^ 16 →
      ntohs L addr.sin_port = be_value (mem_bytes L 2 addr.sin_port)) := by
  obtain ⟨a1, a2, a3, a4, b1, b2, b3, c1, c2, d1⟩ := methods_distinct_ne L hdist
  refine ⟨?_, ntohl_host_order L _, ntohs_host_order L _⟩
  intro t name hcase hm
  have hroute := route_of_method lib L text addr fd parsed_req method id hfd hparse hmethod hid
    hrsp t name (by
      subst hm
      rcases hcase with ⟨h, rfl⟩ | ⟨h, rfl⟩ | ⟨h, rfl⟩ | ⟨h, rfl⟩ | ⟨h, rfl⟩
      · rw [if_pos h, h]
      · rw [if_neg (h ▸ a1.symm), if_pos h, h]
      · rw [if_neg (h ▸ a4.symm), if_neg (h ▸ b3.symm), if_neg (h ▸ c2.symm),
          if_neg (h ▸ d1.symm), if_pos h, h]
      · rw [if_neg (h ▸ a2.symm), if_neg (h ▸ b1.symm), if_pos h, h]
      · rw [if_neg (h ▸ a3.symm), if_neg (h ▸ b2.symm), if_neg (h ▸ c1.symm), if_pos h, h])
  refine ⟨hroute.1, hroute.2, ?_, ?_⟩
  · unfold app_json_parse
    rw [hroute.1]
    rfl
  · unfold app_json_rpc_msg
    rw [hroute.2]
    rfl

/-- C17: a request whose response type is not the UDP reply channel or whose
method name is none of the five recognised names is dropped by both entry
points: no parser is called, nothing is written and no id is consumed. -/
theorem unknown_request_dropped (lib : jsonrpc_lib) (L : Headers) (st : State)
    (text : String) (addr : sockaddr_in) (fd : Int) (dest_msg : dest_ptr)
    (parsed_req : json_t) (method value_rsp_type : String)
    (hparse : lib.jrpc_parse_req text = some parsed_req)
    (hmethod : lib.jrpc_get_method parsed_req = some method)
    (hrsp : jrpc_get_key_value (some parsed_req) STR_PARAMS L.STR_RSP_TYPE
      = some value_rsp_type)
    (hunknown : value_rsp_type ≠ L.STR_RSP_TYPE_UDP ∨
      method ∉ [L.JSON_RPC_IPMB_REQ, L.JSON_RPC_RMCP_REQ, L.JSON_RPC_SERIAL_OP_REQ,
        L.JSON_RPC_SERIAL_CMD_REQ, L.JSON_RPC_RMCP_BR_REQ]) :
    app_json_parse_route lib L (some ⟨text, addr⟩) dest_msg = routed.dropped ∧
    app_json_parse lib L st (some ⟨text, addr⟩) dest_msg = some st ∧
    app_json_rpc_msg_route lib L fd (some (text, addr)) = routed.dropped ∧
    app_json_rpc_msg lib L st fd (some (text, addr)) dest_msg = some st := by
  have hchain : ∀ header : ipmi_json_ipc_header_t,
      (if value_rsp_type = L.STR_RSP_TYPE_UDP then
        if method = L.JSON_RPC_IPMB_REQ then
          routed.parser transport.ipmb parsed_req
            { header with method := L.JSON_RPC_IPMB_REQ }
        else if method = L.JSON_RPC_RMCP_REQ then
          routed.parser transport.rmcp parsed_req
            { header with method := L.JSON_RPC_RMCP_REQ }
        else if method = L.JSON_RPC_SERIAL_OP_REQ then
          routed.parser transport.serial parsed_req
            { header with method := L.JSON_RPC_SERIAL_OP_REQ }
        else if method = L.JSON_RPC_SERIAL_CMD_REQ then
          routed.parser transport.serial parsed_req
            { header with method := L.JSON_RPC_SERIAL_CMD_REQ }
        else if method = L.JSON_RPC_RMCP_BR_REQ then
          routed.parser transport.rmcp_br parsed_req
            { header with method := L.JSON_RPC_RMCP_BR_REQ }
        else routed.dropped
      else routed.dropped) = routed.dropped := by
    intro header
    rcases hunknown with hr | hm
    · rw [if_neg hr]
    · simp only [List.mem_cons, List.mem_singleton, List.not_mem_nil, or_false, not_or] at hm
      obtain ⟨m1, m2, m3, m4, m5⟩ := hm
      rw [if_neg m1, if_neg m2, if_neg m3, if_neg m4, if_neg m5]
      split <;> rfl
  have h1 : app_json_parse_route lib L (some ⟨text, addr⟩) dest_msg = routed.dropped := by
    unfold app_json_parse_route
    cases dest_msg with
    | NULL => rfl
    | buffer =>
      simp only [hparse, hmethod, hrsp]
      cases hi : lib.jrpc_get_id parsed_req with
      | none => rfl
      | some id => exact hchain ⟨ntohl L addr.sin_addr, ntohs L addr.sin_port, id, ""⟩
  have h2 : app_json_rpc_msg_route lib L fd (some (text, addr)) = routed.dropped := by
    unfold app_json_rpc_msg_route
    split
    · simp only [hparse, hmethod, hrsp]
      cases hi : lib.jrpc_get_id parsed_req with
      | none => rfl
      | some id => exact hchain ⟨ntohl L addr.sin_addr, ntohs L addr.sin_port, id, ""⟩
    · rfl
  refine ⟨h1, ?_, h2, ?_⟩
  · unfold app_json_parse
    rw [h1]
    rfl
  · unfold app_json_rpc_msg
    rw [h2]
    rfl

/-- Witness of C16: an RMCP request with response type "udp" from peer
127.0.0.1, port 80 is routed to `jrpc_rmcp_req_parse` by both entry points. -/
theorem routing_by_method_witness :
    app_json_parse_route
        (sample_lib (mk_request "rmcp_req"
          [("rsp_type", "udp"), ("netfn", "6"), ("cmd", "1"), ("data_len", "0"),
           ("target_ip", "10.0.0.5"), ("target_port", "623"), ("name", "admin"),
           ("passwd", "secret")]))
        sampleHeaders (some ⟨"request", ⟨16777343, 20480⟩⟩) dest_ptr.buffer
      = routed.parser transport.rmcp
          (mk_request "rmcp_req"
            [("rsp_type", "udp"), ("netfn", "6"), ("cmd", "1"), ("data_len", "0"),
             ("target_ip", "10.0.0.5"), ("target_port", "623"), ("name", "admin"),
             ("passwd", "secret")])
          ⟨ntohl sampleHeaders 16777343, ntohs sampleHeaders 20480, 42, "rmcp_req"⟩ ∧
    app_json_rpc_msg_route
        (sample_lib (mk_request "rmcp_req"
          [("rsp_type", "udp"), ("netfn", "6"), ("cmd", "1"), ("data_len", "0"),
           ("target_ip", "10.0.0.5"), ("target_port", "623"), ("name", "admin"),
           ("passwd", "secret")]))
        sampleHeaders 3 (some ("request", ⟨16777343, 20480⟩))
      = routed.parser transport.rmcp
          (mk_request "rmcp_req"
            [("rsp_type", "udp"), ("netfn", "6"), ("cmd", "1"), ("data_len", "0"),
             ("target_ip", "10.0.0.5"), ("target_port", "623"), ("name", "admin"),
             ("passwd", "secret")])
          ⟨ntohl sampleHeaders 16777343, ntohs sampleHeaders 20480, 42, "rmcp_req"⟩ ∧
    ntohl sampleHeaders 16777343 = 2130706433 ∧ ntohs sampleHeaders 20480 = 80 :=
  have h := (routing_by_method
    (sample_lib (mk_request "rmcp_req"
      [("rsp_type", "udp"), ("netfn", "6"), ("cmd", "1"), ("data_len", "0"),
       ("target_ip", "10.0.0.5"), ("target_port", "623"), ("name", "admin"),
       ("passwd", "secret")]))
    sampleHeaders State.fresh "request" ⟨16777343, 20480⟩ 3
    (mk_request "rmcp_req"
      [("rsp_type", "udp"), ("netfn", "6"), ("cmd", "1"), ("data_len", "0"),
       ("target_ip", "10.0.0.5"), ("target_port", "623"), ("name", "admin"),
       ("passwd", "secret")])
    "rmcp_req" 42 (by decide) rfl (by decide) (by decide) (by decide)
    (by unfold methods_distinct; decide)).1 transport.rmcp "rmcp_req"
    (Or.inr (Or.inl ⟨rfl, rfl⟩)) rfl
  ⟨h.1, h.2.1, by decide, by decide⟩

/-- Witness of C17: a request with the unknown method name "power_off" is
dropped by both entry points. -/
theorem unknown_request_dropped_witness :
    app_json_parse_route
        (sample_lib (mk_request "power_off" [("rsp_type", "udp"), ("netfn", "6")]))
        sampleHeaders (some ⟨"request", ⟨16777343, 20480⟩⟩) dest_ptr.buffer
      = routed.dropped ∧
    app_json_parse
        (sample_lib (mk_request "power_off" [("rsp_type", "udp"), ("netfn", "6")]))
        sampleHeaders State.fresh (some ⟨"request", ⟨16777343, 20480⟩⟩) dest_ptr.buffer
      = some State.fresh ∧
    app_json_rpc_msg_route
        (sample_lib (mk_request "power_off" [("rsp_type", "udp"), ("netfn", "6")]))
        sampleHeaders 3 (some ("request", ⟨16777343, 20480⟩)) = routed.dropped ∧
    app_json_rpc_msg
        (sample_lib (mk_request "power_off" [("rsp_type", "udp"), ("netfn", "6")]))
        sampleHeaders State.fresh 3 (some ("request", ⟨16777343, 20480⟩)) dest_ptr.buffer
      = some State.fresh :=
  unknown_request_dropped
    (sample_lib (mk_request "power_off" [("rsp_type", "udp"), ("netfn", "6")]))
    sampleHeaders State.fresh "request" ⟨16777343, 20480⟩ 3 dest_ptr.buffer
    (mk_request "power_off" [("rsp_type", "udp"), ("netfn", "6")]) "power_off" "udp"
    rfl (by decide) (by decide) (Or.inr (by decide))

/-! ## Theorems on the handler table -/

/-- C19: `format_app_jrpc_to_user` rejects every reply whose declared record
length differs from `APPMSG_IPMI_MSG_LEN` of the payload length held in the
reply: it returns -1 and the output buffer keeps its contents. -/
theorem invalid_reply_rejected (lib : jsonrpc_lib) (L : Headers) (buffer : Option String)
    (header : ipmi_json_ipc_header_t) (msg : app_msg)
    (h : msg.datalen ≠ APPMSG_IPMI_MSG_LEN L msg.ipmi.msg.data_len) :
    format_app_jrpc_to_user lib L buffer header msg = some (-1, buffer) := by
  unfold format_app_jrpc_to_user
  rw [if_pos h]

/-- Witness of C19: a reply whose record length is one byte too long is
rejected and the output buffer still holds "old". -/
theorem invalid_reply_rejected_witness :
    format_app_jrpc_to_user (sample_lib json_t.null) sampleHeaders (some "old")
      (sample_header "ipmb_req")
      { sample_reply sampleHeaders [0, 26, 255] with
        datalen := APPMSG_IPMI_MSG_LEN sampleHeaders 3 + 1 } = some (-1, some "old") :=
  invalid_reply_rejected (sample_lib json_t.null) sampleHeaders (some "old")
    (sample_header "ipmb_req")
    { sample_reply sampleHeaders [0, 26, 255] with
      datalen := APPMSG_IPMI_MSG_LEN sampleHeaders 3 + 1 } (by decide)

theorem hex_digit_upper : ∀ k : Nat, k < 16 → hex_digit k ∈ "0123456789ABCDEF".data := by
  decide

theorem hex_value_digit : ∀ k : Nat, k < 16 → hex_value (hex_digit k) = k := by
  decide

theorem buf2hexstr_data_nil : (buf2hexstr []).data = [] := rfl

theorem buf2hexstr_data_cons (b : Nat) (bs : List Nat) :
    (buf2hexstr (b :: bs)).data
      = hex_digit (b / 16 % 16) :: hex_digit (b % 16) :: (buf2hexstr bs).data := by
  simp [buf2hexstr]

theorem buf2hexstr_length (p : List Nat) : (buf2hexstr p).length = 2 * p.length := by
  show (buf2hexstr p).data.length = 2 * p.length
  induction p with
  | nil => rfl
  | cons b bs ih =>
    rw [buf2hexstr_data_cons]
    simp only [List.length_cons, ih]
    omega

theorem buf2hexstr_upper (p : List Nat) :
    ∀ c ∈ (buf2hexstr p).data, c ∈ "0123456789ABCDEF".data := by
  induction p with
  | nil =>
    intro c hc
    rw [buf2hexstr_data_nil] at hc
    cases hc
  | cons b bs ih =>
    intro c hc
    rw [buf2hexstr_data_cons] at hc
    rcases List.mem_cons.mp hc with rfl | hc
    · exact hex_digit_upper _ (Nat.mod_lt _ (by decide))
    · rcases List.mem_cons.mp hc with rfl | hc
      · exact hex_digit_upper _ (Nat.mod_lt _ (by decide))
      · exact ih c hc

theorem hexstr2buf_buf2hexstr (p : List Nat) (h : ∀ b ∈ p, b < 256) :
    hexstr2buf (buf2hexstr p) = p := by
  show hexstr2buf_chars (buf2hexstr p).data = p
  induction p with
  | nil => rfl
  | cons b bs ih =>
    rw [buf2hexstr_data_cons]
    have hb : b < 256 := h b (List.mem_cons_self _ _)
    have hrest := ih (fun x hx => h x (List.mem_cons_of_mem _ hx))
    simp only [hexstr2buf_chars, hrest]
    rw [hex_value_digit _ (Nat.mod_lt _ (by decide)),
      hex_value_digit _ (Nat.mod_lt _ (by decide))]
    congr 1
    omega

theorem snprintf_d_fits (size value : Nat) (h : (Nat.repr value).length < size) :
    snprintf_d size value = Nat.repr value := by
  unfold snprintf_d
  have h1 : (Nat.repr value).data.length ≤ size - 1 := by
    have : (Nat.repr value).data.length = (Nat.repr value).length := rfl
    omega
  rw [List.take_of_length_le h1]

/-- C20: for a structurally valid reply with payload bytes `p` and a header
with correlation id `c`, whose hex text and decimal length fit the text
buffers, `format_app_jrpc_to_user` hands the JSON-RPC library the id `c` and
an object whose data-length field is the decimal text of the length of `p` and
whose data field is the upper-case hex text of `p` (two digits per byte, which
decode back to `p`); when the library builds the result and its text fits the
output buffer and is not empty, that text is emitted and its length
returned. -/
theorem reply_encoding (lib : jsonrpc_lib) (L : Headers) (old : String)
    (header : ipmi_json_ipc_header_t) (msg : app_msg) (p : List Nat) (rsp : json_t)
    (text : String)
    (hvalid : msg.datalen = APPMSG_IPMI_MSG_LEN L msg.ipmi.msg.data_len)
    (hp : msg.ipmi.msg.data = p) (hn : msg.ipmi.msg.data_len = p.length)
    (hhex : 2 * p.length < L.IPMI_JSONRPC_MAX_STRING_LEN)
    (hdec : (Nat.repr p.length).length < L.IPMI_JSONRPC_MAX_STRING_LEN)
    (hrsp : lib.jrpc_create_result_rsp header.json_ipc_id
      (json_t.object [(L.STR_DATA_LEN, json_t.string (Nat.repr p.length)),
        (L.STR_DATA, json_t.string (buf2hexstr p))]) = some rsp)
    (htext : lib.jrpc_format_string rsp L.IPMI_JSONRPC_MAX_STRING_LEN = some text)
    (hne : text.length ≠ 0) :
    format_app_jrpc_to_user lib L (some old) header msg
      = some ((text.length : Int), some text) ∧
    (buf2hexstr p).length = 2 * p.length ∧
    (∀ ch ∈ (buf2hexstr p).data, ch ∈ "0123456789ABCDEF".data) ∧
    ((∀ b ∈ p, b < 256) → hexstr2buf (buf2hexstr p) = p) := by
  refine ⟨?_, buf2hexstr_length p, buf2hexstr_upper p, hexstr2buf_buf2hexstr p⟩
  unfold format_app_jrpc_to_user
  rw [if_neg (by rw [hvalid]; exact fun h => h rfl)]
  have hbuild : jrpc_string_build lib L header.method header.json_ipc_id msg.ipmi.msg.data
      msg.ipmi.msg.data_len (some "") L.IPMI_JSONRPC_MAX_STRING_LEN
      = some (text.length, some text) := by
    unfold jrpc_string_build
    rw [hn, hp, if_pos hhex]
    simp only [memcpy_bytes_self, snprintf_d_fits _ _ hdec, hrsp, htext]
  simp only [hbuild, if_neg hne]

/-- Witness of C20: the payload 0x00, 0x1A, 0xFF with correlation id 42 gives
the data length "3" and the data "001AFF" in a result with id 42. -/
theorem reply_encoding_witness :
    format_app_jrpc_to_user (sample_lib json_t.null) sampleHeaders (some "old")
      (sample_header "ipmb_req") (sample_reply sampleHeaders [0, 26, 255])
      = some (((String.mk (json_text (json_t.object
          [("jsonrpc", json_t.string "2.0"),
           ("result", json_t.object
              [("data_len", json_t.string "3"), ("data", json_t.string "001AFF")]),
           ("id", json_t.integer 42)]))).length : Int),
          some (String.mk (json_text (json_t.object
            [("jsonrpc", json_t.string "2.0"),
             ("result", json_t.object
                [("data_len", json_t.string "3"), ("data", json_t.string "001AFF")]),
             ("id", json_t.integer 42)])))) ∧
    (buf2hexstr [0, 26, 255]).length = 2 * [0, 26, 255].length ∧
    (∀ ch ∈ (buf2hexstr [0, 26, 255]).data, ch ∈ "0123456789ABCDEF".data) ∧
    ((∀ b ∈ [0, 26, 255], b < 256) → hexstr2buf (buf2hexstr [0, 26, 255]) = [0, 26, 255]) :=
  reply_encoding (sample_lib json_t.null) sampleHeaders "old" (sample_header "ipmb_req")
    (sample_reply sampleHeaders [0, 26, 255]) [0, 26, 255] _ _ rfl rfl rfl (by decide)
    (by decide) rfl (by decide) (by decide)

/-- The texts of the scenario of C20. -/
theorem reply_scenario_texts :
    Nat.repr 3 = "3" ∧ buf2hexstr [0, 26, 255] = "001AFF" ∧
    (sample_header "ipmb_req").json_ipc_id = 42 := by
  decide

/-! ## Theorems on the fields of the envelope -/

theorem build_appmsg_method (L : Headers) (id : Nat) (addr : ipmi_addr) (req : ipmi_msg)
    (header : ipmi_json_ipc_header_t) (timeo : Nat) :
    (build_appmsg L id addr req header timeo).header.method
      = if header.method.length < L.JRPC_METHOD_MAX then header.method else "" := rfl

theorem build_appmsg_bridge (L : Headers) (id : Nat) (addr : ipmi_addr) (req : ipmi_msg)
    (header : ipmi_json_ipc_header_t) (timeo : Nat) :
    (build_appmsg L id addr req header timeo).msg.bridge
      = if L.IPMI_BRIDGE_MSG_NONE ≠ req.bridge.bridge_level then req.bridge
        else { bridge_t.zero with bridge_level := req.bridge.bridge_level } := by
  show (if L.IPMI_BRIDGE_MSG_NONE ≠ req.bridge.bridge_level then _ else _) = _
  split <;> rfl

theorem build_appmsg_serial (L : Headers) (id : Nat) (addr : ipmi_addr) (req : ipmi_msg)
    (header : ipmi_json_ipc_header_t) (timeo : Nat) :
    (build_appmsg L id addr req header timeo).msg.serial
      = if L.IPMI_SERIAL_OPEN_DEV = req.serial.serial_flag
            ∨ L.IPMI_SERIAL_CLOSE_DEV = req.serial.serial_flag then
          { serial_t.zero with serial_flag := req.serial.serial_flag }
        else if L.IPMI_SERIAL_OPERATION = req.serial.serial_flag then req.serial
        else serial_t.zero := by
  show (if _ then _ else if _ then _ else _) = _
  split
  · rfl
  · split <;> rfl

theorem build_appmsg_data (L : Headers) (id : Nat) (addr : ipmi_addr) (req : ipmi_msg)
    (header : ipmi_json_ipc_header_t) (timeo : Nat) (h : req.data_len ≤ L.IPMI_MAX_DATA_LENGTH) :
    (build_appmsg L id addr req header timeo).msg.data = memcpy_bytes req.data req.data_len := by
  show (if 0 < req.data_len ∧ req.data_len ≤ L.IPMI_MAX_DATA_LENGTH then _ else _) = _
  by_cases h0 : 0 < req.data_len
  · rw [if_pos ⟨h0, h⟩]
  · rw [if_neg (fun hc => h0 hc.1)]
    have : req.data_len = 0 := by omega
    rw [this]; rfl

theorem memcpy_bytes_length (src : List Nat) (n : Nat) : (memcpy_bytes src n).length = n := by
  simp [memcpy_bytes]

theorem memcpy_bytes_get (src : List Nat) (n i : Nat) (h : i < n) :
    (memcpy_bytes src n).getD i 0 = src.getD i 0 := by
  simp [memcpy_bytes, List.getD, h]

/-- C25: on a successful call of `convert_ipmi_appmsg` the method field of the
envelope is the method name of the header when the name is shorter than
`JRPC_METHOD_MAX` and is empty (all zero) when it is not; in both cases the
call returns 0 and the id, the timeout, the reply port, the rest of the header,
the address and the message fields are filled in. -/
theorem method_copied_when_fits (L : Headers) (st : State) (addr : ipmi_addr) (req : ipmi_msg)
    (header : ipmi_json_ipc_header_t) (timeo : Nat) (broadcast : Int) :
    ∃ env : app_msg,
      convert_ipmi_appmsg L st dest_ptr.buffer (some addr) (some req) header timeo broadcast
        = (0, { msgid := (gen_req_msgid st.msgid).2, dest := some env }) ∧
      (header.method.length < L.JRPC_METHOD_MAX → env.ipmi.header.method = header.method) ∧
      (¬ header.method.length < L.JRPC_METHOD_MAX → env.ipmi.header.method = "") ∧
      env.type = L.APPMSG_IPMI_MSG ∧
      env.datalen = APPMSG_IPMI_MSG_LEN L req.data_len ∧
      env.ipmi.id = (gen_req_msgid st.msgid).1 ∧
      env.ipmi.timeo = new_timeo L timeo ∧
      env.ipmi.user_port = header.port ∧
      env.ipmi.header.ip = header.ip ∧
      env.ipmi.header.port = header.port ∧
      env.ipmi.header.json_ipc_id = header.json_ipc_id ∧
      env.ipmi.addr = addr ∧
      env.ipmi.msg = (build_appmsg L (gen_req_msgid st.msgid).1 addr req
        { header with method := "" } timeo).msg := by
  refine ⟨_, convert_ipmi_appmsg_ok L st addr req header timeo broadcast, ?_, ?_,
    rfl, rfl, rfl, rfl, rfl, rfl, rfl, rfl, rfl, rfl⟩
  · intro h
    show (build_appmsg L _ addr req header timeo).header.method = _
    rw [build_appmsg_method, if_pos h]
  · intro h
    show (build_appmsg L _ addr req header timeo).header.method = _
    rw [build_appmsg_method, if_neg h]

/-- C26: `convert_ipmi_appmsg` carries the RPC header through unchanged. A call
either fails with -1 and writes nothing, or it writes an envelope whose header
has the source ip, the source port and the correlation id of the input header,
whose `user_port` is the port of the header and whose address block is the
input address. -/
theorem header_carried_through (L : Headers) (st : State) (dest_msg : dest_ptr)
    (addr : Option ipmi_addr) (req : Option ipmi_msg) (header : ipmi_json_ipc_header_t)
    (timeo : Nat) (broadcast : Int) :
    convert_ipmi_appmsg L st dest_msg addr req header timeo broadcast = (-1, st) ∨
    ∃ (a : ipmi_addr) (env : app_msg),
      addr = some a ∧
      convert_ipmi_appmsg L st dest_msg addr req header timeo broadcast
        = (0, { msgid := (gen_req_msgid st.msgid).2, dest := some env }) ∧
      env.ipmi.header.ip = header.ip ∧
      env.ipmi.header.port = header.port ∧
      env.ipmi.header.json_ipc_id = header.json_ipc_id ∧
      env.ipmi.user_port = header.port ∧
      env.ipmi.addr = a := by
  rcases convert_ipmi_appmsg_ret L st dest_msg addr req header timeo broadcast with
    ⟨_, h⟩ | ⟨a, r, rfl, rfl, rfl⟩
  · exact Or.inl h
  · exact Or.inr ⟨a, _, rfl, convert_ipmi_appmsg_ok L st a r header timeo broadcast,
      rfl, rfl, rfl, rfl, rfl⟩

/-- C27: in the envelope written by `convert_ipmi_appmsg` the bridge level is
the one of the message; the other fields of the bridging descriptor are those
of the message when the level differs from `IPMI_BRIDGE_MSG_NONE`, and are all
zero when the level is `IPMI_BRIDGE_MSG_NONE`, whatever the message holds in
them. -/
theorem bridging_only_when_bridged (L : Headers) (st : State) (addr : ipmi_addr)
    (req : ipmi_msg) (header : ipmi_json_ipc_header_t) (timeo : Nat) (broadcast : Int) :
    ∃ env : app_msg,
      convert_ipmi_appmsg L st dest_ptr.buffer (some addr) (some req) header timeo broadcast
        = (0, { msgid := (gen_req_msgid st.msgid).2, dest := some env }) ∧
      env.ipmi.msg.bridge.bridge_level = req.bridge.bridge_level ∧
      (req.bridge.bridge_level ≠ L.IPMI_BRIDGE_MSG_NONE →
        env.ipmi.msg.bridge.my_addr = req.bridge.my_addr ∧
        env.ipmi.msg.bridge.transit_addr = req.bridge.transit_addr ∧
        env.ipmi.msg.bridge.transit_channel = req.bridge.transit_channel ∧
        env.ipmi.msg.bridge.target_addr = req.bridge.target_addr ∧
        env.ipmi.msg.bridge.target_channel = req.bridge.target_channel ∧
        env.ipmi.msg.bridge.br_netfn = req.bridge.br_netfn ∧
        env.ipmi.msg.bridge.br_cmd = req.bridge.br_cmd) ∧
      (req.bridge.bridge_level = L.IPMI_BRIDGE_MSG_NONE →
        env.ipmi.msg.bridge.my_addr = 0 ∧
        env.ipmi.msg.bridge.transit_addr = 0 ∧
        env.ipmi.msg.bridge.transit_channel = 0 ∧
        env.ipmi.msg.bridge.target_addr = 0 ∧
        env.ipmi.msg.bridge.target_channel = 0 ∧
        env.ipmi.msg.bridge.br_netfn = 0 ∧
        env.ipmi.msg.bridge.br_cmd = 0) := by
  refine ⟨_, convert_ipmi_appmsg_ok L st addr req header timeo broadcast, ?_, ?_, ?_⟩
  · show (build_appmsg L _ addr req header timeo).msg.bridge.bridge_level = _
    rw [build_appmsg_bridge]
    split <;> rfl
  · intro h
    show (build_appmsg L _ addr req header timeo).msg.bridge.my_addr = _ ∧
      (build_appmsg L _ addr req header timeo).msg.bridge.transit_addr = _ ∧
      (build_appmsg L _ addr req header timeo).msg.bridge.transit_channel = _ ∧
      (build_appmsg L _ addr req header timeo).msg.bridge.target_addr = _ ∧
      (build_appmsg L _ addr req header timeo).msg.bridge.target_channel = _ ∧
      (build_appmsg L _ addr req header timeo).msg.bridge.br_netfn = _ ∧
      (build_appmsg L _ addr req header timeo).msg.bridge.br_cmd = _
    rw [build_appmsg_bridge, if_pos (fun hc => h hc.symm)]
    exact ⟨rfl, rfl, rfl, rfl, rfl, rfl, rfl⟩
  · intro h
    show (build_appmsg L _ addr req header timeo).msg.bridge.my_addr = _ ∧
      (build_appmsg L _ addr req header timeo).msg.bridge.transit_addr = _ ∧
      (build_appmsg L _ addr req header timeo).msg.bridge.transit_channel = _ ∧
      (build_appmsg L _ addr req header timeo).msg.bridge.target_addr = _ ∧
      (build_appmsg L _ addr req header timeo).msg.bridge.target_channel = _ ∧
      (build_appmsg L _ addr req header timeo).msg.bridge.br_netfn = _ ∧
      (build_appmsg L _ addr req header timeo).msg.bridge.br_cmd = _
    rw [build_appmsg_bridge, if_neg (fun hc => hc h.symm)]
    exact ⟨rfl, rfl, rfl, rfl, rfl, rfl, rfl⟩

/-- C28: for a message that is not bridged, the serial flag of the envelope
written by `convert_ipmi_appmsg` is the flag of the message when that flag is
open, close or operate and is zero for any other flag; the serial descriptor of
the envelope is the one of the message under the operate flag, and it is
non-zero only if the flag is one of the three. -/
theorem serial_only_for_explicit_flags (L : Headers) (st : State) (addr : ipmi_addr)
    (req : ipmi_msg) (header : ipmi_json_ipc_header_t) (timeo : Nat) (broadcast : Int)
    (hnb : req.bridge.bridge_level = L.IPMI_BRIDGE_MSG_NONE) :
    ∃ env : app_msg,
      convert_ipmi_appmsg L st dest_ptr.buffer (some addr) (some req) header timeo broadcast
        = (0, { msgid := (gen_req_msgid st.msgid).2, dest := some env }) ∧
      ((req.serial.serial_flag = L.IPMI_SERIAL_OPEN_DEV
          ∨ req.serial.serial_flag = L.IPMI_SERIAL_CLOSE_DEV
          ∨ req.serial.serial_flag = L.IPMI_SERIAL_OPERATION) →
        env.ipmi.msg.serial.serial_flag = req.serial.serial_flag) ∧
      (¬ (req.serial.serial_flag = L.IPMI_SERIAL_OPEN_DEV
          ∨ req.serial.serial_flag = L.IPMI_SERIAL_CLOSE_DEV
          ∨ req.serial.serial_flag = L.IPMI_SERIAL_OPERATION) →
        env.ipmi.msg.serial.serial_flag = 0) ∧
      (env.ipmi.msg.serial.serial_fd ≠ 0 →
        req.serial.serial_flag = L.IPMI_SERIAL_OPEN_DEV
          ∨ req.serial.serial_flag = L.IPMI_SERIAL_CLOSE_DEV
          ∨ req.serial.serial_flag = L.IPMI_SERIAL_OPERATION) ∧
      ((req.serial.serial_flag ≠ L.IPMI_SERIAL_OPEN_DEV
          ∧ req.serial.serial_flag ≠ L.IPMI_SERIAL_CLOSE_DEV
          ∧ req.serial.serial_flag = L.IPMI_SERIAL_OPERATION) →
        env.ipmi.msg.serial.serial_fd = req.serial.serial_fd) ∧
      env.ipmi.msg.bridge = { bridge_t.zero with bridge_level := L.IPMI_BRIDGE_MSG_NONE } := by
  refine ⟨_, convert_ipmi_appmsg_ok L st addr req header timeo broadcast, ?_, ?_, ?_, ?_, ?_⟩
  · intro h
    show (build_appmsg L _ addr req header timeo).msg.serial.serial_flag = _
    rw [build_appmsg_serial]
    split
    · rfl
    · split
      · rfl
      · rename_i h1 h2
        rcases h with h | h | h
        · exact absurd (Or.inl h.symm) h1
        · exact absurd (Or.inr h.symm) h1
        · exact absurd h.symm h2
  · intro h
    show (build_appmsg L _ addr req header timeo).msg.serial.serial_flag = _
    rw [build_appmsg_serial]
    split
    · rename_i h1
      rcases h1 with h1 | h1
      · exact absurd (Or.inl h1.symm) h
      · exact absurd (Or.inr (Or.inl h1.symm)) h
    · split
      · rename_i h2
        exact absurd (Or.inr (Or.inr h2.symm)) h
      · rfl
  · show (build_appmsg L _ addr req header timeo).msg.serial.serial_fd ≠ 0 → _
    rw [build_appmsg_serial]
    split
    · intro h; exact absurd rfl h
    · split
      · rename_i h2
        intro _; exact Or.inr (Or.inr h2.symm)
      · intro h; exact absurd rfl h
  · rintro ⟨h1, h2, h3⟩
    show (build_appmsg L _ addr req header timeo).msg.serial.serial_fd = _
    rw [build_appmsg_serial, if_neg, if_pos h3.symm]
    rintro (h | h)
    · exact h1 h.symm
    · exact h2 h.symm
  · show (build_appmsg L _ addr req header timeo).msg.bridge = _
    rw [build_appmsg_bridge, if_neg (fun hc => hc hnb.symm), hnb]

theorem serial_only_for_explicit_flags_witness :
    ({ ipmi_msg.zero with serial := ⟨3, 5⟩ } : ipmi_msg).bridge.bridge_level
        = sampleHeaders.IPMI_BRIDGE_MSG_NONE ∧
    ∃ env : app_msg,
      convert_ipmi_appmsg sampleHeaders State.fresh dest_ptr.buffer
          (some ⟨sampleHeaders.IPMI_ADDR_TYPE_SERIAL, ipmi_addr_union.zero⟩)
          (some { ipmi_msg.zero with serial := ⟨3, 5⟩ }) (sample_header "serial_cmd_req") 0 0
        = (0, { msgid := (gen_req_msgid State.fresh.msgid).2, dest := some env }) ∧
      env.ipmi.msg.serial.serial_flag = 3 ∧ env.ipmi.msg.serial.serial_fd = 5 := by
  refine ⟨rfl, ?_⟩
  obtain ⟨env, h, h1, _, _, h4, _⟩ := serial_only_for_explicit_flags sampleHeaders State.fresh
    ⟨sampleHeaders.IPMI_ADDR_TYPE_SERIAL, ipmi_addr_union.zero⟩
    { ipmi_msg.zero with serial := ⟨3, 5⟩ } (sample_header "serial_cmd_req") 0 0 rfl
  exact ⟨env, h, h1 (Or.inr (Or.inr rfl)), h4 ⟨by decide, by decide, rfl⟩⟩

/-- C29: the successor relation of the sequence ids. For a counter value `c` of
32 bits the id assigned next by `gen_req_msgid` is `c + 1` when `c` is below
0xFFFFFFFF and 1 when `c` is 0xFFFFFFFF; the counter then holds that id, so
two consecutive assignments differ, and the second is the larger one except at
the single wrap-around step. -/
theorem msgid_successor (c : Nat) (hc : c ≤ UINT_MAX) :
    UINT_MAX = 0xFFFFFFFF ∧
    (c < UINT_MAX → (gen_req_msgid c).1 = c + 1) ∧
    (c = UINT_MAX → (gen_req_msgid c).1 = 1) ∧
    (gen_req_msgid c).2 = (gen_req_msgid c).1 ∧
    (gen_req_msgid c).1 ≠ c ∧
    (gen_req_msgid (gen_req_msgid c).2).1 ≠ (gen_req_msgid c).1 ∧
    (c < UINT_MAX → c < (gen_req_msgid c).1) ∧
    ((gen_req_msgid c).1 < UINT_MAX →
      (gen_req_msgid c).1 < (gen_req_msgid (gen_req_msgid c).2).1) := by
  have key : ∀ d : Nat, d ≤ UINT_MAX →
      (d < UINT_MAX → (gen_req_msgid d).1 = d + 1) ∧ (d = UINT_MAX → (gen_req_msgid d).1 = 1) :=
    fun d _ => ⟨gen_req_msgid_succ d, fun h => h ▸ gen_req_msgid_wrap⟩
  have hle : ∀ d : Nat, d ≤ UINT_MAX → (gen_req_msgid d).1 ≤ UINT_MAX ∧ (gen_req_msgid d).1 ≠ d := by
    intro d hd
    rcases Nat.lt_or_ge d UINT_MAX with h | h
    · rw [(key d hd).1 h]; omega
    · have : d = UINT_MAX := by omega
      rw [(key d hd).2 this, this]; unfold UINT_MAX; omega
  refine ⟨rfl, (key c hc).1, (key c hc).2, gen_req_msgid_snd c, (hle c hc).2, ?_, ?_, ?_⟩
  · rw [gen_req_msgid_snd]
    exact (hle _ (hle c hc).1).2
  · intro h; rw [(key c hc).1 h]; omega
  · intro h
    rw [gen_req_msgid_snd, (key _ (hle c hc).1).1 h]; omega

theorem msgid_successor_witness :
    (gen_req_msgid 41).1 = 42 ∧ (gen_req_msgid UINT_MAX).1 = 1 :=
  ⟨(msgid_successor 41 (by decide)).2.1 (by decide),
   (msgid_successor UINT_MAX (Nat.le_refl _)).2.2.1 rfl⟩

/-- C30: for a message whose payload length `n` is at most
`IPMI_MAX_DATA_LENGTH` (zero included) the envelope written by
`convert_ipmi_appmsg` has the netfn and the cmd of the message, the payload
length field `n`, and as payload the first `n` bytes of the payload array of
the message. -/
theorem payload_carried (L : Headers) (st : State) (addr : ipmi_addr) (req : ipmi_msg)
    (header : ipmi_json_ipc_header_t) (timeo : Nat) (broadcast : Int)
    (hn : req.data_len ≤ L.IPMI_MAX_DATA_LENGTH) :
    ∃ env : app_msg,
      convert_ipmi_appmsg L st dest_ptr.buffer (some addr) (some req) header timeo broadcast
        = (0, { msgid := (gen_req_msgid st.msgid).2, dest := some env }) ∧
      env.ipmi.msg.netfn = req.netfn ∧
      env.ipmi.msg.cmd = req.cmd ∧
      env.ipmi.msg.data_len = req.data_len ∧
      env.ipmi.msg.data.length = req.data_len ∧
      (∀ i, i < req.data_len → env.ipmi.msg.data.getD i 0 = req.data.getD i 0) ∧
      (req.data_len ≤ req.data.length → env.ipmi.msg.data = req.data.take req.data_len) := by
  have hd := build_appmsg_data L (gen_req_msgid st.msgid).1 addr req header timeo hn
  refine ⟨_, convert_ipmi_appmsg_ok L st addr req header timeo broadcast, rfl, rfl, rfl,
    ?_, ?_, ?_⟩
  · show (build_appmsg L _ addr req header timeo).msg.data.length = _
    rw [hd, memcpy_bytes_length]
  · intro i hi
    show (build_appmsg L _ addr req header timeo).msg.data.getD i 0 = _
    rw [hd, memcpy_bytes_get _ _ _ hi]
  · intro hlen
    show (build_appmsg L _ addr req header timeo).msg.data = _
    rw [hd]
    apply List.ext_getElem
    · simp [memcpy_bytes_length, List.length_take, hlen]
    · intro i h1 h2
      have hi : i < req.data_len := by simpa [memcpy_bytes_length] using h1
      simp [memcpy_bytes, List.getD, List.getElem?_eq_getElem (Nat.lt_of_lt_of_le hi hlen)]

theorem payload_carried_witness :
    ({ ipmi_msg.zero with netfn := 6, cmd := 1, data_len := 2, data := [170, 187, 204] }
        : ipmi_msg).data_len ≤ sampleHeaders.IPMI_MAX_DATA_LENGTH ∧
    ∃ env : app_msg,
      convert_ipmi_appmsg sampleHeaders State.fresh dest_ptr.buffer
          (some ⟨sampleHeaders.IPMI_ADDR_TYPE_IPMB, ipmi_addr_union.ipmb 32 0⟩)
          (some { ipmi_msg.zero with netfn := 6, cmd := 1, data_len := 2,
                                     data := [170, 187, 204] })
          (sample_header "ipmb_req") 0 0
        = (0, { msgid := (gen_req_msgid State.fresh.msgid).2, dest := some env }) ∧
      env.ipmi.msg.netfn = 6 ∧ env.ipmi.msg.cmd = 1 ∧ env.ipmi.msg.data_len = 2 ∧
      env.ipmi.msg.data = [170, 187] := by
  refine ⟨by decide, ?_⟩
  obtain ⟨env, h, h1, h2, h3, _, _, h6⟩ := payload_carried sampleHeaders State.fresh
    ⟨sampleHeaders.IPMI_ADDR_TYPE_IPMB, ipmi_addr_union.ipmb 32 0⟩
    { ipmi_msg.zero with netfn := 6, cmd := 1, data_len := 2, data := [170, 187, 204] }
    (sample_header "ipmb_req") 0 0 (by decide)
  exact ⟨env, h, h1, h2, h3, h6 (by decide)⟩

/-! ## Theorems on field extraction -/

theorem json_string_value_eq (obj : json_t) (v : String) :
    json_string_value obj = some v ↔ obj = json_t.string v := by
  cases obj <;> simp [json_string_value]

theorem jrpc_get_string_iff (req : Option json_t) (key v : String) :
    jrpc_get_string req key = some v ↔
      ∃ r, req = some r ∧ json_object_get r key = some (json_t.string v)
        ∧ v.length < MAX_KEY_NAME := by
  cases req with
  | none => simp [jrpc_get_string]
  | some r =>
    cases hg : json_object_get r key with
    | none => simp [jrpc_get_string, hg]
    | some obj =>
      cases hs : json_string_value obj with
      | none =>
        have hne : obj ≠ json_t.string v := fun hc => by
          rw [(json_string_value_eq obj v).2 hc] at hs; exact absurd hs (by simp)
        simp [jrpc_get_string, hg, hs, hne]
      | some p =>
        have hobj : obj = json_t.string p := (json_string_value_eq obj p).1 hs
        subst hobj
        by_cases hl : p.length < MAX_KEY_NAME
        · simp only [jrpc_get_string, hg, hs, if_pos hl]
          constructor
          · intro h
            have hpv : p = v := by simpa using h
            subst hpv
            exact ⟨r, rfl, hg, hl⟩
          · rintro ⟨r2, h1, h2, _⟩
            have hr : r = r2 := by simpa using h1
            subst hr
            rw [hg] at h2
            have : p = v := by simpa using h2
            rw [this]
        · simp only [jrpc_get_string, hg, hs, if_neg hl]
          constructor
          · intro h; exact absurd h (by simp)
          · rintro ⟨r2, h1, h2, h3⟩
            have hr : r = r2 := by simpa using h1
            subst hr
            rw [hg] at h2
            have : p = v := by simpa using h2
            subst this
            exact absurd h3 hl

theorem jrpc_get_key_value_iff (req : Option json_t) (param key v : String) :
    jrpc_get_key_value req param key = some v ↔
      ∃ r obj, req = some r ∧ json_object_get r param = some obj
        ∧ json_object_get obj key = some (json_t.string v) ∧ v.length < MAX_KEY_NAME := by
  cases req with
  | none => simp [jrpc_get_key_value]
  | some r =>
    cases hg : json_object_get r param with
    | none => simp [jrpc_get_key_value, hg]
    | some obj =>
      simp only [jrpc_get_key_value, hg]
      rw [jrpc_get_string_iff]
      constructor
      · rintro ⟨o, h1, h2, h3⟩
        have : obj = o := by simpa using h1
        subst this
        exact ⟨r, obj, rfl, hg, h2, h3⟩
      · rintro ⟨r2, o, h0, h1, h2, h3⟩
        have hr : r = r2 := by simpa using h0
        subst hr
        rw [hg] at h1
        have : obj = o := by simpa using h1
        subst this
        exact ⟨obj, rfl, h2, h3⟩

/-- C23: string extraction. `jrpc_get_key_value` succeeds with the text `v`
exactly when the input object is present, it holds the nested object, the
nested object holds the field, the field is the string `v`, and `v` is shorter
than `MAX_KEY_NAME` (32); `jrpc_get_string` does so for a field of the object
itself. The text delivered on success is the whole text of the field, and a
field of 32 characters or more is a failure (no text is delivered). -/
theorem string_extraction (req : Option json_t) (param key : String) :
    MAX_KEY_NAME = 32 ∧
    (∀ v, jrpc_get_key_value req param key = some v ↔
      ∃ r obj, req = some r ∧ json_object_get r param = some obj
        ∧ json_object_get obj key = some (json_t.string v) ∧ v.length < 32) ∧
    (∀ v, jrpc_get_string req key = some v ↔
      ∃ r, req = some r ∧ json_object_get r key = some (json_t.string v) ∧ v.length < 32) ∧
    (∀ r obj v, req = some r → json_object_get r param = some obj →
      json_object_get obj key = some (json_t.string v) → 32 ≤ v.length →
      jrpc_get_key_value req param key = none) ∧
    (∀ r v, req = some r → json_object_get r key = some (json_t.string v) → 32 ≤ v.length →
      jrpc_get_string req key = none) := by
  refine ⟨rfl, fun v => jrpc_get_key_value_iff req param key v,
    fun v => jrpc_get_string_iff req key v, ?_, ?_⟩
  · intro r obj v h1 h2 h3 h4
    cases hr : jrpc_get_key_value req param key with
    | none => rfl
    | some w =>
      obtain ⟨r2, o2, e1, e2, e3, e4⟩ := (jrpc_get_key_value_iff req param key w).1 hr
      rw [h1] at e1
      have e1 : r = r2 := by simpa using e1
      subst e1
      rw [h2] at e2
      have e2 : obj = o2 := by simpa using e2
      subst e2
      rw [h3] at e3
      have e3 : v = w := by simpa using e3
      subst e3
      unfold MAX_KEY_NAME at e4
      omega
  · intro r v h1 h2 h4
    cases hr : jrpc_get_string req key with
    | none => rfl
    | some w =>
      obtain ⟨r2, e1, e3, e4⟩ := (jrpc_get_string_iff req key w).1 hr
      rw [h1] at e1
      have e1 : r = r2 := by simpa using e1
      subst e1
      rw [h2] at e3
      have e3 : v = w := by simpa using e3
      subst e3
      unfold MAX_KEY_NAME at e4
      omega

theorem jrpc_get_int_iff (req : Option json_t) (key : String) (v : Int) :
    jrpc_get_int req key = some v ↔
      ∃ r obj, req = some r ∧ json_object_get r key = some obj
        ∧ json_integer_value obj = v ∧ v ≠ -1 ∧ v ≠ 0 := by
  cases req with
  | none => simp [jrpc_get_int]
  | some r =>
    cases hg : json_object_get r key with
    | none => simp [jrpc_get_int, hg]
    | some obj =>
      simp only [jrpc_get_int, hg]
      constructor
      · intro h
        split at h
        · exact absurd h (by simp)
        · rename_i hc
          have hv : json_integer_value obj = v := by simpa using h
          refine ⟨r, obj, rfl, hg, hv, ?_, ?_⟩
          · intro h1; exact hc (Or.inl (by rw [hv, h1]))
          · intro h0; exact hc (Or.inr (by rw [hv, h0]))
      · rintro ⟨r2, o, h0, h1, h2, h3, h4⟩
        have hr : r = r2 := by simpa using h0
        subst hr
        rw [hg] at h1
        have : obj = o := by simpa using h1
        subst this
        rw [if_neg, h2]
        rintro (hc | hc)
        · exact h3 (by rw [← h2, ← hc])
        · exact h4 (by rw [← h2, hc])

/-- C24, counterexample: a present field whose integer value is 0, which is not
the sentinel -1, makes `jrpc_get_int` fail. -/
theorem zero_integer_rejected :
    json_object_get (json_t.object [("timeout", json_t.integer 0)]) "timeout"
      = some (json_t.integer 0) ∧
    json_integer_value (json_t.integer 0) = 0 ∧
    jrpc_get_int (some (json_t.object [("timeout", json_t.integer 0)])) "timeout" = none :=
  ⟨rfl, rfl, rfl⟩

/-- C24, amended: `jrpc_get_int` succeeds with the value `v` exactly when the
input object is present, it holds the field, the integer value of the field is
`v`, and `v` is neither the sentinel -1 nor 0; so it fails exactly when the
input object is absent, the field is absent, or the integer value of the field
is -1 or 0, and for every other integer `v` held by a present field it returns
`v`. -/
theorem integer_extraction (req : Option json_t) (key : String) :
    (∀ v, jrpc_get_int req key = some v ↔
      ∃ r obj, req = some r ∧ json_object_get r key = some obj
        ∧ json_integer_value obj = v ∧ v ≠ -1 ∧ v ≠ 0) ∧
    (jrpc_get_int req key = none ↔
      req = none ∨
      (∃ r, req = some r ∧ json_object_get r key = none) ∨
      (∃ r obj, req = some r ∧ json_object_get r key = some obj
        ∧ (json_integer_value obj = -1 ∨ json_integer_value obj = 0))) ∧
    (∀ r v, req = some r → json_object_get r key = some (json_t.integer v) →
      v ≠ -1 → v ≠ 0 → jrpc_get_int req key = some v) := by
  refine ⟨fun v => jrpc_get_int_iff req key v, ?_, ?_⟩
  · cases req with
    | none => simp [jrpc_get_int]
    | some r =>
      cases hg : json_object_get r key with
      | none => simp [jrpc_get_int, hg]
      | some obj =>
        simp only [jrpc_get_int, hg]
        constructor
        · intro h
          split at h
          · rename_i hc
            refine Or.inr (Or.inr ⟨r, obj, rfl, hg, ?_⟩)
            rcases hc with hc | hc
            · exact Or.inl hc.symm
            · exact Or.inr hc
          · exact absurd h (by simp)
        · rintro (h | ⟨r2, h1, h2⟩ | ⟨r2, o, h1, h2, h3⟩)
          · exact absurd h (by simp)
          · have hr : r = r2 := by simpa using h1
            subst hr
            rw [hg] at h2
            exact absurd h2 (by simp)
          · have hr : r = r2 := by simpa using h1
            subst hr
            rw [hg] at h2
            have : obj = o := by simpa using h2
            subst this
            rw [if_pos]
            rcases h3 with h3 | h3
            · exact Or.inl h3.symm
            · exact Or.inr h3
  · intro r v h1 h2 h3 h4
    exact (jrpc_get_int_iff req key v).2 ⟨r, _, h1, h2, rfl, h3, h4⟩

/-! ## Theorems on the return value of the response encoder -/

theorem jrpc_string_build_eq (lib : jsonrpc_lib) (L : Headers) (header : ipmi_json_ipc_header_t)
    (msg : app_msg) (n : Nat) (hfits : hex_fits L msg) :
    jrpc_string_build lib L header.method header.json_ipc_id msg.ipmi.msg.data
        msg.ipmi.msg.data_len (some "") n
      = some (match lib.jrpc_create_result_rsp header.json_ipc_id (reply_params L msg) with
          | none => (0, some "")
          | some rsp =>
            match lib.jrpc_format_string rsp n with
            | none => (0, some "")
            | some text => (text.length, some text)) := by
  unfold hex_fits at hfits
  unfold jrpc_string_build
  rw [if_pos hfits]
  show (match lib.jrpc_create_result_rsp header.json_ipc_id (reply_params L msg), some "" with
    | some rsp, some _ =>
      match lib.jrpc_format_string rsp n with
      | none => some (0, some "")
      | some text => some (text.length, some text)
    | _, _ => some (0, some "")) = _
  cases lib.jrpc_create_result_rsp header.json_ipc_id (reply_params L msg) with
  | none => rfl
  | some rsp =>
    show (match lib.jrpc_format_string rsp n with
      | none => some (0, some "")
      | some text => some (text.length, some text))
      = some (match lib.jrpc_format_string rsp n with
        | none => (0, some "")
        | some text => (text.length, some text))
    cases lib.jrpc_format_string rsp n <;> rfl

/-- The outcomes of `format_app_jrpc_to_user` for a reply whose hex text fits
the local array: -1 for a record length that does not match, -2 for a `NULL`
buffer, -3 when no text is built, and the length of the text otherwise. -/
theorem format_app_jrpc_to_user_cases (lib : jsonrpc_lib) (L : Headers) (buffer : Option String)
    (header : ipmi_json_ipc_header_t) (msg : app_msg) (hfits : hex_fits L msg) :
    (msg.datalen ≠ APPMSG_IPMI_MSG_LEN L msg.ipmi.msg.data_len ∧
      format_app_jrpc_to_user lib L buffer header msg = some (-1, buffer)) ∨
    (msg.datalen = APPMSG_IPMI_MSG_LEN L msg.ipmi.msg.data_len ∧ buffer = none ∧
      format_app_jrpc_to_user lib L buffer header msg = some (-2, none)) ∨
    (msg.datalen = APPMSG_IPMI_MSG_LEN L msg.ipmi.msg.data_len ∧ buffer ≠ none ∧
      lib.jrpc_create_result_rsp header.json_ipc_id (reply_params L msg) = none ∧
      format_app_jrpc_to_user lib L buffer header msg = some (-3, some "")) ∨
    (∃ rsp, msg.datalen = APPMSG_IPMI_MSG_LEN L msg.ipmi.msg.data_len ∧ buffer ≠ none ∧
      lib.jrpc_create_result_rsp header.json_ipc_id (reply_params L msg) = some rsp ∧
      lib.jrpc_format_string rsp L.IPMI_JSONRPC_MAX_STRING_LEN = none ∧
      format_app_jrpc_to_user lib L buffer header msg = some (-3, some "")) ∨
    (∃ rsp text, msg.datalen = APPMSG_IPMI_MSG_LEN L msg.ipmi.msg.data_len ∧ buffer ≠ none ∧
      lib.jrpc_create_result_rsp header.json_ipc_id (reply_params L msg) = some rsp ∧
      lib.jrpc_format_string rsp L.IPMI_JSONRPC_MAX_STRING_LEN = some text ∧
      text.length = 0 ∧
      format_app_jrpc_to_user lib L buffer header msg = some (-3, some text)) ∨
    (∃ rsp text, msg.datalen = APPMSG_IPMI_MSG_LEN L msg.ipmi.msg.data_len ∧ buffer ≠ none ∧
      lib.jrpc_create_result_rsp header.json_ipc_id (reply_params L msg) = some rsp ∧
      lib.jrpc_format_string rsp L.IPMI_JSONRPC_MAX_STRING_LEN = some text ∧
      0 < text.length ∧
      format_app_jrpc_to_user lib L buffer header msg
        = some ((text.length : Int), some text)) := by
  by_cases hlen : msg.datalen = APPMSG_IPMI_MSG_LEN L msg.ipmi.msg.data_len
  · cases buffer with
    | none =>
      refine Or.inr (Or.inl ⟨hlen, rfl, ?_⟩)
      unfold format_app_jrpc_to_user
      rw [if_neg (fun h => h hlen)]
    | some b =>
      have hb : (some b : Option String) ≠ none := by simp
      have hunf : format_app_jrpc_to_user lib L (some b) header msg
          = (match jrpc_string_build lib L header.method header.json_ipc_id msg.ipmi.msg.data
              msg.ipmi.msg.data_len (some "") L.IPMI_JSONRPC_MAX_STRING_LEN with
            | none => none
            | some (str_len, buffer) =>
              if str_len = 0 then some (-3, buffer) else some ((str_len : Int), buffer)) := by
        unfold format_app_jrpc_to_user
        rw [if_neg (fun h => h hlen)]
      rw [jrpc_string_build_eq lib L header msg _ hfits] at hunf
      cases hc : lib.jrpc_create_result_rsp header.json_ipc_id (reply_params L msg) with
      | none =>
        rw [hc] at hunf
        exact Or.inr (Or.inr (Or.inl ⟨hlen, hb, rfl, hunf⟩))
      | some rsp =>
        rw [hc] at hunf
        cases hf : lib.jrpc_format_string rsp L.IPMI_JSONRPC_MAX_STRING_LEN with
        | none =>
          simp only [hf] at hunf
          exact Or.inr (Or.inr (Or.inr (Or.inl ⟨rsp, hlen, hb, rfl, hf, hunf⟩)))
        | some text =>
          simp only [hf] at hunf
          by_cases h0 : text.length = 0
          · rw [if_pos h0] at hunf
            exact Or.inr (Or.inr (Or.inr (Or.inr (Or.inl ⟨rsp, text, hlen, hb, rfl, hf, h0, hunf⟩))))
          · rw [if_neg h0] at hunf
            exact Or.inr (Or.inr (Or.inr (Or.inr (Or.inr
              ⟨rsp, text, hlen, hb, rfl, hf, Nat.pos_of_ne_zero h0, hunf⟩))))
  · refine Or.inl ⟨hlen, ?_⟩
    unfold format_app_jrpc_to_user
    rw [if_pos hlen]

/-- C21 (the code at the failing input): a valid reply of 512 payload bytes
against the capacity 1024. The hex text of the payload has 1024 characters and
does not fit the local array of `jrpc_string_build`, which is filled before
any test of a capacity: the call is undefined instead of returning a negative
value, and so it is for every valid reply whose hex text does not fit. For
the replies whose hex text fits, the claim holds: the call returns, a text
that does not fit the output capacity gives a negative value (-3 for a valid
reply and a buffer that is not `NULL`), and a positive value is returned only
together with the complete text that the library produced within the
capacity. -/
theorem hex_text_overruns_local_array :
    (sample_reply sampleHeaders (List.replicate 512 0)).datalen
      = APPMSG_IPMI_MSG_LEN sampleHeaders
          (sample_reply sampleHeaders (List.replicate 512 0)).ipmi.msg.data_len ∧
    sampleHeaders.IPMI_JSONRPC_MAX_STRING_LEN = 1024 ∧
    (buf2hexstr (List.replicate 512 0)).length = 1024 ∧
    format_app_jrpc_to_user (sample_lib json_t.null) sampleHeaders (some "")
      (sample_header "ipmb_req") (sample_reply sampleHeaders (List.replicate 512 0)) = none ∧
    (∀ (lib : jsonrpc_lib) (L : Headers) (old : String) (header : ipmi_json_ipc_header_t)
      (msg : app_msg),
      msg.datalen = APPMSG_IPMI_MSG_LEN L msg.ipmi.msg.data_len → ¬ hex_fits L msg →
      format_app_jrpc_to_user lib L (some old) header msg = none) ∧
    (∀ (lib : jsonrpc_lib) (L : Headers) (buffer : Option String)
      (header : ipmi_json_ipc_header_t) (msg : app_msg), hex_fits L msg →
      ∃ (ret : Int) (out : Option String),
        format_app_jrpc_to_user lib L buffer header msg = some (ret, out) ∧
        ((∀ rsp, lib.jrpc_create_result_rsp header.json_ipc_id (reply_params L msg) = some rsp →
            lib.jrpc_format_string rsp L.IPMI_JSONRPC_MAX_STRING_LEN = none) →
          ret < 0 ∧
          (msg.datalen = APPMSG_IPMI_MSG_LEN L msg.ipmi.msg.data_len → buffer ≠ none →
            ret = -3)) ∧
        (0 < ret →
          ∃ rsp text,
            lib.jrpc_create_result_rsp header.json_ipc_id (reply_params L msg) = some rsp ∧
            lib.jrpc_format_string rsp L.IPMI_JSONRPC_MAX_STRING_LEN = some text ∧
            out = some text ∧ ret = (text.length : Int))) := by
  have hgen : ∀ (lib : jsonrpc_lib) (L : Headers) (old : String)
      (header : ipmi_json_ipc_header_t) (msg : app_msg),
      msg.datalen = APPMSG_IPMI_MSG_LEN L msg.ipmi.msg.data_len → ¬ hex_fits L msg →
      format_app_jrpc_to_user lib L (some old) header msg = none := by
    intro lib L old header msg hvalid hfits
    unfold hex_fits at hfits
    unfold format_app_jrpc_to_user
    rw [if_neg (fun h => h hvalid)]
    show (match jrpc_string_build lib L header.method header.json_ipc_id msg.ipmi.msg.data
        msg.ipmi.msg.data_len (some "") L.IPMI_JSONRPC_MAX_STRING_LEN with
      | none => none
      | some (str_len, buffer) =>
        if str_len = 0 then some (-3, buffer) else some ((str_len : Int), buffer)) = none
    have hb : jrpc_string_build lib L header.method header.json_ipc_id msg.ipmi.msg.data
        msg.ipmi.msg.data_len (some "") L.IPMI_JSONRPC_MAX_STRING_LEN = none := by
      unfold jrpc_string_build
      rw [if_neg hfits]
    rw [hb]
  have hvalid : (sample_reply sampleHeaders (List.replicate 512 0)).datalen
      = APPMSG_IPMI_MSG_LEN sampleHeaders
          (sample_reply sampleHeaders (List.replicate 512 0)).ipmi.msg.data_len := by
    simp only [sample_reply]
  refine ⟨hvalid, rfl, ?_, ?_, hgen, ?_⟩
  · rw [buf2hexstr_length, List.length_replicate]
  · refine hgen _ _ _ _ _ hvalid ?_
    simp only [hex_fits, sample_reply, List.length_replicate]
    decide
  · intro lib L buffer header msg hfits
    rcases format_app_jrpc_to_user_cases lib L buffer header msg hfits with
      ⟨h1, h⟩ | ⟨h1, h2, h⟩ | ⟨h1, h2, h3, h⟩ | ⟨rsp, h1, h2, h3, h4, h⟩ |
      ⟨rsp, text, h1, h2, h3, h4, h5, h⟩ | ⟨rsp, text, h1, h2, h3, h4, h5, h⟩
    · exact ⟨_, _, h, fun _ => ⟨by decide, fun hc => absurd hc h1⟩,
        fun hc => absurd hc (by decide)⟩
    · exact ⟨_, _, h, fun _ => ⟨by decide, fun _ hc => absurd h2 hc⟩,
        fun hc => absurd hc (by decide)⟩
    · exact ⟨_, _, h, fun _ => ⟨by decide, fun _ _ => rfl⟩, fun hc => absurd hc (by decide)⟩
    · exact ⟨_, _, h, fun _ => ⟨by decide, fun _ _ => rfl⟩, fun hc => absurd hc (by decide)⟩
    · exact ⟨_, _, h, fun _ => ⟨by decide, fun _ _ => rfl⟩, fun hc => absurd hc (by decide)⟩
    · refine ⟨_, _, h, fun hover => ?_, fun _ => ⟨rsp, text, h3, h4, rfl, rfl⟩⟩
      rw [hover rsp h3] at h4
      exact absurd h4 (by simp)

/-- C22: the return values of `format_app_jrpc_to_user` against its header
comment, which gives -1 for a failure. For a valid reply a `NULL` buffer gives
-2, and a result that does not fit the output capacity gives -3. In general,
for a reply whose hex text fits the local array, the value returned is -1, -2,
-3, or the length of the text written to the buffer, which is then greater
than 0; it is never 0. -/
theorem failure_codes_beyond_minus_one :
    format_app_jrpc_to_user (sample_lib json_t.null) sampleHeaders none
        (sample_header "ipmb_req") (sample_reply sampleHeaders [0, 26, 255])
      = some (-2, none) ∧
    format_app_jrpc_to_user (sample_lib json_t.null) small_buffer_headers (some "old")
        (sample_header "ipmb_req") (sample_reply small_buffer_headers [0, 26, 255])
      = some (-3, some "") ∧
    (∀ (lib : jsonrpc_lib) (L : Headers) (buffer : Option String)
      (header : ipmi_json_ipc_header_t) (msg : app_msg), hex_fits L msg →
      ∃ (ret : Int) (out : Option String),
        format_app_jrpc_to_user lib L buffer header msg = some (ret, out) ∧
        ret ≠ 0 ∧
        (ret = -1 ∨ ret = -2 ∨ ret = -3 ∨
          ∃ text, out = some text ∧ 0 < ret ∧ ret = (text.length : Int))) := by
  refine ⟨by decide, by decide, ?_⟩
  intro lib L buffer header msg hfits
  rcases format_app_jrpc_to_user_cases lib L buffer header msg hfits with
    ⟨h1, h⟩ | ⟨h1, h2, h⟩ | ⟨h1, h2, h3, h⟩ | ⟨rsp, h1, h2, h3, h4, h⟩ |
    ⟨rsp, text, h1, h2, h3, h4, h5, h⟩ | ⟨rsp, text, h1, h2, h3, h4, h5, h⟩
  · exact ⟨_, _, h, by decide, Or.inl rfl⟩
  · exact ⟨_, _, h, by decide, Or.inr (Or.inl rfl)⟩
  · exact ⟨_, _, h, by decide, Or.inr (Or.inr (Or.inl rfl))⟩
  · exact ⟨_, _, h, by decide, Or.inr (Or.inr (Or.inl rfl))⟩
  · exact ⟨_, _, h, by decide, Or.inr (Or.inr (Or.inl rfl))⟩
  · exact ⟨_, _, h, by omega, Or.inr (Or.inr (Or.inr ⟨text, rfl, by omega, rfl⟩))⟩

/-! ## Lemmas on the outcome of the four parsers -/

theorem ipmb_handle_null (L : Headers) (st : State) (req : Option ipmi_msg)
    (header : ipmi_json_ipc_header_t) (x : Int) (y : Nat) :
    ipmb_handle_common L st dest_ptr.NULL req header [va_item.int x, va_item.uint y]
      = some st := rfl

theorem rmcp_handle_null (L : Headers) (st : State) (req : Option ipmi_msg)
    (header : ipmi_json_ipc_header_t) (host port : Nat) (uname passwd : String) :
    rmcp_handle_common L st dest_ptr.NULL req header
        [va_item.uint host, va_item.uint port, va_item.str uname, va_item.str passwd]
      = some st := rfl

theorem serial_handle_null (L : Headers) (st : State) (req : Option ipmi_msg)
    (header : ipmi_json_ipc_header_t) (args : va_list) :
    serial_handle_common L st dest_ptr.NULL req header args = some st := rfl

theorem rmcp_br_handle_null (L : Headers) (st : State) (req : ipmi_msg)
    (header : ipmi_json_ipc_header_t) (host port target_addr int_target_ch : Nat)
    (uname passwd : String) (transit_addr int_transit_ch : Nat) (bridge_level : Int) :
    rmcp_br_handle_common L st dest_ptr.NULL (some req) header
        [va_item.uint host, va_item.uint port, va_item.ulong target_addr,
         va_item.uint int_target_ch, va_item.str uname, va_item.str passwd,
         va_item.ulong transit_addr, va_item.uint int_transit_ch, va_item.int bridge_level]
      = some st := rfl

/-- Every call of one of the four parsers returns: it leaves the state as it
was, or it has read the opcode and length fields and its result is the state
written by `convert_ipmi_appmsg` for a message `req` with the default timeout. -/
theorem req_parse_cases (t : transport) (L : Headers) (st : State) (dest_msg : dest_ptr)
    (json_obj : Option json_t) (header : ipmi_json_ipc_header_t) :
    req_parse t L st dest_msg json_obj header = some st ∨
    ∃ (value_netfn value_cmd value_data_len value_data : String) (data : List Nat) (len : Int)
      (addr : ipmi_addr) (req : ipmi_msg) (b : Int),
      jrpc_get_key_value json_obj STR_PARAMS L.STR_NETFN = some value_netfn ∧
      jrpc_get_key_value json_obj STR_PARAMS L.STR_CMD = some value_cmd ∧
      jrpc_get_key_value json_obj STR_PARAMS L.STR_DATA_LEN = some value_data_len ∧
      get_data_field L json_obj value_data_len = some value_data ∧
      decode_data value_data_len value_data = some (data, len) ∧
      req_parse t L st dest_msg json_obj header
        = some (convert_ipmi_appmsg L st dest_ptr.buffer (some addr) (some req) header
            L.IPMI_DFLT_TIMEOUT_MS b).2 ∧
      req.data_len = to_unsigned 16 len ∧
      (t ≠ transport.rmcp_br →
        req.netfn = to_unsigned 8 (atoi value_netfn) ∧
        req.cmd = to_unsigned 8 (atoi value_cmd) ∧ req.data = data) := by
  cases t with
  | rmcp =>
    rcases rmcp_parse_inv L st dest_msg json_obj header with
      h | ⟨v1, v2, v3, _, _, vd, _, _, data, len, g1, g2, g3, _, _, gd, _, _, gdec, heq⟩
    · exact Or.inl h
    · cases dest_msg with
      | NULL =>
        refine Or.inl ?_
        show jrpc_rmcp_req_parse L st dest_ptr.NULL json_obj header = some st
        rw [heq, rmcp_handle_null]
      | buffer =>
        have hres := heq.trans (rmcp_handle_eval L st _ header ..)
        exact Or.inr ⟨v1, v2, v3, vd, data, len, _, _, _, g1, g2, g3, gd, gdec, hres, rfl,
          fun _ => ⟨rfl, rfl, rfl⟩⟩
  | rmcp_br =>
    rcases rmcp_br_parse_inv L st dest_msg json_obj header with
      h | ⟨v1, v2, v3, _, _, _, _, _, _, vd, _, _, _, data, len, g1, g2, g3, _, _, _, _, _, _, gd,
        _, _, _, gdec, heq⟩
    · exact Or.inl h
    · cases dest_msg with
      | NULL =>
        refine Or.inl ?_
        show jrpc_rmcp_br_req_parse L st dest_ptr.NULL json_obj header = some st
        rw [heq, rmcp_br_handle_null]
      | buffer =>
        have hres := heq.trans (rmcp_br_handle_eval L st _ header ..)
        exact Or.inr ⟨v1, v2, v3, vd, data, len, _, _, _, g1, g2, g3, gd, gdec, hres, rfl,
          fun h => absurd rfl h⟩
  | ipmb =>
    rcases ipmb_parse_inv L st dest_msg json_obj header with
      h | ⟨v1, v2, v3, _, vd, data, len, g1, g2, g3, _, gd, gdec, heq⟩
    · exact Or.inl h
    · cases dest_msg with
      | NULL =>
        refine Or.inl ?_
        show jrpc_ipmb_req_parse L st dest_ptr.NULL json_obj header = some st
        rw [heq, ipmb_handle_null]
      | buffer =>
        have hres := heq.trans (ipmb_handle_eval L st _ header ..)
        exact Or.inr ⟨v1, v2, v3, vd, data, len, _, _, _, g1, g2, g3, gd, gdec, hres, rfl,
          fun _ => ⟨rfl, rfl, rfl⟩⟩
  | serial =>
    rcases serial_parse_inv L st dest_msg json_obj header with
      h | ⟨v1, v2, v3, _, vd, _, data, len, g1, g2, g3, _, gd, _, gdec, heq⟩
    · exact Or.inl h
    · cases dest_msg with
      | NULL =>
        refine Or.inl ?_
        show jrpc_serail_req_parse L st dest_ptr.NULL json_obj header = some st
        rw [heq, serial_handle_null]
      | buffer =>
        have hres := heq.trans (serial_handle_eval L st _ header ..)
        exact Or.inr ⟨v1, v2, v3, vd, data, len, _, _, _, g1, g2, g3, gd, gdec, hres, rfl,
          fun _ => ⟨rfl, rfl, rfl⟩⟩

/-- A request that carries the fields its transport requires and whose data
field passes the length check is accepted by the parser of the transport: the
result is the state written by `convert_ipmi_appmsg` for a message with the
opcode read from the request. -/
theorem req_parse_accepts (t : transport) (L : Headers) (st : State) (json_obj : json_t)
    (header : ipmi_json_ipc_header_t) (value_netfn value_cmd value_data_len value_data : String)
    (data : List Nat) (len : Int)
    (hreq : carries_required L t json_obj header = true)
    (h1 : jrpc_get_key_value (some json_obj) STR_PARAMS L.STR_NETFN = some value_netfn)
    (h2 : jrpc_get_key_value (some json_obj) STR_PARAMS L.STR_CMD = some value_cmd)
    (h3 : jrpc_get_key_value (some json_obj) STR_PARAMS L.STR_DATA_LEN = some value_data_len)
    (hd : get_data_field L (some json_obj) value_data_len = some value_data)
    (hdec : decode_data value_data_len value_data = some (data, len)) :
    ∃ (addr : ipmi_addr) (req : ipmi_msg) (b : Int),
      req_parse t L st dest_ptr.buffer (some json_obj) header
        = some (convert_ipmi_appmsg L st dest_ptr.buffer (some addr) (some req) header
            L.IPMI_DFLT_TIMEOUT_MS b).2 ∧
      req.data_len = to_unsigned 16 len ∧
      (t ≠ transport.rmcp_br →
        req.netfn = to_unsigned 8 (atoi value_netfn) ∧
        req.cmd = to_unsigned 8 (atoi value_cmd) ∧ req.data = data) ∧
      (t = transport.rmcp_br →
        req.netfn = L.IPMI_BRIDGE_NETFN_APP ∧ req.cmd = L.IPMI_BRIDGE_IPMI_CMD ∧
        req.bridge.br_netfn = to_unsigned 8 (atoi value_netfn) ∧
        req.bridge.br_cmd = to_unsigned 8 (atoi value_cmd)) := by
  cases t with
  | rmcp =>
    simp only [carries_required, required_keys, List.all_cons, List.all_nil, Bool.and_true,
      Bool.and_eq_true, has_field_iff] at hreq
    obtain ⟨_, _, _, ⟨v4, e4⟩, ⟨v5, e5⟩, ⟨v6, e6⟩, ⟨v7, e7⟩⟩ := hreq
    have hres := (rmcp_parse_fwd L st dest_ptr.buffer json_obj header _ _ _ _ _ _ _ _ _ _
      h1 h2 h3 e4 e5 hd e6 e7 hdec).trans (rmcp_handle_eval L st _ header ..)
    exact ⟨_, _, _, hres, rfl, fun _ => ⟨rfl, rfl, rfl⟩, fun h => by cases h⟩
  | rmcp_br =>
    simp only [carries_required, required_keys, List.all_cons, List.all_nil, Bool.and_true,
      Bool.and_eq_true, has_field_iff] at hreq
    obtain ⟨_, _, _, ⟨v4, e4⟩, ⟨v5, e5⟩, ⟨v6, e6⟩, ⟨v7, e7⟩, ⟨v8, e8⟩, ⟨v9, e9⟩,
      ⟨v10, e10⟩, ⟨v11, e11⟩, ⟨v12, e12⟩⟩ := hreq
    have hres := (rmcp_br_parse_fwd L st dest_ptr.buffer json_obj header _ _ _ _ _ _ _ _ _ _ _
      _ _ _ _ h1 h2 h3 e4 e5 e6 e7 e8 e9 hd e10 e11 e12 hdec).trans
      (rmcp_br_handle_eval L st _ header ..)
    exact ⟨_, _, _, hres, rfl, fun h => absurd rfl h, fun _ => ⟨rfl, rfl, rfl, rfl⟩⟩
  | ipmb =>
    simp only [carries_required, required_keys, List.all_cons, List.all_nil, Bool.and_true,
      Bool.and_eq_true, has_field_iff] at hreq
    obtain ⟨_, _, _, ⟨v4, e4⟩⟩ := hreq
    have hres := (ipmb_parse_fwd L st dest_ptr.buffer json_obj header _ _ _ _ _ _ _
      h1 h2 h3 e4 hd hdec).trans (ipmb_handle_eval L st _ header ..)
    exact ⟨_, _, _, hres, rfl, fun _ => ⟨rfl, rfl, rfl⟩, fun h => by cases h⟩
  | serial =>
    simp only [carries_required, required_keys, List.all_append, List.all_cons, List.all_nil,
      Bool.and_true, Bool.and_eq_true, has_field_iff] at hreq
    obtain ⟨⟨_, _, _, ⟨v4, e4⟩⟩, hfd⟩ := hreq
    have h5 : ∃ v, get_serial_fd_field L (some json_obj) header = some v := by
      unfold get_serial_fd_field
      by_cases hm : header.method = L.JSON_RPC_SERIAL_CMD_REQ
      · simp only [hm, if_true, List.all_cons, List.all_nil, Bool.and_true,
          has_field_iff] at hfd ⊢
        exact hfd
      · exact ⟨"", by rw [if_neg hm]⟩
    obtain ⟨v5, e5⟩ := h5
    have hres := (serial_parse_fwd L st dest_ptr.buffer json_obj header _ _ _ _ _ _ _ _
      h1 h2 h3 e4 hd e5 hdec).trans (serial_handle_eval L st _ header ..)
    exact ⟨_, _, _, hres, rfl, fun _ => ⟨rfl, rfl, rfl⟩, fun h => by cases h⟩

/-! ## Theorems on the data field, the timeout and the opcode of parsed requests -/

/-- The reading of `atoi` at texts whose value does not fit an `int`. -/
theorem atoi_out_of_range :
    atoi "4294967297" = 1 ∧ atoi "4294967296" = 0 ∧ atoi "-4294967295" = 1 ∧
    atoi "9300000000000000000" = -1 ∧ atoi "2147483648" = -2147483648 := by
  decide

theorem atoi_in_range (s : String) (h1 : -2147483648 ≤ decimal_value s)
    (h2 : decimal_value s ≤ 2147483647) : atoi s = decimal_value s := by
  unfold atoi strtol to_int LONG_MAX LONG_MIN
  split
  · omega
  · split
    · omega
    · omega

theorem atoi_is_int (s : String) : -2147483648 ≤ atoi s ∧ atoi s ≤ 2147483647 := by
  unfold atoi to_int
  omega

theorem atoi_low_byte (s : String) (h1 : LONG_MIN ≤ decimal_value s)
    (h2 : decimal_value s ≤ LONG_MAX) : atoi s % 256 = decimal_value s % 256 := by
  unfold LONG_MAX at h2
  unfold LONG_MIN at h1
  unfold atoi strtol to_int LONG_MAX LONG_MIN
  split
  · omega
  · split
    · omega
    · omega

theorem get_data_field_nonpos (L : Headers) (json_obj : Option json_t) (value_data_len : String)
    (h : atoi value_data_len ≤ 0) : get_data_field L json_obj value_data_len = some "" := by
  unfold get_data_field
  rw [if_neg (by omega)]

theorem decode_data_nonpos (value_data_len value_data : String) (h : atoi value_data_len ≤ 0) :
    decode_data value_data_len value_data = some ([], 0) := by
  unfold decode_data
  simp only []
  rw [if_neg (by omega)]

theorem convert_state (L : Headers) (st : State) (addr : ipmi_addr) (req : ipmi_msg)
    (header : ipmi_json_ipc_header_t) (timeo : Nat) (b : Int) :
    (convert_ipmi_appmsg L st dest_ptr.buffer (some addr) (some req) header timeo b).2
      = ⟨(gen_req_msgid st.msgid).2,
          some { type := L.APPMSG_IPMI_MSG
                 datalen := APPMSG_IPMI_MSG_LEN L req.data_len
                 ipmi := build_appmsg L (gen_req_msgid st.msgid).1 addr req header timeo
                 nbytes := APPMSG_IPMI_MSG_LEN L req.data_len + L.APP_MSG_HDR_SIZE
                 overread := decide (req.data_len > L.IPMI_MAX_DATA_LENGTH) }⟩ := by
  rw [convert_ipmi_appmsg_ok]

theorem build_appmsg_data_length_le (L : Headers) (id : Nat) (addr : ipmi_addr) (req : ipmi_msg)
    (header : ipmi_json_ipc_header_t) (timeo : Nat) :
    (build_appmsg L id addr req header timeo).msg.data.length ≤ req.data_len := by
  show (if 0 < req.data_len ∧ req.data_len ≤ L.IPMI_MAX_DATA_LENGTH then
    memcpy_bytes req.data req.data_len else []).length ≤ req.data_len
  split
  · rw [memcpy_bytes_length]
  · exact Nat.zero_le _

theorem long_data_field_not_extracted (L : Headers) (json_obj params : json_t) (v : String)
    (hp : json_object_get json_obj STR_PARAMS = some params)
    (hf : json_object_get params L.STR_DATA = some (json_t.string v))
    (h32 : 32 ≤ v.length) :
    jrpc_get_key_value (some json_obj) STR_PARAMS L.STR_DATA = none := by
  cases hr : jrpc_get_key_value (some json_obj) STR_PARAMS L.STR_DATA with
  | none => rfl
  | some w =>
    obtain ⟨r, o, e1, e2, e3, e4⟩ := (jrpc_get_key_value_iff _ _ _ w).1 hr
    have e1 : json_obj = r := by simpa using e1
    subst e1
    rw [hp] at e2
    have e2 : params = o := by simpa using e2
    subst e2
    rw [hf] at e3
    have e3 : v = w := by simpa using e3
    subst e3
    unfold MAX_KEY_NAME at e4
    omega

/-- C31: in each of the four request parsers, a request that carries the
fields its transport requires and whose declared data length reads (by `atoi`,
as an `int`) as zero or as a negative number, which covers text without
digits, is
accepted whether or not it has a data field, and whatever a data field
holds: the envelope written has payload length 0 and an empty payload. -/
theorem nonpositive_length_skips_data (t : transport) (L : Headers) (st : State)
    (json_obj : json_t) (header : ipmi_json_ipc_header_t) (value_data_len : String)
    (hreq : carries_required L t json_obj header = true)
    (hlen : jrpc_get_key_value (some json_obj) STR_PARAMS L.STR_DATA_LEN = some value_data_len)
    (hz : atoi value_data_len ≤ 0) :
    ∃ msgid env,
      req_parse t L st dest_ptr.buffer (some json_obj) header = some ⟨msgid, some env⟩ ∧
      env.ipmi.msg.data_len = 0 ∧ env.ipmi.msg.data = [] := by
  have hk : ∃ v1 v2, jrpc_get_key_value (some json_obj) STR_PARAMS L.STR_NETFN = some v1 ∧
      jrpc_get_key_value (some json_obj) STR_PARAMS L.STR_CMD = some v2 := by
    cases t <;>
      simp only [carries_required, required_keys, List.all_append, List.all_cons, List.all_nil,
        Bool.and_true, Bool.and_eq_true, has_field_iff] at hreq
    · exact ⟨_, _, hreq.1.choose_spec, hreq.2.1.choose_spec⟩
    · exact ⟨_, _, hreq.1.choose_spec, hreq.2.1.choose_spec⟩
    · exact ⟨_, _, hreq.1.choose_spec, hreq.2.1.choose_spec⟩
    · exact ⟨_, _, hreq.1.1.choose_spec, hreq.1.2.1.choose_spec⟩
  obtain ⟨v1, v2, h1, h2⟩ := hk
  obtain ⟨addr, req, b, hres, hdl, _, _⟩ := req_parse_accepts t L st json_obj header v1 v2
    value_data_len "" [] 0 hreq h1 h2 hlen (get_data_field_nonpos L _ _ hz)
    (decode_data_nonpos _ _ hz)
  have hdl0 : req.data_len = 0 := by rw [hdl]; rfl
  rw [convert_state] at hres
  refine ⟨_, _, hres, hdl0, ?_⟩
  show (build_appmsg L _ addr req header L.IPMI_DFLT_TIMEOUT_MS).msg.data = []
  have hle := build_appmsg_data_length_le L (gen_req_msgid st.msgid).1 addr req header
    L.IPMI_DFLT_TIMEOUT_MS
  rw [hdl0] at hle
  exact List.eq_nil_of_length_eq_zero (by omega)

/-- Witness of C31: an RMCP request whose declared length is the text "none"
and which holds the data field "AABB" is accepted with payload length 0. -/
theorem nonpositive_length_skips_data_witness :
    atoi "none" = 0 ∧
    ∃ msgid env,
      req_parse transport.rmcp sampleHeaders State.fresh dest_ptr.buffer
        (some (mk_request "rmcp_req"
          [("netfn", "6"), ("cmd", "1"), ("data_len", "none"), ("data", "AABB"),
           ("target_ip", "10.0.0.5"), ("target_port", "623"), ("name", "admin"),
           ("passwd", "secret")]))
        (sample_header "rmcp_req") = some ⟨msgid, some env⟩ ∧
      env.ipmi.msg.data_len = 0 ∧ env.ipmi.msg.data = [] :=
  ⟨by decide,
   nonpositive_length_skips_data transport.rmcp sampleHeaders State.fresh
    (mk_request "rmcp_req"
      [("netfn", "6"), ("cmd", "1"), ("data_len", "none"), ("data", "AABB"),
       ("target_ip", "10.0.0.5"), ("target_port", "623"), ("name", "admin"),
       ("passwd", "secret")])
    (sample_header "rmcp_req") "none" (by decide) (by decide) (by decide)⟩

/-- C32: in each of the four request parsers the data field is extracted
under the bound of 32 characters of `jrpc_get_key_value`. A request whose
declared length reads (by `atoi`, as an `int`) as positive and whose data
field is a string of 32 or more characters is rejected and the state is left
as it was; and every call either leaves the
state as it was or writes an envelope whose payload length field and payload
are at most 15 bytes. -/
theorem data_field_bound (t : transport) (L : Headers) (st : State) (dest_msg : dest_ptr)
    (json_obj : json_t) (header : ipmi_json_ipc_header_t) :
    MAX_KEY_NAME = 32 ∧
    (∀ (params : json_t) (value_data_len v : String),
      jrpc_get_key_value (some json_obj) STR_PARAMS L.STR_DATA_LEN = some value_data_len →
      0 < atoi value_data_len →
      json_object_get json_obj STR_PARAMS = some params →
      json_object_get params L.STR_DATA = some (json_t.string v) →
      32 ≤ v.length →
      req_parse t L st dest_msg (some json_obj) header = some st) ∧
    (req_parse t L st dest_msg (some json_obj) header = some st ∨
      ∃ msgid env,
        req_parse t L st dest_msg (some json_obj) header = some ⟨msgid, some env⟩ ∧
        env.ipmi.msg.data_len ≤ 15 ∧ env.ipmi.msg.data.length ≤ 15) := by
  refine ⟨rfl, ?_, ?_⟩
  · intro params value_data_len v hlen hpos hp hf h32
    exact missing_data_rejected t L st dest_msg json_obj header value_data_len hlen hpos
      (long_data_field_not_extracted L json_obj params v hp hf h32)
  · rcases req_parse_cases t L st dest_msg (some json_obj) header with
      h | ⟨_, _, vlen, vd, data, len, addr, req, b, _, _, _, gd, gdec, hres, hdl, _⟩
    · exact Or.inl h
    · obtain ⟨hb, hl⟩ := accepted_payload_bound L _ vlen vd data len gd gdec
      have hdl2 : req.data_len = data.length := by
        rw [hdl, hl]
        exact to_unsigned_16_small _ hb
      rw [convert_state] at hres
      refine Or.inr ⟨_, _, hres, ?_, ?_⟩
      · show req.data_len ≤ 15
        omega
      · have hle := build_appmsg_data_length_le L (gen_req_msgid st.msgid).1 addr req header
          L.IPMI_DFLT_TIMEOUT_MS
        show (build_appmsg L _ addr req header L.IPMI_DFLT_TIMEOUT_MS).msg.data.length ≤ 15
        omega

/-- C33: every call of one of the four request parsers either leaves the state
as it was or writes an envelope whose timeout is `IPMI_DFLT_TIMEOUT_MS` after
the clamping of `convert_ipmi_appmsg`, whatever the request holds. -/
theorem timeout_is_default (t : transport) (L : Headers) (st : State) (dest_msg : dest_ptr)
    (json_obj : Option json_t) (header : ipmi_json_ipc_header_t) :
    req_parse t L st dest_msg json_obj header = some st ∨
    ∃ msgid env,
      req_parse t L st dest_msg json_obj header = some ⟨msgid, some env⟩ ∧
      env.ipmi.timeo = new_timeo L L.IPMI_DFLT_TIMEOUT_MS := by
  rcases req_parse_cases t L st dest_msg json_obj header with
    h | ⟨_, _, _, _, _, _, addr, req, b, _, _, _, _, _, hres, _, _⟩
  · exact Or.inl h
  · rw [convert_state] at hres
    exact Or.inr ⟨_, _, hres, rfl⟩

/-- C34: the request parsers do not reject a netfn or cmd field for its value.
A request that carries the fields its transport requires and whose data field
passes the length check is accepted whatever the texts of netfn and cmd are;
for RMCP, IPMB and serial the opcode bytes of the envelope are the `atoi`
readings of the texts (the `int` that the library returns) modulo 256, and
for RMCP-bridged these bytes are the bridged opcode handed to the encoder
under the fixed bridge opcode. So text without digits gives 0 and "300" gives
44; for every text whose value fits a `long` the byte is the low 8 bits of
that value. -/
theorem opcode_not_validated (t : transport) (L : Headers) (st : State) (json_obj : json_t)
    (header : ipmi_json_ipc_header_t) (value_netfn value_cmd value_data_len value_data : String)
    (data : List Nat) (len : Int)
    (hreq : carries_required L t json_obj header = true)
    (h1 : jrpc_get_key_value (some json_obj) STR_PARAMS L.STR_NETFN = some value_netfn)
    (h2 : jrpc_get_key_value (some json_obj) STR_PARAMS L.STR_CMD = some value_cmd)
    (h3 : jrpc_get_key_value (some json_obj) STR_PARAMS L.STR_DATA_LEN = some value_data_len)
    (hd : get_data_field L (some json_obj) value_data_len = some value_data)
    (hdec : decode_data value_data_len value_data = some (data, len)) :
    (∃ msgid env,
      req_parse t L st dest_ptr.buffer (some json_obj) header = some ⟨msgid, some env⟩ ∧
      (t ≠ transport.rmcp_br →
        env.ipmi.msg.netfn = (atoi value_netfn % 256).toNat ∧
        env.ipmi.msg.cmd = (atoi value_cmd % 256).toNat) ∧
      (t = transport.rmcp_br →
        env.ipmi.msg.netfn = L.IPMI_BRIDGE_NETFN_APP ∧
        env.ipmi.msg.cmd = L.IPMI_BRIDGE_IPMI_CMD ∧
        (env.ipmi.msg.bridge.bridge_level ≠ L.IPMI_BRIDGE_MSG_NONE →
          env.ipmi.msg.bridge.br_netfn = (atoi value_netfn % 256).toNat ∧
          env.ipmi.msg.bridge.br_cmd = (atoi value_cmd % 256).toNat))) ∧
    atoi "ff" = 0 ∧ (atoi "300" % 256).toNat = 44 ∧
    (∀ s : String, LONG_MIN ≤ decimal_value s → decimal_value s ≤ LONG_MAX →
      (atoi s % 256).toNat = (decimal_value s % 256).toNat) := by
  refine ⟨?_, by decide, by decide, fun s h1 h2 => by rw [atoi_low_byte s h1 h2]⟩
  obtain ⟨addr, req, b, hres, _, hplain, hbr⟩ := req_parse_accepts t L st json_obj header
    value_netfn value_cmd value_data_len value_data data len hreq h1 h2 h3 hd hdec
  rw [convert_state] at hres
  refine ⟨_, _, hres, ?_, ?_⟩
  · intro ht
    exact ⟨(hplain ht).1, (hplain ht).2.1⟩
  · intro ht
    obtain ⟨e1, e2, e3, e4⟩ := hbr ht
    refine ⟨e1, e2, ?_⟩
    show (build_appmsg L _ addr req header L.IPMI_DFLT_TIMEOUT_MS).msg.bridge.bridge_level
        ≠ L.IPMI_BRIDGE_MSG_NONE →
      (build_appmsg L _ addr req header L.IPMI_DFLT_TIMEOUT_MS).msg.bridge.br_netfn = _ ∧
      (build_appmsg L _ addr req header L.IPMI_DFLT_TIMEOUT_MS).msg.bridge.br_cmd = _
    rw [build_appmsg_bridge]
    split
    · intro _
      exact ⟨e3, e4⟩
    · rename_i hnone
      intro hc
      have : L.IPMI_BRIDGE_MSG_NONE = req.bridge.bridge_level := by
        by_contra hne
        exact hnone hne
      exact absurd this.symm hc

/-- Witness of C34: a serial request with netfn "300" and cmd "ff" is accepted
with the opcode bytes 44 and 0. -/
theorem opcode_not_validated_witness :
    ∃ msgid env,
      req_parse transport.serial sampleHeaders State.fresh dest_ptr.buffer
        (some (mk_request "serial_op_req"
          [("netfn", "300"), ("cmd", "ff"), ("data_len", "0"), ("serial_flag", "3")]))
        (sample_header "serial_op_req") = some ⟨msgid, some env⟩ ∧
      env.ipmi.msg.netfn = 44 ∧ env.ipmi.msg.cmd = 0 := by
  obtain ⟨⟨msgid, env, h, hplain, _⟩, _⟩ := opcode_not_validated transport.serial sampleHeaders
    State.fresh
    (mk_request "serial_op_req"
      [("netfn", "300"), ("cmd", "ff"), ("data_len", "0"), ("serial_flag", "3")])
    (sample_header "serial_op_req") "300" "ff" "0" "" [] 0 (by decide) (by decide) (by decide)
    (by decide) (by decide) (by decide)
  exact ⟨msgid, env, h, (hplain (by decide)).1, (hplain (by decide)).2⟩

/-! ## Theorems on the scan of the handler table and on the two entry points -/

theorem req_parse_null (t : transport) (L : Headers) (st : State) (json_obj : Option json_t)
    (header : ipmi_json_ipc_header_t) :
    req_parse t L st dest_ptr.NULL json_obj header = some st := by
  cases t with
  | rmcp =>
    rcases rmcp_parse_inv L st dest_ptr.NULL json_obj header with
      h | ⟨_, _, _, _, _, _, _, _, _, _, _, _, _, _, _, _, _, _, _, heq⟩
    · exact h
    · exact heq.trans (rmcp_handle_null L st _ header ..)
  | rmcp_br =>
    rcases rmcp_br_parse_inv L st dest_ptr.NULL json_obj header with
      h | ⟨_, _, _, _, _, _, _, _, _, _, _, _, _, _, _, _, _, _, _, _, _, _, _, _, _, _, _, _, _,
        heq⟩
    · exact h
    · exact heq.trans (rmcp_br_handle_null L st _ header ..)
  | ipmb =>
    rcases ipmb_parse_inv L st dest_ptr.NULL json_obj header with
      h | ⟨_, _, _, _, _, _, _, _, _, _, _, _, _, heq⟩
    · exact h
    · exact heq.trans (ipmb_handle_null L st _ header ..)
  | serial =>
    rcases serial_parse_inv L st dest_ptr.NULL json_obj header with
      h | ⟨_, _, _, _, _, _, _, _, _, _, _, _, _, _, _, heq⟩
    · exact h
    · exact heq.trans (serial_handle_null L st _ header ..)

theorem run_routed_null (L : Headers) (st : State) (r : routed) :
    run_routed L st dest_ptr.NULL r = some st := by
  cases r with
  | dropped => rfl
  | parser t parsed_req header => exact req_parse_null t L st (some parsed_req) header

theorem run_routed_returns (L : Headers) (st : State) (dest_msg : dest_ptr) (r : routed) :
    ∃ st', run_routed L st dest_msg r = some st' := by
  cases r with
  | dropped => exact ⟨st, rfl⟩
  | parser t parsed_req header =>
    rcases req_parse_cases t L st dest_msg (some parsed_req) header with
      h | ⟨_, _, _, _, _, _, _, _, _, _, _, _, _, _, hres, _, _⟩
    · exact ⟨_, h⟩
    · exact ⟨_, hres⟩

theorem routes_agree (lib : jsonrpc_lib) (L : Headers) (fd : Int) (text : String)
    (addr : sockaddr_in) (hfd : 0 < fd) :
    app_json_rpc_msg_route lib L fd (some (text, addr))
      = app_json_parse_route lib L (some ⟨text, addr⟩) dest_ptr.buffer := by
  unfold app_json_rpc_msg_route app_json_parse_route
  rw [if_pos hfd]

/-- C36: the two entry points agree. For a descriptor that passes the test
`fd > 0`, a request text left in the receive buffer and a peer address,
`app_json_rpc_msg` ends in the same state (destination buffer and id counter)
as `app_json_parse` called on a queued message with the same text and peer
address, from the same state and with the same destination; both calls
return. For a `NULL` destination both leave the state as it was. -/
theorem entry_points_agree (lib : jsonrpc_lib) (L : Headers) (st : State) (fd : Int)
    (text : String) (addr : sockaddr_in) (dest_msg : dest_ptr) (hfd : 0 < fd) :
    app_json_rpc_msg lib L st fd (some (text, addr)) dest_msg
      = app_json_parse lib L st (some ⟨text, addr⟩) dest_msg ∧
    (∃ st', app_json_parse lib L st (some ⟨text, addr⟩) dest_msg = some st') ∧
    (dest_msg = dest_ptr.NULL →
      app_json_rpc_msg lib L st fd (some (text, addr)) dest_msg = some st ∧
      app_json_parse lib L st (some ⟨text, addr⟩) dest_msg = some st) := by
  have hnull : app_json_rpc_msg lib L st fd (some (text, addr)) dest_ptr.NULL = some st ∧
      app_json_parse lib L st (some ⟨text, addr⟩) dest_ptr.NULL = some st :=
    ⟨run_routed_null L st _, rfl⟩
  refine ⟨?_, run_routed_returns L st dest_msg _, ?_⟩
  · cases dest_msg with
    | NULL => rw [hnull.1, hnull.2]
    | buffer =>
      unfold app_json_rpc_msg app_json_parse
      rw [routes_agree lib L fd text addr hfd]
  · intro h
    subst h
    exact hnull

/-- Witness of C36: an IPMB request received on descriptor 3 and the same
request taken from the queue. -/
theorem entry_points_agree_witness :
    app_json_rpc_msg
        (sample_lib (mk_request "ipmb_req"
          [("rsp_type", "udp"), ("netfn", "6"), ("cmd", "1"), ("data_len", "2"),
           ("data", "AABB"), ("src_addr", "32")]))
        sampleHeaders State.fresh 3 (some ("request", ⟨16777343, 20480⟩)) dest_ptr.buffer
      = app_json_parse
        (sample_lib (mk_request "ipmb_req"
          [("rsp_type", "udp"), ("netfn", "6"), ("cmd", "1"), ("data_len", "2"),
           ("data", "AABB"), ("src_addr", "32")]))
        sampleHeaders State.fresh (some ⟨"request", ⟨16777343, 20480⟩⟩) dest_ptr.buffer :=
  (entry_points_agree
    (sample_lib (mk_request "ipmb_req"
      [("rsp_type", "udp"), ("netfn", "6"), ("cmd", "1"), ("data_len", "2"),
       ("data", "AABB"), ("src_addr", "32")]))
    sampleHeaders State.fresh 3 "request" ⟨16777343, 20480⟩ dest_ptr.buffer (by decide)).1

/-! ## Theorems on the tgt target configuration -/

theorem lun_loop_eq {Lun : Type} (lunConf_to_string : Lun → Except cpp_exception String)
    (render : Lun → String) (luns : List Lun)
    (hrender : ∀ lun ∈ luns, lunConf_to_string lun = Except.ok (render lun))
    (content : String) :
    luns.foldlM
      (fun content lun => do
        let text ← lunConf_to_string lun
        pure (content ++ text)) content
      = Except.ok (content ++ concat_all (luns.map render)) := by
  induction luns generalizing content with
  | nil =>
    show Except.ok content = Except.ok (content ++ "")
    rw [String.append_empty]
  | cons lun rest ih =>
    rw [List.foldlM_cons, hrender lun (List.mem_cons_self _ _)]
    show List.foldlM _ (content ++ render lun) rest = _
    rw [ih (fun l hl => hrender l (List.mem_cons_of_mem _ hl))]
    show Except.ok (content ++ render lun ++ concat_all (rest.map render))
      = Except.ok (content ++ (render lun ++ concat_all (rest.map render)))
    rw [String.append_assoc]

/-- C37: `TgtTargetConfig::to_string`, for LUNs whose rendering returns.
It throws `invalid_argument` when the target IQN is empty or the target has no
LUN, and only then; otherwise it returns the begin tag `<target ` + IQN + `>`
and a newline, the renderings of the LUNs in their stored order, the line of
a tab, `initiator-address`, a blank, the initiator IQN and a newline exactly
when the initiator IQN is not empty, and the end tag `</target>` and a
newline. -/
theorem to_string_spec {Lun : Type} (lunConf_to_string : Lun → Except cpp_exception String)
    (render : Lun → String) (self : TgtTargetConfig Lun)
    (hrender : ∀ lun ∈ self.target_lun, lunConf_to_string lun = Except.ok (render lun)) :
    ((self.target_iqn = "" ∨ self.target_lun = []) →
      ∃ what, self.to_string lunConf_to_string
        = Except.error (cpp_exception.invalid_argument what)) ∧
    (¬ (self.target_iqn = "" ∨ self.target_lun = []) →
      self.to_string lunConf_to_string
        = Except.ok ("<target " ++ self.target_iqn ++ ">" ++ "\n"
            ++ concat_all (self.target_lun.map render)
            ++ (if self.initiator_iqn = "" then ""
                else "\t" ++ ("initiator-address" ++ " " ++ self.initiator_iqn) ++ "\n")
            ++ "</target>" ++ "\n")) ∧
    ((∃ e, self.to_string lunConf_to_string = Except.error e) ↔
      (self.target_iqn = "" ∨ self.target_lun = [])) := by
  have hthrow : (self.target_iqn = "" ∨ self.target_lun = []) →
      ∃ what, self.to_string lunConf_to_string
        = Except.error (cpp_exception.invalid_argument what) := by
    intro h
    unfold TgtTargetConfig.to_string
    by_cases hi : self.target_iqn = ""
    · exact ⟨_, by rw [if_pos hi]⟩
    · rcases h with h | h
      · exact absurd h hi
      · exact ⟨_, by rw [if_neg hi, if_pos (by rw [h]; rfl)]⟩
  have hok : ¬ (self.target_iqn = "" ∨ self.target_lun = []) →
      self.to_string lunConf_to_string
        = Except.ok ("<target " ++ self.target_iqn ++ ">" ++ "\n"
            ++ concat_all (self.target_lun.map render)
            ++ (if self.initiator_iqn = "" then ""
                else "\t" ++ ("initiator-address" ++ " " ++ self.initiator_iqn) ++ "\n")
            ++ "</target>" ++ "\n") := by
    intro h
    have hi : ¬ self.target_iqn = "" := fun hc => h (Or.inl hc)
    have hl : ¬ self.target_lun.length = 0 := fun hc =>
      h (Or.inr (List.eq_nil_of_length_eq_zero hc))
    unfold TgtTargetConfig.to_string
    rw [if_neg hi, if_neg hl]
    show (do
      let content ← self.target_lun.foldlM
        (fun content lun => do
          let text ← lunConf_to_string lun
          pure (content ++ text)) (self.get_target_begin_tag ++ endl)
      pure ((if ¬ self.initiator_iqn = "" then
          content ++ TAB ++ self.get_target_initiator_address ++ endl
        else content) ++ self.get_target_end_tag ++ endl)) = _
    rw [lun_loop_eq lunConf_to_string render self.target_lun hrender]
    show Except.ok ((if ¬ self.initiator_iqn = "" then _ else _) ++ _ ++ _) = _
    by_cases hin : self.initiator_iqn = ""
    · rw [if_neg (fun hc => hc hin), if_pos hin, String.append_empty]
      rfl
    · rw [if_pos hin, if_neg hin]
      show Except.ok (_ ++ "\t" ++ ("initiator-address" ++ " " ++ self.initiator_iqn) ++ "\n"
        ++ "</target>" ++ "\n") = _
      simp only [TgtTargetConfig.get_target_begin_tag, endl, String.append_assoc]
  refine ⟨hthrow, hok, ?_, ?_⟩
  · rintro ⟨e, he⟩
    by_contra hc
    rw [hok hc] at he
    cases he
  · intro h
    obtain ⟨what, hw⟩ := hthrow h
    exact ⟨_, hw⟩

/-- Witness of C37: a target with two LUNs and an initiator. -/
theorem to_string_spec_witness :
    (⟨"iqn.2015-01.com.example:t1", ["lun0", "lun1"], "iqn.2015-01.com.example:i1"⟩
        : TgtTargetConfig String).to_string (fun lun => Except.ok ("\t" ++ lun ++ "\n"))
      = Except.ok ("<target iqn.2015-01.com.example:t1>\n\tlun0\n\tlun1\n"
          ++ "\tinitiator-address iqn.2015-01.com.example:i1\n</target>\n") := by
  have h := (to_string_spec (fun lun => Except.ok ("\t" ++ lun ++ "\n"))
    (fun lun => "\t" ++ lun ++ "\n")
    (⟨"iqn.2015-01.com.example:t1", ["lun0", "lun1"], "iqn.2015-01.com.example:i1"⟩
      : TgtTargetConfig String) (fun _ _ => rfl)).2.1 (by decide)
  rw [h]
  exact congrArg Except.ok (by decide)

/-! ## The parsers at declared lengths that do not fit an `int` -/

/-- The parsers follow the `int` that `atoi` returns. The declared length
"-4294967295" reads as 1, so a request without a data field is rejected; the
declared length "4294967296" reads as 0, so the data field is not read and the
request is accepted with payload length 0; the declared length "4294967297"
reads as 1 and is accepted with the one byte of the data field "AA". The
netfn "9300000000000000000" gives the opcode byte 255. -/
theorem parsers_follow_int_reading :
    req_parse transport.serial sampleHeaders State.fresh dest_ptr.buffer
      (some (mk_request "serial_op_req"
        [("netfn", "6"), ("cmd", "1"), ("data_len", "-4294967295"), ("serial_flag", "3")]))
      (sample_header "serial_op_req") = some State.fresh ∧
    (∃ env,
      req_parse transport.rmcp sampleHeaders State.fresh dest_ptr.buffer
        (some (mk_request "rmcp_req"
          [("netfn", "6"), ("cmd", "1"), ("data_len", "4294967296"),
           ("data", "00112233445566778899AABBCCDDEEFF"), ("target_ip", "10.0.0.5"),
           ("target_port", "623"), ("name", "admin"), ("passwd", "secret")]))
        (sample_header "rmcp_req") = some ⟨2, some env⟩ ∧
      env.ipmi.msg.data_len = 0) ∧
    (∃ env,
      req_parse transport.ipmb sampleHeaders State.fresh dest_ptr.buffer
        (some (mk_request "ipmb_req"
          [("netfn", "9300000000000000000"), ("cmd", "1"), ("data_len", "4294967297"),
           ("data", "AA"), ("src_addr", "32")]))
        (sample_header "ipmb_req") = some ⟨2, some env⟩ ∧
      env.ipmi.msg.data_len = 1 ∧ env.ipmi.msg.data = [170] ∧ env.ipmi.msg.netfn = 255) :=
  ⟨by decide, ⟨_, by rfl, by rfl⟩, ⟨_, by rfl, by rfl, by rfl, by rfl⟩⟩

end IpmiJrpc
